import Mathlib

/-!
# Verification of the cloet model-evaluation engine

Shallow embedding of the cloet package (`checks.py`, `exposures.py`,
`dermal.py`, `inhalation.py`).  Python floats are modelled as exact rational
numbers (`ℚ`); division follows the field convention `x / 0 = 0` (Python's
`ZeroDivisionError` is not modelled — no claim settled here depends on a zero
divisor).  Python exceptions are modelled by an explicit error type carried in
`Except`.  Keyword-argument dictionaries are modelled as insertion-ordered
association lists with Python-dict assignment semantics (`dict_set` replaces
in place, appends new keys at the end).  The bookkeeping entries `'skips'`
and `'route'`, which `model_args` always filters out of `inputs` and
`outputs`, are handled outside the numeric dictionary.
-/

/-- Structured model of the exceptions the package can actually raise.
`bounds` is `checks.BoundsException` (carrying the parameter name and the
violated range the message is formatted from), `nameError` is a Python
`NameError` on an unbound identifier, and `keyError` a missing dictionary
key.  `ScenarioException` and `RouteException` are defined in `checks.py`
but never imported into `dermal.py`, `inhalation.py` or `exposures.py`, so
every `raise ScenarioException(...)` / `raise RouteException(...)` site in
those modules fails looking up the class name — Python raises
`NameError: name 'ScenarioException' is not defined` (resp.
`'RouteException'`) before any message is built.  Those raise sites are
therefore modelled as `nameError` values. -/
inductive PyErr where
  | bounds (name : String) (lo hi : ℚ)
  | nameError (ident : String)
  | keyError (key : String)
deriving DecidableEq, Repr

/-- `checks.check_ul(name, value, min_val=0, max_val=1)`: raises
`BoundsException` when `value < min_val or value > max_val`, otherwise
returns `value` unchanged. -/
def check_ul (name : String) (value : ℚ) (min_val : ℚ := 0) (max_val : ℚ := 1) :
    Except PyErr ℚ :=
  if value < min_val ∨ value > max_val then
    .error (.bounds name min_val max_val)
  else
    .ok value

/-- `checks.check_l(name, value, min_val=0)`: when `value < min_val` the
source formats a `BoundsException` message that reads `max_val`, an
identifier unbound in `check_l`'s scope, so Python raises
`NameError: name 'max_val' is not defined` before the `BoundsException` is
constructed; otherwise `value` is returned unchanged. -/
def check_l (name : String) (value : ℚ) (min_val : ℚ := 0) : Except PyErr ℚ :=
  if value < min_val then
    .error (.nameError "max_val")
  else
    .ok value

/-- `checks.check_u(name, value, max_val=1)`: its condition
`value < min_val or value > max_val` reads `min_val`, unbound in `check_u`'s
scope, so every call raises `NameError: min_val`. -/
def check_u (name : String) (value : ℚ) (max_val : ℚ := 1) : Except PyErr ℚ :=
  .error (.nameError "min_val")

/-- The numeric part of the `kwargs` dictionary threaded through every model
constructor, in insertion order. -/
abbrev Kwargs : Type := List (String × ℚ)

/-- Python dict read: the (unique) binding of the key, if any. -/
def dict_get : Kwargs → String → Option ℚ
  | [], _ => none
  | (k', v) :: rest, k => if k = k' then some v else dict_get rest k

/-- Python dict assignment `kwargs[k] = v`: replaces the binding in place
when the key exists, otherwise appends at the end. -/
def dict_set : Kwargs → String → ℚ → Kwargs
  | [], k, v => [(k, v)]
  | (k', v') :: rest, k, v =>
      if k = k' then (k, v) :: rest else (k', v') :: dict_set rest k v

/-- Reading a required keyword argument; a missing key is a Python
`KeyError`. -/
def getk (kw : Kwargs) (k : String) : Except PyErr ℚ :=
  (dict_get kw k).elim (.error (.keyError k)) .ok

theorem dict_set_nil (k : String) (v : ℚ) : dict_set [] k v = [(k, v)] := rfl

theorem dict_set_cons (k' : String) (v' : ℚ) (rest : Kwargs) (k : String) (v : ℚ) :
    dict_set ((k', v') :: rest) k v =
      if k = k' then (k, v) :: rest else (k', v') :: dict_set rest k v := rfl

theorem dict_get_nil (k : String) : dict_get [] k = none := rfl

theorem dict_get_cons (k' : String) (v : ℚ) (rest : Kwargs) (k : String) :
    dict_get ((k', v) :: rest) k = if k = k' then some v else dict_get rest k := rfl

theorem ok_bind (a : α) (f : α → Except PyErr β) : (Except.ok a >>= f) = f a := rfl

theorem error_bind (e : PyErr) (f : α → Except PyErr β) :
    (Except.error e >>= f) = .error e := rfl

theorem pure_eq_ok (a : α) : (pure a : Except PyErr α) = .ok a := rfl

theorem throw_eq_error (e : PyErr) : (throw e : Except PyErr α) = .error e := rfl

/-- `exposures.potential_dose_rate(route, **kwargs)`: `SQu*Yderm*FT` for the
dermal solids variant (`'SQu' in kwargs`), `S*Qu*Yderm*FT` for the dermal
liquid variant, `Cm*b*h` for the inhalation variant with `Cm` present,
`EF*AH*Ys*Sd` otherwise; on any other route the `raise RouteException(...)`
line references a class name never imported into `exposures.py` (the module
has no imports at all), so the call fails with
`NameError: name 'RouteException' is not defined`. -/
def potential_dose_rate (route : String) (kw : Kwargs) : Except PyErr ℚ :=
  if route = "dermal" then
    if (dict_get kw "SQu").isSome then do
      return (← getk kw "SQu") * (← getk kw "Yderm") * (← getk kw "FT")
    else do
      return (← getk kw "S") * (← getk kw "Qu") * (← getk kw "Yderm") * (← getk kw "FT")
  else if route = "inhalation" then
    if (dict_get kw "Cm").isSome then do
      return (← getk kw "Cm") * (← getk kw "b") * (← getk kw "h")
    else do
      return (← getk kw "EF") * (← getk kw "AH") * (← getk kw "Ys") * (← getk kw "Sd")
  else
    .error (.nameError "RouteException")

/-- `exposures.workers_exposed(NWexp, NS, **kwargs)` = `NWexp * NS`, both
factors drawn from the keyword dictionary. -/
def workers_exposed (kw : Kwargs) : Except PyErr ℚ := do
  return (← getk kw "NWexp") * (← getk kw "NS")

/-- `exposures.daily_dose(PDR, ED, EY, BW, t, **kwargs)` =
`(PDR * ED * EY) / (BW * t * 365)`; `PDR`, `ED`, `EY`, `BW` are drawn from
the keyword dictionary, `t` is passed explicitly at each call site. -/
def daily_dose (t : ℚ) (kw : Kwargs) : Except PyErr ℚ := do
  return (← getk kw "PDR") * (← getk kw "ED") * (← getk kw "EY")
    / ((← getk kw "BW") * t * 365)

/-- `exposures.acute_potential_dose_rate(PDR, BW, **kwargs)` = `PDR / BW`. -/
def acute_potential_dose_rate (kw : Kwargs) : Except PyErr ℚ := do
  return (← getk kw "PDR") / (← getk kw "BW")

/-- Replace every occurrence of the two-character pattern `", "` by `","`,
scanning left to right without rescanning output, exactly like Python's
`str.replace(", ", ",")`. -/
def replace_commaspace : List Char → List Char
  | [] => []
  | ',' :: ' ' :: rest => ',' :: replace_commaspace rest
  | c :: rest => c :: replace_commaspace rest

/-- `str(scenario).lower().replace(", ", ",")` — the normalization every
model constructor applies before storing `self.scenario`. -/
def normalize_scenario (s : String) : String :=
  ⟨replace_commaspace (s.data.map Char.toLower)⟩

/-- A fully constructed model instance: the public result of a successful
constructor run. -/
structure ModelInstance where
  model_name : String
  route : String
  scenario : String
  inputs : Kwargs
  outputs : Kwargs
deriving DecidableEq, Repr

/-- `dermal_model.__init__`: validates the family-common parameters in the
order the source dict literal evaluates them and builds the initial
`kwargs`; note the `"AT": EY` entry — the caller-supplied `AT` is discarded
and `EY` stored in its place. -/
def dermal_model_init (ED NWexp NS EY BW ATc AT : ℚ) : Except PyErr Kwargs := do
  let ed ← check_ul "ED" ED 0 365
  let ey ← check_l "EY" EY 0
  let bw ← check_l "BW" BW 0
  let atc ← check_l "ATc" ATc 0
  return [("ED", ed), ("NWexp", NWexp), ("NS", NS), ("EY", ey), ("BW", bw),
          ("ATc", atc), ("AT", ey)]

/-- `inhalation_model.__init__`: identical to the dermal base except the
`"AT": AT` entry keeps the caller-supplied `AT`. -/
def inhalation_model_init (ED NWexp NS EY BW ATc AT : ℚ) : Except PyErr Kwargs := do
  let ed ← check_ul "ED" ED 0 365
  let ey ← check_l "EY" EY 0
  let bw ← check_l "BW" BW 0
  let atc ← check_l "ATc" ATc 0
  return [("ED", ed), ("NWexp", NWexp), ("NS", NS), ("EY", ey), ("BW", bw),
          ("ATc", atc), ("AT", AT)]

/-- The five output-computation lines every constructor ends with: compute
`PDR`, `NW`, `LADD` (with `t = ATc`), `ADD` (with `t = AT`), `APDR` from the
current `kwargs`, then freeze `outputs` — the entries added after the
`inputs` snapshot (`pre` holds the post-snapshot intermediates `Cv`/`Cm`
when the model has them) with the `PDR` entry popped and re-appended under
the route's display key. -/
def compute_outputs (route dose_key : String) (pre kw : Kwargs) :
    Except PyErr Kwargs := do
  let pdr ← potential_dose_rate route kw
  let kw := dict_set kw "PDR" pdr
  let nw ← workers_exposed kw
  let kw := dict_set kw "NW" nw
  let atc ← getk kw "ATc"
  let ladd ← daily_dose atc kw
  let kw := dict_set kw "LADD" ladd
  let at' ← getk kw "AT"
  let add ← daily_dose at' kw
  let kw := dict_set kw "ADD" add
  let apdr ← acute_potential_dose_rate kw
  return pre ++ [("NW", nw), ("LADD", ladd), ("ADD", add), ("APDR", apdr),
                 (dose_key, pdr)]

/-- `one_hand_liquid_contact.get_scenarios()`. -/
def one_hand_liquid_contact_scenarios : List String := ["low", "high", "user"]

/-- `dermal.one_hand_liquid_contact.__init__` (EPA-OPPT 1-Hand Dermal
Contact with Liquid): scenario membership tested on the normalized form;
`Qu` resolved `low ↦ 0.7`, `high ↦ 2.1`, `user ↦` caller value. -/
def one_hand_liquid_contact (Yderm : ℚ) (scenario : String := "high")
    (S : ℚ := 535) (Qu : ℚ := 21/10) (FT : ℚ := 1) (ED : ℚ := 1)
    (NWexp : ℚ := 1) (NS : ℚ := 1) (EY : ℚ := 40) (BW : ℚ := 70)
    (ATc : ℚ := 70) (AT : ℚ := 40) : Except PyErr ModelInstance := do
  let kw ← dermal_model_init ED NWexp NS EY BW ATc AT
  let sc := normalize_scenario scenario
  if sc ∉ one_hand_liquid_contact_scenarios then
    throw (.nameError "ScenarioException")
  let kw := dict_set kw "S" S
  let kw :=
    if sc = "low" then dict_set kw "Qu" (7/10)
    else if sc = "high" then dict_set kw "Qu" (21/10)
    else if sc = "user" then dict_set kw "Qu" Qu
    else kw
  let ft ← check_l "FT" FT 0
  let kw := dict_set kw "FT" ft
  let yd ← check_ul "Yderm" Yderm 0 1
  let kw := dict_set kw "Yderm" yd
  let outputs ← compute_outputs "dermal" "Dexp" [] kw
  return { model_name := "EPA-OPPT 1-Hand Dermal Contact with Liquid",
           route := "dermal", scenario := sc, inputs := kw, outputs := outputs }

/-- `two_hand_liquid_contact.get_scenarios()`. -/
def two_hand_liquid_contact_scenarios : List String := ["low", "high", "user"]

/-- `dermal.two_hand_liquid_contact.__init__` (EPA-OPPT 2-Hand Dermal
Contact with Liquid): like the 1-hand model with `S` defaulting to 1070. -/
def two_hand_liquid_contact (Yderm : ℚ) (scenario : String := "high")
    (S : ℚ := 1070) (Qu : ℚ := 21/10) (FT : ℚ := 1) (ED : ℚ := 1)
    (NWexp : ℚ := 1) (NS : ℚ := 1) (EY : ℚ := 40) (BW : ℚ := 70)
    (ATc : ℚ := 70) (AT : ℚ := 40) : Except PyErr ModelInstance := do
  let kw ← dermal_model_init ED NWexp NS EY BW ATc AT
  let sc := normalize_scenario scenario
  if sc ∉ two_hand_liquid_contact_scenarios then
    throw (.nameError "ScenarioException")
  let kw := dict_set kw "S" S
  let kw :=
    if sc = "low" then dict_set kw "Qu" (7/10)
    else if sc = "high" then dict_set kw "Qu" (21/10)
    else if sc = "user" then dict_set kw "Qu" Qu
    else kw
  let ft ← check_l "FT" FT 0
  let kw := dict_set kw "FT" ft
  let yd ← check_ul "Yderm" Yderm 0 1
  let kw := dict_set kw "Yderm" yd
  let outputs ← compute_outputs "dermal" "Dexp" [] kw
  return { model_name := "EPA-OPPT 2-Hand Dermal Contact with Liquid",
           route := "dermal", scenario := sc, inputs := kw, outputs := outputs }

/-- `two_hand_liquid_immersion.get_scenarios()`. -/
def two_hand_liquid_immersion_scenarios : List String := ["low", "high", "user"]

/-- `dermal.two_hand_liquid_immersion.__init__` (EPA-OPPT 2-Hand Dermal
Immersion with Liquid): `Qu` resolved `low ↦ 1.3`, `high ↦ 10.3`,
`user ↦` caller value. -/
def two_hand_liquid_immersion (Yderm : ℚ) (scenario : String := "high")
    (S : ℚ := 1070) (Qu : ℚ := 103/10) (FT : ℚ := 1) (ED : ℚ := 1)
    (NWexp : ℚ := 1) (NS : ℚ := 1) (EY : ℚ := 40) (BW : ℚ := 70)
    (ATc : ℚ := 70) (AT : ℚ := 40) : Except PyErr ModelInstance := do
  let kw ← dermal_model_init ED NWexp NS EY BW ATc AT
  let sc := normalize_scenario scenario
  if sc ∉ two_hand_liquid_immersion_scenarios then
    throw (.nameError "ScenarioException")
  let kw := dict_set kw "S" S
  let kw :=
    if sc = "low" then dict_set kw "Qu" (13/10)
    else if sc = "high" then dict_set kw "Qu" (103/10)
    else if sc = "user" then dict_set kw "Qu" Qu
    else kw
  let ft ← check_l "FT" FT 0
  let kw := dict_set kw "FT" ft
  let yd ← check_ul "Yderm" Yderm 0 1
  let kw := dict_set kw "Yderm" yd
  let outputs ← compute_outputs "dermal" "Dexp" [] kw
  return { model_name := "EPA-OPPT 2-Hand Dermal Immersion with Liquid",
           route := "dermal", scenario := sc, inputs := kw, outputs := outputs }

/-- `two_hand_solids_contact.get_scenarios()`. -/
def two_hand_solids_contact_scenarios : List String := ["high", "user"]

/-- `dermal.two_hand_solids_contact.__init__` (EPA-OPPT 2-Hand Dermal
Contact with Solids): stores `SQu` (`high ↦ 3100`, `user ↦` caller), so the
solids branch of `potential_dose_rate` fires. -/
def two_hand_solids_contact (Yderm : ℚ) (scenario : String := "high")
    (SQu : ℚ := 3100) (FT : ℚ := 1) (ED : ℚ := 1)
    (NWexp : ℚ := 1) (NS : ℚ := 1) (EY : ℚ := 40) (BW : ℚ := 70)
    (ATc : ℚ := 70) (AT : ℚ := 40) : Except PyErr ModelInstance := do
  let kw ← dermal_model_init ED NWexp NS EY BW ATc AT
  let sc := normalize_scenario scenario
  if sc ∉ two_hand_solids_contact_scenarios then
    throw (.nameError "ScenarioException")
  let kw :=
    if sc = "high" then dict_set kw "SQu" 3100
    else if sc = "user" then dict_set kw "SQu" SQu
    else kw
  let ft ← check_l "FT" FT 0
  let kw := dict_set kw "FT" ft
  let yd ← check_ul "Yderm" Yderm 0 1
  let kw := dict_set kw "Yderm" yd
  let outputs ← compute_outputs "dermal" "Dexp" [] kw
  return { model_name := "EPA-OPPT 2-Hand Dermal Contact with Solids",
           route := "dermal", scenario := sc, inputs := kw, outputs := outputs }

/-- `two_hand_container_surface_contact.get_scenarios()`. -/
def two_hand_container_surface_contact_scenarios : List String := ["high", "user"]

/-- `dermal.two_hand_container_surface_contact.__init__` (EPA-OPPT 2-Hand
Dermal Contact with Container Surfaces): `SQu` resolved `high ↦ 1100`,
`user ↦` caller value. -/
def two_hand_container_surface_contact (Yderm : ℚ) (scenario : String := "high")
    (SQu : ℚ := 1100) (FT : ℚ := 1) (ED : ℚ := 1)
    (NWexp : ℚ := 1) (NS : ℚ := 1) (EY : ℚ := 40) (BW : ℚ := 70)
    (ATc : ℚ := 70) (AT : ℚ := 40) : Except PyErr ModelInstance := do
  let kw ← dermal_model_init ED NWexp NS EY BW ATc AT
  let sc := normalize_scenario scenario
  if sc ∉ two_hand_container_surface_contact_scenarios then
    throw (.nameError "ScenarioException")
  let kw :=
    if sc = "high" then dict_set kw "SQu" 1100
    else if sc = "user" then dict_set kw "SQu" SQu
    else kw
  let ft ← check_l "FT" FT 0
  let kw := dict_set kw "FT" ft
  let yd ← check_ul "Yderm" Yderm 0 1
  let kw := dict_set kw "Yderm" yd
  let outputs ← compute_outputs "dermal" "Dexp" [] kw
  return { model_name := "EPA-OPPT 2-Hand Dermal Contact with Container Surfaces",
           route := "dermal", scenario := sc, inputs := kw, outputs := outputs }

/-- `user_defined_dermal.get_scenarios()`. -/
def user_defined_dermal_scenarios : List String := ["low", "high", "user"]

/-- `dermal.user_defined_dermal.__init__` (User-defined Dermal): the
scenario selects both `S` and `Qu` (`low ↦ (535, 0.7)`, `high ↦ (1070,
2.1)`, `user ↦` caller values). -/
def user_defined_dermal (Yderm : ℚ) (scenario : String := "high")
    (S : ℚ := 1070) (Qu : ℚ := 21/10) (FT : ℚ := 1) (ED : ℚ := 1)
    (NWexp : ℚ := 1) (NS : ℚ := 1) (EY : ℚ := 40) (BW : ℚ := 70)
    (ATc : ℚ := 70) (AT : ℚ := 40) : Except PyErr ModelInstance := do
  let kw ← dermal_model_init ED NWexp NS EY BW ATc AT
  let sc := normalize_scenario scenario
  if sc ∉ user_defined_dermal_scenarios then
    throw (.nameError "ScenarioException")
  let kw :=
    if sc = "low" then dict_set (dict_set kw "S" 535) "Qu" (7/10)
    else if sc = "high" then dict_set (dict_set kw "S" 1070) "Qu" (21/10)
    else if sc = "user" then dict_set (dict_set kw "S" S) "Qu" Qu
    else kw
  let ft ← check_l "FT" FT 0
  let kw := dict_set kw "FT" ft
  let yd ← check_ul "Yderm" Yderm 0 1
  let kw := dict_set kw "Yderm" yd
  let outputs ← compute_outputs "dermal" "Dexp" [] kw
  return { model_name := "User-defined Dermal",
           route := "dermal", scenario := sc, inputs := kw, outputs := outputs }

/-- `small_volume_solids_handling.get_scenarios()`. -/
def small_volume_solids_handling_scenarios : List String :=
  ["typical", "worst-case", "user"]

/-- `inhalation.small_volume_solids_handling.__init__` (EPA-OPPT Small
Volume Solids Handling): checks `AH ∈ [0,54]`, `Ys ∈ [0,1]`, `Sd ∈ [0,3]`,
then resolves `EF` (`typical ↦ 0.0477`, `worst-case ↦ 0.161`, `user ↦`
caller); no `Cm`, so `I = EF*AH*Ys*Sd`. -/
def small_volume_solids_handling (Ys : ℚ) (scenario : String := "typical")
    (EF : ℚ := 477/10000) (AH : ℚ := 1) (Sd : ℚ := 1) (ED : ℚ := 1)
    (NWexp : ℚ := 1) (NS : ℚ := 1) (EY : ℚ := 40) (BW : ℚ := 70)
    (ATc : ℚ := 70) (AT : ℚ := 40) : Except PyErr ModelInstance := do
  let kw ← inhalation_model_init ED NWexp NS EY BW ATc AT
  let sc := normalize_scenario scenario
  if sc ∉ small_volume_solids_handling_scenarios then
    throw (.nameError "ScenarioException")
  let ah ← check_ul "AH" AH 0 54
  let kw := dict_set kw "AH" ah
  let ys ← check_ul "Ys" Ys 0 1
  let kw := dict_set kw "Ys" ys
  let sd ← check_ul "Sd" Sd 0 3
  let kw := dict_set kw "Sd" sd
  let kw :=
    if sc = "typical" then dict_set kw "EF" (477/10000)
    else if sc = "worst-case" then dict_set kw "EF" (161/1000)
    else if sc = "user" then dict_set kw "EF" EF
    else kw
  let outputs ← compute_outputs "inhalation" "I" [] kw
  return { model_name := "EPA-OPPT Small Volume Solids Handling",
           route := "inhalation", scenario := sc, inputs := kw, outputs := outputs }

/-- `mass_balance.get_scenarios()`. -/
def mass_balance_scenarios : List String :=
  ["indoor,typical", "indoor,worst-case", "outdoor,typical",
   "outdoor,worst-case", "user"]

/-- `mass_balance._Cv(**kwargs)` =
`min(170000*T*G/(MW*Q*k), 1000000*X*VP/760)`. -/
def mass_balance_Cv (kw : Kwargs) : Except PyErr ℚ := do
  return min (170000 * (← getk kw "T") * (← getk kw "G")
      / ((← getk kw "MW") * (← getk kw "Q") * (← getk kw "k")))
    (1000000 * (← getk kw "X") * (← getk kw "VP") / 760)

/-- `mass_balance._Cm(**kwargs)` = `Cv * MW / Vm`, with `Cv` read from the
dictionary where the constructor has just stored it. -/
def mass_balance_Cm (kw : Kwargs) : Except PyErr ℚ := do
  return (← getk kw "Cv") * (← getk kw "MW") / (← getk kw "Vm")

/-- `inhalation.mass_balance.__init__` (EPA-OPPT Mass Balance): stores the
chemical parameters unchecked, re-stores `EY`, `BW`, `ATc`, `AT`, resolves
`Q` and `k` from the five-scenario table (outdoor worst-case uses
`Q = 26400*(60*vz/5280)^3`), snapshots `inputs`, then computes `Cv`, `Cm`
and the standard outputs. -/
def mass_balance (G MW VP X : ℚ) (scenario : String := "indoor,typical")
    (T : ℚ := 298) (Q : ℚ := 3000) (k : ℚ := 1/2) (Vm : ℚ := 489/20)
    (b : ℚ := 5/4) (h : ℚ := 8) (vz : ℚ := 440) (ED : ℚ := 1)
    (NWexp : ℚ := 1) (NS : ℚ := 1) (EY : ℚ := 40) (BW : ℚ := 70)
    (ATc : ℚ := 70) (AT : ℚ := 40) : Except PyErr ModelInstance := do
  let kw ← inhalation_model_init ED NWexp NS EY BW ATc AT
  let sc := normalize_scenario scenario
  if sc ∉ mass_balance_scenarios then
    throw (.nameError "ScenarioException")
  let kw := dict_set kw "T" T
  let kw := dict_set kw "G" G
  let kw := dict_set kw "MW" MW
  let kw := dict_set kw "X" X
  let kw := dict_set kw "VP" VP
  let kw := dict_set kw "Vm" Vm
  let kw := dict_set kw "b" b
  let kw := dict_set kw "h" h
  let kw := dict_set kw "EY" EY
  let kw := dict_set kw "BW" BW
  let kw := dict_set kw "ATc" ATc
  let kw := dict_set kw "AT" AT
  let kw :=
    if sc = "indoor,typical" then dict_set (dict_set kw "Q" 3000) "k" (1/2)
    else if sc = "indoor,worst-case" then dict_set (dict_set kw "Q" 500) "k" (1/10)
    else if sc = "outdoor,typical" then dict_set (dict_set kw "Q" 237600) "k" (1/2)
    else if sc = "outdoor,worst-case" then
      dict_set (dict_set kw "Q" (26400 * (60 * vz / 5280)^(3:ℕ))) "k" (1/10)
    else if sc = "user" then dict_set (dict_set kw "Q" Q) "k" k
    else kw
  let cv ← mass_balance_Cv kw
  let kw' := dict_set kw "Cv" cv
  let cm ← mass_balance_Cm kw'
  let kw' := dict_set kw' "Cm" cm
  let outputs ← compute_outputs "inhalation" "I" [("Cv", cv), ("Cm", cm)] kw'
  return { model_name := "EPA-OPPT Mass Balance",
           route := "inhalation", scenario := sc, inputs := kw, outputs := outputs }

/-- `pel_limiting_particulates.get_scenarios()`. -/
def pel_limiting_particulates_scenarios : List String := ["user"]

/-- `pel_limiting_particulates._Cm(**kwargs)` = `KCk * Ys / Ypel`. -/
def pel_limiting_particulates_Cm (kw : Kwargs) : Except PyErr ℚ := do
  return (← getk kw "KCk") * (← getk kw "Ys") / (← getk kw "Ypel")

/-- `inhalation.pel_limiting_particulates.__init__` (OSHA PEL-limiting
Model for Substance-specific Particulates): note the membership test uses
the RAW `scenario` argument, not the normalized form that is stored. -/
def pel_limiting_particulates (Ys : ℚ) (scenario : String := "user")
    (KCk : ℚ := 15) (Ypel : ℚ := 1) (b : ℚ := 5/4) (h : ℚ := 8) (ED : ℚ := 1)
    (NWexp : ℚ := 1) (NS : ℚ := 1) (EY : ℚ := 40) (BW : ℚ := 70)
    (ATc : ℚ := 70) (AT : ℚ := 40) : Except PyErr ModelInstance := do
  let kw ← inhalation_model_init ED NWexp NS EY BW ATc AT
  let sc := normalize_scenario scenario
  if scenario ∉ pel_limiting_particulates_scenarios then
    throw (.nameError "ScenarioException")
  let kw := dict_set kw "KCk" KCk
  let ys ← check_ul "Ys" Ys 0 1
  let kw := dict_set kw "Ys" ys
  let ypel ← check_ul "Ypel" Ypel 0 1
  let kw := dict_set kw "Ypel" ypel
  let b' ← check_ul "b" b 0 (79/10)
  let kw := dict_set kw "b" b'
  let h' ← check_ul "h" h 0 24
  let kw := dict_set kw "h" h'
  let cm ← pel_limiting_particulates_Cm kw
  let kw' := dict_set kw "Cm" cm
  let outputs ← compute_outputs "inhalation" "I" [("Cm", cm)] kw'
  return { model_name := "OSHA PEL-limiting Model for Substance-specific Particulates",
           route := "inhalation", scenario := sc, inputs := kw, outputs := outputs }

/-- `pel_limiting_vapors.get_scenarios()`. -/
def pel_limiting_vapors_scenarios : List String := ["user"]

/-- `pel_limiting_vapors._Cv(**kwargs)` =
`min(Cvk*(VP*Ys/MW)/(VPpel*Ypel/MWpel), 1000000*X*VP/760)`. -/
def pel_limiting_vapors_Cv (kw : Kwargs) : Except PyErr ℚ := do
  return min ((← getk kw "Cvk") * ((← getk kw "VP") * (← getk kw "Ys") / (← getk kw "MW"))
      / ((← getk kw "VPpel") * (← getk kw "Ypel") / (← getk kw "MWpel")))
    (1000000 * (← getk kw "X") * (← getk kw "VP") / 760)

/-- `pel_limiting_vapors._Cm(**kwargs)` = `Cv * MW / Vm`. -/
def pel_limiting_vapors_Cm (kw : Kwargs) : Except PyErr ℚ := do
  return (← getk kw "Cv") * (← getk kw "MW") / (← getk kw "Vm")

/-- `inhalation.pel_limiting_vapors.__init__` (OSHA PEL-limiting Model for
Substance-specific Vapors): the membership test uses the RAW `scenario`
argument; the stored `Ypel` is overwritten with `1 - Ys`, so the
caller-supplied `Ypel` argument is never read. -/
def pel_limiting_vapors (Cvk VP Ys MW VPpel Ypel MWpel X : ℚ)
    (scenario : String := "user") (Vm : ℚ := 489/20) (b : ℚ := 5/4)
    (h : ℚ := 8) (ED : ℚ := 1) (NWexp : ℚ := 1) (NS : ℚ := 1) (EY : ℚ := 40)
    (BW : ℚ := 70) (ATc : ℚ := 70) (AT : ℚ := 40) : Except PyErr ModelInstance := do
  let kw ← inhalation_model_init ED NWexp NS EY BW ATc AT
  let sc := normalize_scenario scenario
  if scenario ∉ pel_limiting_vapors_scenarios then
    throw (.nameError "ScenarioException")
  let kw := dict_set kw "Cvk" Cvk
  let kw := dict_set kw "VP" VP
  let ys ← check_ul "Ys" Ys 0 1
  let kw := dict_set kw "Ys" ys
  let kw := dict_set kw "MW" MW
  let kw := dict_set kw "VPpel" VPpel
  let kw := dict_set kw "Ypel" (1 - ys)
  let kw := dict_set kw "MWpel" MWpel
  let x ← check_ul "X" X 0 1
  let kw := dict_set kw "X" x
  let vm ← check_l "Vm" Vm 0
  let kw := dict_set kw "Vm" vm
  let b' ← check_ul "b" b 0 (79/10)
  let kw := dict_set kw "b" b'
  let h' ← check_ul "h" h 0 24
  let kw := dict_set kw "h" h'
  let cv ← pel_limiting_vapors_Cv kw
  let kw' := dict_set kw "Cv" cv
  let cm ← pel_limiting_vapors_Cm kw'
  let kw' := dict_set kw' "Cm" cm
  let outputs ← compute_outputs "inhalation" "I" [("Cv", cv), ("Cm", cm)] kw'
  return { model_name := "OSHA PEL-limiting Model for Substance-specific Vapors",
           route := "inhalation", scenario := sc, inputs := kw, outputs := outputs }

/-- `total_pnor_pel_limiting.get_scenarios()`. -/
def total_pnor_pel_limiting_scenarios : List String := ["user"]

/-- `total_pnor_pel_limiting._Cm(**kwargs)` = `KCk * Ys`. -/
def total_pnor_pel_limiting_Cm (kw : Kwargs) : Except PyErr ℚ := do
  return (← getk kw "KCk") * (← getk kw "Ys")

/-- `inhalation.total_pnor_pel_limiting.__init__` (OSHA Total PNOR
PEL-limiting): raw-string membership test; `Cm = KCk * Ys`. -/
def total_pnor_pel_limiting (Ys : ℚ) (scenario : String := "user")
    (KCk : ℚ := 15) (b : ℚ := 5/4) (h : ℚ := 8) (ED : ℚ := 1)
    (NWexp : ℚ := 1) (NS : ℚ := 1) (EY : ℚ := 40) (BW : ℚ := 70)
    (ATc : ℚ := 70) (AT : ℚ := 40) : Except PyErr ModelInstance := do
  let kw ← inhalation_model_init ED NWexp NS EY BW ATc AT
  let sc := normalize_scenario scenario
  if scenario ∉ total_pnor_pel_limiting_scenarios then
    throw (.nameError "ScenarioException")
  let kw := dict_set kw "KCk" KCk
  let ys ← check_ul "Ys" Ys 0 1
  let kw := dict_set kw "Ys" ys
  let b' ← check_ul "b" b 0 (79/10)
  let kw := dict_set kw "b" b'
  let h' ← check_ul "h" h 0 24
  let kw := dict_set kw "h" h'
  let cm ← total_pnor_pel_limiting_Cm kw
  let kw' := dict_set kw "Cm" cm
  let outputs ← compute_outputs "inhalation" "I" [("Cm", cm)] kw'
  return { model_name := "OSHA Total PNOR PEL-limiting",
           route := "inhalation", scenario := sc, inputs := kw, outputs := outputs }

/-- `respirable_pnor_pel_limiting.get_scenarios()`. -/
def respirable_pnor_pel_limiting_scenarios : List String := ["user"]

/-- `respirable_pnor_pel_limiting._Cm(**kwargs)` = `KCk * Ys`. -/
def respirable_pnor_pel_limiting_Cm (kw : Kwargs) : Except PyErr ℚ := do
  return (← getk kw "KCk") * (← getk kw "Ys")

/-- `inhalation.respirable_pnor_pel_limiting.__init__` (OSHA Respirable
PNOR PEL-limiting): like the total-PNOR model with `KCk` defaulting to 5. -/
def respirable_pnor_pel_limiting (Ys : ℚ) (scenario : String := "user")
    (KCk : ℚ := 5) (b : ℚ := 5/4) (h : ℚ := 8) (ED : ℚ := 1)
    (NWexp : ℚ := 1) (NS : ℚ := 1) (EY : ℚ := 40) (BW : ℚ := 70)
    (ATc : ℚ := 70) (AT : ℚ := 40) : Except PyErr ModelInstance := do
  let kw ← inhalation_model_init ED NWexp NS EY BW ATc AT
  let sc := normalize_scenario scenario
  if scenario ∉ respirable_pnor_pel_limiting_scenarios then
    throw (.nameError "ScenarioException")
  let kw := dict_set kw "KCk" KCk
  let ys ← check_ul "Ys" Ys 0 1
  let kw := dict_set kw "Ys" ys
  let b' ← check_ul "b" b 0 (79/10)
  let kw := dict_set kw "b" b'
  let h' ← check_ul "h" h 0 24
  let kw := dict_set kw "h" h'
  let cm ← respirable_pnor_pel_limiting_Cm kw
  let kw' := dict_set kw "Cm" cm
  let outputs ← compute_outputs "inhalation" "I" [("Cm", cm)] kw'
  return { model_name := "OSHA Respirable PNOR PEL-limiting",
           route := "inhalation", scenario := sc, inputs := kw, outputs := outputs }

/-- `automobile_oem_spray_coating.get_scenarios()`. -/
def automobile_oem_spray_coating_scenarios : List String :=
  ["conventional,downdraft", "conventional,crossdraft",
   "hvlp,downdraft", "hvlp,crossdraft", "user"]

/-- `automobile_oem_spray_coating._Cm(**kwargs)` = `KCk * Ys`. -/
def automobile_oem_spray_coating_Cm (kw : Kwargs) : Except PyErr ℚ := do
  return (← getk kw "KCk") * (← getk kw "Ys")

/-- `inhalation.automobile_oem_spray_coating.__init__` (EPA-OPPT automobile
OEM Spray Coating): `KCk` from the spray-technology × airflow table; when
`Ys` is `None` it defaults to `check_ul('Ys', min(Ymist/Ysf, 1), 0, 1)`. -/
def automobile_oem_spray_coating (Ymist : ℚ)
    (scenario : String := "conventional,downdraft") (KCk : ℚ := 23/10)
    (Ys : Option ℚ := none) (Ysf : ℚ := 1/4) (b : ℚ := 5/4) (h : ℚ := 8)
    (ED : ℚ := 1) (NWexp : ℚ := 17) (NS : ℚ := 1) (EY : ℚ := 40)
    (BW : ℚ := 70) (ATc : ℚ := 70) (AT : ℚ := 40) : Except PyErr ModelInstance := do
  let kw ← inhalation_model_init ED NWexp NS EY BW ATc AT
  let sc := normalize_scenario scenario
  if sc ∉ automobile_oem_spray_coating_scenarios then
    throw (.nameError "ScenarioException")
  let kw :=
    if sc = "conventional,downdraft" then dict_set kw "KCk" (23/10)
    else if sc = "conventional,crossdraft" then dict_set kw "KCk" 15
    else if sc = "hvlp,downdraft" then dict_set kw "KCk" (19/10)
    else if sc = "hvlp,crossdraft" then dict_set kw "KCk" 15
    else if sc = "user" then dict_set kw "KCk" KCk
    else kw
  let ymist ← check_ul "Ymist" Ymist 0 1
  let kw := dict_set kw "Ymist" ymist
  let ysf ← check_ul "Ysf" Ysf 0 1
  let kw := dict_set kw "Ysf" ysf
  let ys ← match Ys with
    | none => check_ul "Ys" (min (ymist / ysf) 1) 0 1
    | some ysv => check_ul "Ys" ysv 0 1
  let kw := dict_set kw "Ys" ys
  let b' ← check_ul "b" b 0 (79/10)
  let kw := dict_set kw "b" b'
  let h' ← check_ul "h" h 0 24
  let kw := dict_set kw "h" h'
  let cm ← automobile_oem_spray_coating_Cm kw
  let kw' := dict_set kw "Cm" cm
  let outputs ← compute_outputs "inhalation" "I" [("Cm", cm)] kw'
  return { model_name := "EPA-OPPT automobile OEM Spray Coating",
           route := "inhalation", scenario := sc, inputs := kw, outputs := outputs }

/-- `automobile_refinish_spray_coating.get_scenarios()`. -/
def automobile_refinish_spray_coating_scenarios : List String :=
  ["conventional,downdraft", "conventional,crossdraft",
   "hvlp,downdraft", "hvlp,crossdraft", "user"]

/-- `automobile_refinish_spray_coating._Cm(**kwargs)` = `KCk * Ys`. -/
def automobile_refinish_spray_coating_Cm (kw : Kwargs) : Except PyErr ℚ := do
  return (← getk kw "KCk") * (← getk kw "Ys")

/-- `inhalation.automobile_refinish_spray_coating.__init__` (EPA-OPPT
Automobile Refinish Spray Coating): same table and `Ys` defaulting as the
OEM model, different defaults (`scenario`, `KCk`, `NWexp`). -/
def automobile_refinish_spray_coating (Ymist : ℚ)
    (scenario : String := "conventional,crossdraft") (Ys : Option ℚ := none)
    (KCk : ℚ := 15) (Ysf : ℚ := 1/4) (b : ℚ := 5/4) (h : ℚ := 8)
    (ED : ℚ := 1) (NWexp : ℚ := 3) (NS : ℚ := 1) (EY : ℚ := 40)
    (BW : ℚ := 70) (ATc : ℚ := 70) (AT : ℚ := 40) : Except PyErr ModelInstance := do
  let kw ← inhalation_model_init ED NWexp NS EY BW ATc AT
  let sc := normalize_scenario scenario
  if sc ∉ automobile_refinish_spray_coating_scenarios then
    throw (.nameError "ScenarioException")
  let kw :=
    if sc = "conventional,downdraft" then dict_set kw "KCk" (23/10)
    else if sc = "conventional,crossdraft" then dict_set kw "KCk" 15
    else if sc = "hvlp,downdraft" then dict_set kw "KCk" (19/10)
    else if sc = "hvlp,crossdraft" then dict_set kw "KCk" 15
    else if sc = "user" then dict_set kw "KCk" KCk
    else kw
  let ymist ← check_ul "Ymist" Ymist 0 1
  let kw := dict_set kw "Ymist" ymist
  let ysf ← check_ul "Ysf" Ysf 0 1
  let kw := dict_set kw "Ysf" ysf
  let ys ← match Ys with
    | none => check_ul "Ys" (min (ymist / ysf) 1) 0 1
    | some ysv => check_ul "Ys" ysv 0 1
  let kw := dict_set kw "Ys" ys
  let b' ← check_ul "b" b 0 (79/10)
  let kw := dict_set kw "b" b'
  let h' ← check_ul "h" h 0 24
  let kw := dict_set kw "h" h'
  let cm ← automobile_refinish_spray_coating_Cm kw
  let kw' := dict_set kw "Cm" cm
  let outputs ← compute_outputs "inhalation" "I" [("Cm", cm)] kw'
  return { model_name := "EPA-OPPT Automobile Refinish Spray Coating",
           route := "inhalation", scenario := sc, inputs := kw, outputs := outputs }

/-- `automobile_spray_coating.get_scenarios()`: note there is NO `'user'`
entry, although the constructor's dispatch chain has a `'user'` branch. -/
def automobile_spray_coating_scenarios : List String :=
  ["low,conventional,crossdraft", "high,conventional,crossdraft",
   "low,conventional,downdraft", "high,conventional,downdraft",
   "low,hvlp,crossdraft", "high,hvlp,crossdraft",
   "low,hvlp,downdraft", "high,hvlp,downdraft"]

/-- `automobile_spray_coating._Cm(**kwargs)` = `KCk`. -/
def automobile_spray_coating_Cm (kw : Kwargs) : Except PyErr ℚ := do
  return (← getk kw "KCk")

/-- `inhalation.automobile_spray_coating.__init__` (EPA-OPPT Automobile
Spray Coating): `KCk` from an 8-way low/high × technology × airflow table;
because `get_scenarios()` lacks `'user'`, the `'user'` branch that would
store the caller's `KCk` is unreachable; `b` and `h` are stored without any
bounds check. -/
def automobile_spray_coating (scenario : String := "high,conventional,crossdraft")
    (KCk : ℚ := 184/10) (b : ℚ := 5/4) (h : ℚ := 8) (ED : ℚ := 1)
    (NWexp : ℚ := 3) (NS : ℚ := 1) (EY : ℚ := 40) (BW : ℚ := 70)
    (ATc : ℚ := 70) (AT : ℚ := 40) : Except PyErr ModelInstance := do
  let kw ← inhalation_model_init ED NWexp NS EY BW ATc AT
  let sc := normalize_scenario scenario
  if sc ∉ automobile_spray_coating_scenarios then
    throw (.nameError "ScenarioException")
  let kw :=
    if sc = "low,conventional,crossdraft" then dict_set kw "KCk" (5/100)
    else if sc = "high,conventional,crossdraft" then dict_set kw "KCk" (184/10)
    else if sc = "low,conventional,downdraft" then dict_set kw "KCk" (1/100)
    else if sc = "high,conventional,downdraft" then dict_set kw "KCk" (37/10)
    else if sc = "low,hvlp,crossdraft" then dict_set kw "KCk" 1
    else if sc = "high,hvlp,crossdraft" then dict_set kw "KCk" (52/10)
    else if sc = "low,hvlp,downdraft" then dict_set kw "KCk" (6/10)
    else if sc = "high,hvlp,downdraft" then dict_set kw "KCk" (14/10)
    else if sc = "user" then dict_set kw "KCk" KCk
    else kw
  let kw := dict_set kw "b" b
  let kw := dict_set kw "h" h
  let cm ← automobile_spray_coating_Cm kw
  let kw' := dict_set kw "Cm" cm
  let outputs ← compute_outputs "inhalation" "I" [("Cm", cm)] kw'
  return { model_name := "EPA-OPPT Automobile Spray Coating",
           route := "inhalation", scenario := sc, inputs := kw, outputs := outputs }

/-- `uv_roll_coating.get_scenarios()`: no `'user'` entry, although the
constructor's dispatch chain has a `'user'` branch. -/
def uv_roll_coating_scenarios : List String :=
  ["low end of range", "high end of range"]

/-- `uv_roll_coating._Cm(**kwargs)` = `KCk * Ys`. -/
def uv_roll_coating_Cm (kw : Kwargs) : Except PyErr ℚ := do
  return (← getk kw "KCk") * (← getk kw "Ys")

/-- `inhalation.uv_roll_coating.__init__` (EPA-OPPT UV Roll Coating):
`KCk` from a 2-way table (`low end of range ↦ 0.04`, `high end of range ↦
0.26`); the `'user'` branch is unreachable since `'user'` is not in
`get_scenarios()`. -/
def uv_roll_coating (Ymist : ℚ) (scenario : String := "high end of range")
    (KCk : ℚ := 26/100) (Ys : Option ℚ := none) (Ysf : ℚ := 1/4)
    (b : ℚ := 5/4) (h : ℚ := 8) (ED : ℚ := 1) (NWexp : ℚ := 1) (NS : ℚ := 1)
    (EY : ℚ := 40) (BW : ℚ := 70) (ATc : ℚ := 70) (AT : ℚ := 40) :
    Except PyErr ModelInstance := do
  let kw ← inhalation_model_init ED NWexp NS EY BW ATc AT
  let sc := normalize_scenario scenario
  if sc ∉ uv_roll_coating_scenarios then
    throw (.nameError "ScenarioException")
  let kw :=
    if sc = "low end of range" then dict_set kw "KCk" (4/100)
    else if sc = "high end of range" then dict_set kw "KCk" (26/100)
    else if sc = "user" then dict_set kw "KCk" KCk
    else kw
  let ymist ← check_ul "Ymist" Ymist 0 1
  let kw := dict_set kw "Ymist" ymist
  let ysf ← check_ul "Ysf" Ysf 0 1
  let kw := dict_set kw "Ysf" ysf
  let ys ← match Ys with
    | none => check_ul "Ys" (min (ymist / ysf) 1) 0 1
    | some ysv => check_ul "Ys" ysv 0 1
  let kw := dict_set kw "Ys" ys
  let b' ← check_ul "b" b 0 (79/10)
  let kw := dict_set kw "b" b'
  let h' ← check_ul "h" h 0 24
  let kw := dict_set kw "h" h'
  let cm ← uv_roll_coating_Cm kw
  let kw' := dict_set kw "Cm" cm
  let outputs ← compute_outputs "inhalation" "I" [("Cm", cm)] kw'
  return { model_name := "EPA-OPPT UV Roll Coating",
           route := "inhalation", scenario := sc, inputs := kw, outputs := outputs }

/-- `user_defined_inhalation.get_scenarios()`. -/
def user_defined_inhalation_scenarios : List String := ["user"]

/-- `inhalation.user_defined_inhalation.__init__` (User-defined
Inhalation): raw-string membership test; `Cm` is either the caller's value
or `Cv*MW/Vm*Ys`, in both cases passed through `check_l('Cm', ·, 0)` and
stored BEFORE the `inputs` snapshot, so `Cm` appears in `inputs`. -/
def user_defined_inhalation (Cv MW h : ℚ) (scenario : String := "user")
    (Cm : Option ℚ := none) (Vm : ℚ := 489/20) (Ys : ℚ := 1) (b : ℚ := 5/4)
    (ED : ℚ := 1) (NWexp : ℚ := 1) (NS : ℚ := 1) (EY : ℚ := 40) (BW : ℚ := 70)
    (ATc : ℚ := 70) (AT : ℚ := 40) : Except PyErr ModelInstance := do
  let kw ← inhalation_model_init ED NWexp NS EY BW ATc AT
  let sc := normalize_scenario scenario
  if scenario ∉ user_defined_inhalation_scenarios then
    throw (.nameError "ScenarioException")
  let kw := dict_set kw "Cv" Cv
  let kw := dict_set kw "MW" MW
  let vm ← check_l "Vm" Vm 0
  let kw := dict_set kw "Vm" vm
  let ys ← check_ul "Ys" Ys 0 1
  let kw := dict_set kw "Ys" ys
  let cm ← match Cm with
    | none => check_l "Cm" (Cv * MW / Vm * Ys) 0
    | some cmv => check_l "Cm" cmv 0
  let kw := dict_set kw "Cm" cm
  let b' ← check_ul "b" b 0 (79/10)
  let kw := dict_set kw "b" b'
  let h' ← check_ul "h" h 0 24
  let kw := dict_set kw "h" h'
  let outputs ← compute_outputs "inhalation" "I" [] kw
  return { model_name := "User-defined Inhalation",
           route := "inhalation", scenario := sc, inputs := kw, outputs := outputs }

/-- Whether a constructor run succeeded. -/
def run_ok (r : Except PyErr ModelInstance) : Bool :=
  match r with
  | .ok _ => true
  | .error _ => false

/-- The error of a failed constructor run, if any. -/
def run_err (r : Except PyErr ModelInstance) : Option PyErr :=
  match r with
  | .ok _ => none
  | .error e => some e

/-- The stored scenario of a successful run. -/
def run_scenario (r : Except PyErr ModelInstance) : Option String :=
  match r with
  | .ok m => some m.scenario
  | .error _ => none

/-- A named entry of the frozen `inputs` mapping of a successful run. -/
def input_val (r : Except PyErr ModelInstance) (k : String) : Option ℚ :=
  match r with
  | .ok m => dict_get m.inputs k
  | .error _ => none

/-- A named entry of the frozen `outputs` mapping of a successful run. -/
def output_val (r : Except PyErr ModelInstance) (k : String) : Option ℚ :=
  match r with
  | .ok m => dict_get m.outputs k
  | .error _ => none

theorem bind_ok_iff {x : Except PyErr α} {f : α → Except PyErr β} {b : β} :
    (x >>= f) = .ok b ↔ ∃ a, x = .ok a ∧ f a = .ok b := by
  cases x <;> simp [ok_bind, error_bind]

theorem ite_eq_ok_iff {c : Prop} [Decidable c] {A B : Except PyErr α} {m : α} :
    (if c then A else B) = .ok m ↔ (c ∧ A = .ok m) ∨ (¬c ∧ B = .ok m) := by
  split <;> simp_all

theorem check_ul_eq_ok {n : String} {v lo hi w : ℚ} :
    check_ul n v lo hi = .ok w ↔ ¬(v < lo ∨ v > hi) ∧ w = v := by
  unfold check_ul; split <;> simp_all [eq_comm]

theorem check_l_eq_ok {n : String} {v lo w : ℚ} :
    check_l n v lo = .ok w ↔ ¬(v < lo) ∧ w = v := by
  unfold check_l; split <;> simp_all [eq_comm]

theorem run_ok_eq_true {r : Except PyErr ModelInstance} :
    run_ok r = true ↔ ∃ m, r = .ok m := by
  cases r <;> simp [run_ok]

theorem run_ok_ok (m : ModelInstance) : run_ok (.ok m) = true := rfl

theorem run_ok_error (e : PyErr) : run_ok (.error e) = false := rfl

theorem run_err_ok (m : ModelInstance) : run_err (.ok m) = none := rfl

theorem run_err_error (e : PyErr) : run_err (.error e) = some e := rfl

theorem run_scenario_ok (m : ModelInstance) : run_scenario (.ok m) = some m.scenario := rfl

theorem input_val_ok (m : ModelInstance) (k : String) :
    input_val (.ok m) k = dict_get m.inputs k := rfl

theorem output_val_ok (m : ModelInstance) (k : String) :
    output_val (.ok m) k = dict_get m.outputs k := rfl

theorem dict_get_set (kw : Kwargs) (k k' : String) (v : ℚ) :
    dict_get (dict_set kw k v) k' = if k' = k then some v else dict_get kw k' := by
  induction kw with
  | nil => simp [dict_set_nil, dict_set_cons, dict_get_nil, dict_get_cons]
  | cons p rest ih =>
      obtain ⟨k0, v0⟩ := p
      by_cases h0 : k = k0
      · subst h0
        by_cases h1 : k' = k <;> simp [dict_set_nil, dict_set_cons, dict_get_nil, dict_get_cons, h1]
      · by_cases h1 : k' = k0
        · subst h1
          simp [dict_set_nil, dict_set_cons, dict_get_nil, dict_get_cons, h0, Ne.symm h0]
        · simp [dict_set_nil, dict_set_cons, dict_get_nil, dict_get_cons, h0, h1, ih]

/-- Generic evaluation of the five shared output lines for an inhalation
model whose dictionary carries a `Cm` entry, so `PDR = Cm*b*h` (renamed
`I`). -/
theorem compute_outputs_inh_Cm (pre kw : Kwargs)
    (cm b h nwexp ns ed ey bw atc at' : ℚ)
    (hCm : dict_get kw "Cm" = some cm) (hb : dict_get kw "b" = some b)
    (hh : dict_get kw "h" = some h) (hNW : dict_get kw "NWexp" = some nwexp)
    (hNS : dict_get kw "NS" = some ns) (hED : dict_get kw "ED" = some ed)
    (hEY : dict_get kw "EY" = some ey) (hBW : dict_get kw "BW" = some bw)
    (hATc : dict_get kw "ATc" = some atc) (hAT : dict_get kw "AT" = some at') :
    compute_outputs "inhalation" "I" pre kw =
      .ok (pre ++ [("NW", nwexp * ns),
                   ("LADD", cm * b * h * ed * ey / (bw * atc * 365)),
                   ("ADD", cm * b * h * ed * ey / (bw * at' * 365)),
                   ("APDR", cm * b * h / bw),
                   ("I", cm * b * h)]) := by
  simp [compute_outputs, potential_dose_rate, workers_exposed, daily_dose,
    acute_potential_dose_rate, getk, dict_get_set, hCm, hb, hh, hNW, hNS,
    hED, hEY, hBW, hATc, hAT, ok_bind, pure_eq_ok]

/-- Generic evaluation of the shared output lines for an inhalation model
without a `Cm` entry (small-volume solids handling), so
`PDR = EF*AH*Ys*Sd`. -/
theorem compute_outputs_inh_noCm (kw : Kwargs)
    (ef ah ys sd nwexp ns ed ey bw atc at' : ℚ)
    (hCm : dict_get kw "Cm" = none) (hEF : dict_get kw "EF" = some ef)
    (hAH : dict_get kw "AH" = some ah) (hYs : dict_get kw "Ys" = some ys)
    (hSd : dict_get kw "Sd" = some sd) (hNW : dict_get kw "NWexp" = some nwexp)
    (hNS : dict_get kw "NS" = some ns) (hED : dict_get kw "ED" = some ed)
    (hEY : dict_get kw "EY" = some ey) (hBW : dict_get kw "BW" = some bw)
    (hATc : dict_get kw "ATc" = some atc) (hAT : dict_get kw "AT" = some at') :
    compute_outputs "inhalation" "I" [] kw =
      .ok [("NW", nwexp * ns),
           ("LADD", ef * ah * ys * sd * ed * ey / (bw * atc * 365)),
           ("ADD", ef * ah * ys * sd * ed * ey / (bw * at' * 365)),
           ("APDR", ef * ah * ys * sd / bw),
           ("I", ef * ah * ys * sd)] := by
  simp [compute_outputs, potential_dose_rate, workers_exposed, daily_dose,
    acute_potential_dose_rate, getk, dict_get_set, hCm, hEF, hAH, hYs, hSd,
    hNW, hNS, hED, hEY, hBW, hATc, hAT, ok_bind, pure_eq_ok]

/-- Generic evaluation of the shared output lines for a dermal model
without an `SQu` entry (liquid variants), so `PDR = S*Qu*Yderm*FT`
(renamed `Dexp`). -/
theorem compute_outputs_dermal_liquid (kw : Kwargs)
    (sv qu yderm ft nwexp ns ed ey bw atc at' : ℚ)
    (hSQu : dict_get kw "SQu" = none) (hS : dict_get kw "S" = some sv)
    (hQu : dict_get kw "Qu" = some qu) (hYd : dict_get kw "Yderm" = some yderm)
    (hFT : dict_get kw "FT" = some ft) (hNW : dict_get kw "NWexp" = some nwexp)
    (hNS : dict_get kw "NS" = some ns) (hED : dict_get kw "ED" = some ed)
    (hEY : dict_get kw "EY" = some ey) (hBW : dict_get kw "BW" = some bw)
    (hATc : dict_get kw "ATc" = some atc) (hAT : dict_get kw "AT" = some at') :
    compute_outputs "dermal" "Dexp" [] kw =
      .ok [("NW", nwexp * ns),
           ("LADD", sv * qu * yderm * ft * ed * ey / (bw * atc * 365)),
           ("ADD", sv * qu * yderm * ft * ed * ey / (bw * at' * 365)),
           ("APDR", sv * qu * yderm * ft / bw),
           ("Dexp", sv * qu * yderm * ft)] := by
  simp [compute_outputs, potential_dose_rate, workers_exposed, daily_dose,
    acute_potential_dose_rate, getk, dict_get_set, hSQu, hS, hQu, hYd, hFT,
    hNW, hNS, hED, hEY, hBW, hATc, hAT, ok_bind, pure_eq_ok]

/-- Generic evaluation of the shared output lines for a dermal model with
an `SQu` entry (solids variants), so `PDR = SQu*Yderm*FT`. -/
theorem compute_outputs_dermal_solids (kw : Kwargs)
    (squ yderm ft nwexp ns ed ey bw atc at' : ℚ)
    (hSQu : dict_get kw "SQu" = some squ)
    (hYd : dict_get kw "Yderm" = some yderm)
    (hFT : dict_get kw "FT" = some ft) (hNW : dict_get kw "NWexp" = some nwexp)
    (hNS : dict_get kw "NS" = some ns) (hED : dict_get kw "ED" = some ed)
    (hEY : dict_get kw "EY" = some ey) (hBW : dict_get kw "BW" = some bw)
    (hATc : dict_get kw "ATc" = some atc) (hAT : dict_get kw "AT" = some at') :
    compute_outputs "dermal" "Dexp" [] kw =
      .ok [("NW", nwexp * ns),
           ("LADD", squ * yderm * ft * ed * ey / (bw * atc * 365)),
           ("ADD", squ * yderm * ft * ed * ey / (bw * at' * 365)),
           ("APDR", squ * yderm * ft / bw),
           ("Dexp", squ * yderm * ft)] := by
  simp [compute_outputs, potential_dose_rate, workers_exposed, daily_dose,
    acute_potential_dose_rate, getk, dict_get_set, hSQu, hYd, hFT,
    hNW, hNS, hED, hEY, hBW, hATc, hAT, ok_bind, pure_eq_ok]

/-- Statement-level scenario dispatch equals value-level dispatch for a
3-way `low`/`high`/`user` table, given membership. -/
theorem dispatch_low_high_user (kw : Kwargs) (k sc : String) (a b c : ℚ)
    (h : sc = "low" ∨ sc = "high" ∨ sc = "user") :
    (if sc = "low" then dict_set kw k a
     else if sc = "high" then dict_set kw k b
     else if sc = "user" then dict_set kw k c
     else kw) =
    dict_set kw k (if sc = "low" then a else if sc = "high" then b else c) := by
  rcases h with h | h | h <;> simp [h]

/-- Statement-level scenario dispatch equals value-level dispatch for a
2-way `high`/`user` table, given membership. -/
theorem dispatch_high_user (kw : Kwargs) (k sc : String) (a b : ℚ)
    (h : sc = "high" ∨ sc = "user") :
    (if sc = "high" then dict_set kw k a
     else if sc = "user" then dict_set kw k b
     else kw) =
    dict_set kw k (if sc = "high" then a else b) := by
  rcases h with h | h <;> simp [h]

/-- Statement-level dispatch equals value-level dispatch for the
user-defined dermal model's two-key `low`/`high`/`user` table. -/
theorem dispatch_udd (kw : Kwargs) (sc : String) (a1 a2 b1 b2 c1 c2 : ℚ)
    (h : sc = "low" ∨ sc = "high" ∨ sc = "user") :
    (if sc = "low" then dict_set (dict_set kw "S" a1) "Qu" a2
     else if sc = "high" then dict_set (dict_set kw "S" b1) "Qu" b2
     else if sc = "user" then dict_set (dict_set kw "S" c1) "Qu" c2
     else kw) =
    dict_set (dict_set kw "S" (if sc = "low" then a1 else if sc = "high" then b1 else c1))
      "Qu" (if sc = "low" then a2 else if sc = "high" then b2 else c2) := by
  rcases h with h | h | h <;> simp [h]

/-- Statement-level dispatch equals value-level dispatch for the
small-volume model's `typical`/`worst-case`/`user` table. -/
theorem dispatch_typ_worst_user (kw : Kwargs) (k sc : String) (a b c : ℚ)
    (h : sc = "typical" ∨ sc = "worst-case" ∨ sc = "user") :
    (if sc = "typical" then dict_set kw k a
     else if sc = "worst-case" then dict_set kw k b
     else if sc = "user" then dict_set kw k c
     else kw) =
    dict_set kw k (if sc = "typical" then a else if sc = "worst-case" then b else c) := by
  rcases h with h | h | h <;> simp [h]

/-- Statement-level dispatch equals value-level dispatch for the
mass-balance model's two-key 5-way table. -/
theorem dispatch_mass_balance (kw : Kwargs) (sc : String) (q1 q2 q3 q4 q5 k1 k2 k3 k4 k5 : ℚ)
    (h : sc = "indoor,typical" ∨ sc = "indoor,worst-case" ∨ sc = "outdoor,typical" ∨
      sc = "outdoor,worst-case" ∨ sc = "user") :
    (if sc = "indoor,typical" then dict_set (dict_set kw "Q" q1) "k" k1
     else if sc = "indoor,worst-case" then dict_set (dict_set kw "Q" q2) "k" k2
     else if sc = "outdoor,typical" then dict_set (dict_set kw "Q" q3) "k" k3
     else if sc = "outdoor,worst-case" then dict_set (dict_set kw "Q" q4) "k" k4
     else if sc = "user" then dict_set (dict_set kw "Q" q5) "k" k5
     else kw) =
    dict_set (dict_set kw "Q"
        (if sc = "indoor,typical" then q1 else if sc = "indoor,worst-case" then q2
         else if sc = "outdoor,typical" then q3
         else if sc = "outdoor,worst-case" then q4 else q5))
      "k" (if sc = "indoor,typical" then k1 else if sc = "indoor,worst-case" then k2
         else if sc = "outdoor,typical" then k3
         else if sc = "outdoor,worst-case" then k4 else k5) := by
  rcases h with h | h | h | h | h <;> simp [h]

/-- Statement-level dispatch equals value-level dispatch for the two
automobile spray-coating models' 5-way table. -/
theorem dispatch_spray5 (kw : Kwargs) (k sc : String) (a b c d e : ℚ)
    (h : sc = "conventional,downdraft" ∨ sc = "conventional,crossdraft" ∨
      sc = "hvlp,downdraft" ∨ sc = "hvlp,crossdraft" ∨ sc = "user") :
    (if sc = "conventional,downdraft" then dict_set kw k a
     else if sc = "conventional,crossdraft" then dict_set kw k b
     else if sc = "hvlp,downdraft" then dict_set kw k c
     else if sc = "hvlp,crossdraft" then dict_set kw k d
     else if sc = "user" then dict_set kw k e
     else kw) =
    dict_set kw k (if sc = "conventional,downdraft" then a
      else if sc = "conventional,crossdraft" then b
      else if sc = "hvlp,downdraft" then c
      else if sc = "hvlp,crossdraft" then d else e) := by
  rcases h with h | h | h | h | h <;> simp [h]

/-- Statement-level dispatch equals value-level dispatch for the
automobile_spray_coating 8-way table (whose trailing `user` branch is dead
because `'user'` is outside the valid set). -/
theorem dispatch_spray8 (kw : Kwargs) (k sc : String) (a b c d e f g i u : ℚ)
    (h : sc = "low,conventional,crossdraft" ∨ sc = "high,conventional,crossdraft" ∨
      sc = "low,conventional,downdraft" ∨ sc = "high,conventional,downdraft" ∨
      sc = "low,hvlp,crossdraft" ∨ sc = "high,hvlp,crossdraft" ∨
      sc = "low,hvlp,downdraft" ∨ sc = "high,hvlp,downdraft") :
    (if sc = "low,conventional,crossdraft" then dict_set kw k a
     else if sc = "high,conventional,crossdraft" then dict_set kw k b
     else if sc = "low,conventional,downdraft" then dict_set kw k c
     else if sc = "high,conventional,downdraft" then dict_set kw k d
     else if sc = "low,hvlp,crossdraft" then dict_set kw k e
     else if sc = "high,hvlp,crossdraft" then dict_set kw k f
     else if sc = "low,hvlp,downdraft" then dict_set kw k g
     else if sc = "high,hvlp,downdraft" then dict_set kw k i
     else if sc = "user" then dict_set kw k u
     else kw) =
    dict_set kw k (if sc = "low,conventional,crossdraft" then a
      else if sc = "high,conventional,crossdraft" then b
      else if sc = "low,conventional,downdraft" then c
      else if sc = "high,conventional,downdraft" then d
      else if sc = "low,hvlp,crossdraft" then e
      else if sc = "high,hvlp,crossdraft" then f
      else if sc = "low,hvlp,downdraft" then g
      else i) := by
  rcases h with h | h | h | h | h | h | h | h <;> simp [h]

/-- Statement-level dispatch equals value-level dispatch for the UV roll
coating 2-way table (with a dead trailing `user` branch). -/
theorem dispatch_uv (kw : Kwargs) (k sc : String) (a b u : ℚ)
    (h : sc = "low end of range" ∨ sc = "high end of range") :
    (if sc = "low end of range" then dict_set kw k a
     else if sc = "high end of range" then dict_set kw k b
     else if sc = "user" then dict_set kw k u
     else kw) =
    dict_set kw k (if sc = "low end of range" then a else b) := by
  rcases h with h | h <;> simp [h]

/-- Fully resolved instance produced by a successful `one_hand_liquid_contact` run. -/
def one_hand_liquid_contact_instance (Yderm : ℚ) (s : String) (S Qu FT ED NWexp NS EY BW ATc : ℚ) :
    ModelInstance :=
  (fun quv =>
    { model_name := "EPA-OPPT 1-Hand Dermal Contact with Liquid"
      route := "dermal"
      scenario := normalize_scenario s
      inputs := [("ED", ED), ("NWexp", NWexp), ("NS", NS), ("EY", EY), ("BW", BW),
                 ("ATc", ATc), ("AT", EY), ("S", S), ("Qu", quv), ("FT", FT),
                 ("Yderm", Yderm)]
      outputs := [("NW", NWexp * NS),
                  ("LADD", S * quv * Yderm * FT * ED * EY / (BW * ATc * 365)),
                  ("ADD", S * quv * Yderm * FT * ED * EY / (BW * EY * 365)),
                  ("APDR", S * quv * Yderm * FT / BW),
                  ("Dexp", S * quv * Yderm * FT)] })
  (if normalize_scenario s = "low" then 7/10
   else if normalize_scenario s = "high" then 21/10
   else Qu)

/-- `one_hand_liquid_contact` succeeds, with the fully resolved instance, whenever all its
bounds checks pass and the normalized scenario is valid. -/
theorem one_hand_liquid_contact_success (yd : ℚ) (s : String) (S Qu FT ED NWexp NS EY BW ATc AT : ℚ)
    (hED : ¬(ED < 0 ∨ ED > 365)) (hEY : ¬(EY < 0)) (hBW : ¬(BW < 0))
    (hATc : ¬(ATc < 0)) (hs : normalize_scenario s ∈ one_hand_liquid_contact_scenarios)
    (hFT : ¬(FT < 0)) (hyd : ¬(yd < 0 ∨ yd > 1)) :
    one_hand_liquid_contact yd s S Qu FT ED NWexp NS EY BW ATc AT =
      .ok (one_hand_liquid_contact_instance yd s S Qu FT ED NWexp NS EY BW ATc) := by
  have hs' : ¬(normalize_scenario s ∉ one_hand_liquid_contact_scenarios) := not_not_intro hs
  have hsc3 : normalize_scenario s = "low" ∨ normalize_scenario s = "high" ∨
      normalize_scenario s = "user" := by
    simpa [one_hand_liquid_contact_scenarios] using hs
  simp only [one_hand_liquid_contact, dermal_model_init, check_ul, check_l,
    hED, hEY, hBW, hATc, hs', hFT, hyd, ite_false, ite_true,
    not_false_eq_true, ok_bind, error_bind, pure_eq_ok, throw_eq_error,
    dispatch_low_high_user _ _ _ _ _ _ hsc3]
  simp only [dict_set_nil, dict_set_cons, dict_get_nil, dict_get_cons, String.reduceEq, reduceIte, ite_true, ite_false,
    reduceCtorEq]
  rw [compute_outputs_dermal_liquid _ S
        (if normalize_scenario s = "low" then 7/10
         else if normalize_scenario s = "high" then 21/10 else Qu)
        yd FT NWexp NS ED EY BW ATc EY] <;>
    simp only [one_hand_liquid_contact_instance, ok_bind, dict_get_nil, dict_get_cons, String.reduceEq, reduceIte,
      reduceCtorEq, ite_true, ite_false]

/-- Inversion: a successful `one_hand_liquid_contact` run implies every bounds check passed and
the normalized scenario is in the valid set. -/
theorem one_hand_liquid_contact_ok_conditions (yd : ℚ) (s : String)
    (S Qu FT ED NWexp NS EY BW ATc AT : ℚ) (m : ModelInstance)
    (h : one_hand_liquid_contact yd s S Qu FT ED NWexp NS EY BW ATc AT = .ok m) :
    ¬(ED < 0 ∨ ED > 365) ∧ ¬(EY < 0) ∧ ¬(BW < 0) ∧ ¬(ATc < 0) ∧
      normalize_scenario s ∈ one_hand_liquid_contact_scenarios ∧
      ¬(FT < 0) ∧ ¬(yd < 0 ∨ yd > 1) := by
  simp only [one_hand_liquid_contact, dermal_model_init, bind_ok_iff,
    ite_eq_ok_iff, check_ul_eq_ok, check_l_eq_ok, ok_bind, error_bind,
    pure_eq_ok, throw_eq_error, reduceCtorEq, Except.ok.injEq, false_and,
    and_false, exists_false, false_or, or_false, not_not] at h
  obtain ⟨a, ⟨a1, ⟨hED, rfl⟩, a2, ⟨hEY, rfl⟩, a3, ⟨hBW, rfl⟩, a4, ⟨hATc, rfl⟩,
    rfl⟩, hsc, ft, ⟨hFT, rfl⟩, ydv, ⟨hyd, rfl⟩, rest⟩ := h
  exact ⟨hED, hEY, hBW, hATc, hsc, hFT, hyd⟩

/-- An invalid normalized scenario makes `one_hand_liquid_contact` fail with
the `NameError` from looking up the unbound `ScenarioException` class name;
no structured exception naming the value is ever built. -/
theorem one_hand_liquid_contact_scenario_fail (yd : ℚ) (s : String)
    (S Qu FT ED NWexp NS EY BW ATc AT : ℚ)
    (hED : ¬(ED < 0 ∨ ED > 365)) (hEY : ¬(EY < 0)) (hBW : ¬(BW < 0))
    (hATc : ¬(ATc < 0)) (hs : normalize_scenario s ∉ one_hand_liquid_contact_scenarios) :
    one_hand_liquid_contact yd s S Qu FT ED NWexp NS EY BW ATc AT =
      .error (.nameError "ScenarioException") := by
  simp only [one_hand_liquid_contact, dermal_model_init, check_ul, check_l,
    hED, hEY, hBW, hATc, hs, ite_false, ite_true, not_false_eq_true,
    ok_bind, error_bind, pure_eq_ok, throw_eq_error]


/-- Fully resolved instance produced by a successful `two_hand_liquid_contact` run. -/
def two_hand_liquid_contact_instance (Yderm : ℚ) (s : String) (S Qu FT ED NWexp NS EY BW ATc : ℚ) :
    ModelInstance :=
  (fun quv =>
    { model_name := "EPA-OPPT 2-Hand Dermal Contact with Liquid"
      route := "dermal"
      scenario := normalize_scenario s
      inputs := [("ED", ED), ("NWexp", NWexp), ("NS", NS), ("EY", EY), ("BW", BW),
                 ("ATc", ATc), ("AT", EY), ("S", S), ("Qu", quv), ("FT", FT),
                 ("Yderm", Yderm)]
      outputs := [("NW", NWexp * NS),
                  ("LADD", S * quv * Yderm * FT * ED * EY / (BW * ATc * 365)),
                  ("ADD", S * quv * Yderm * FT * ED * EY / (BW * EY * 365)),
                  ("APDR", S * quv * Yderm * FT / BW),
                  ("Dexp", S * quv * Yderm * FT)] })
  (if normalize_scenario s = "low" then 7/10
   else if normalize_scenario s = "high" then 21/10
   else Qu)

/-- `two_hand_liquid_contact` succeeds, with the fully resolved instance, whenever all its
bounds checks pass and the normalized scenario is valid. -/
theorem two_hand_liquid_contact_success (yd : ℚ) (s : String) (S Qu FT ED NWexp NS EY BW ATc AT : ℚ)
    (hED : ¬(ED < 0 ∨ ED > 365)) (hEY : ¬(EY < 0)) (hBW : ¬(BW < 0))
    (hATc : ¬(ATc < 0)) (hs : normalize_scenario s ∈ two_hand_liquid_contact_scenarios)
    (hFT : ¬(FT < 0)) (hyd : ¬(yd < 0 ∨ yd > 1)) :
    two_hand_liquid_contact yd s S Qu FT ED NWexp NS EY BW ATc AT =
      .ok (two_hand_liquid_contact_instance yd s S Qu FT ED NWexp NS EY BW ATc) := by
  have hs' : ¬(normalize_scenario s ∉ two_hand_liquid_contact_scenarios) := not_not_intro hs
  have hsc3 : normalize_scenario s = "low" ∨ normalize_scenario s = "high" ∨
      normalize_scenario s = "user" := by
    simpa [two_hand_liquid_contact_scenarios] using hs
  simp only [two_hand_liquid_contact, dermal_model_init, check_ul, check_l,
    hED, hEY, hBW, hATc, hs', hFT, hyd, ite_false, ite_true,
    not_false_eq_true, ok_bind, error_bind, pure_eq_ok, throw_eq_error,
    dispatch_low_high_user _ _ _ _ _ _ hsc3]
  simp only [dict_set_nil, dict_set_cons, dict_get_nil, dict_get_cons, String.reduceEq, reduceIte, ite_true, ite_false,
    reduceCtorEq]
  rw [compute_outputs_dermal_liquid _ S
        (if normalize_scenario s = "low" then 7/10
         else if normalize_scenario s = "high" then 21/10 else Qu)
        yd FT NWexp NS ED EY BW ATc EY] <;>
    simp only [two_hand_liquid_contact_instance, ok_bind, dict_get_nil, dict_get_cons, String.reduceEq, reduceIte,
      reduceCtorEq, ite_true, ite_false]

/-- Inversion: a successful `two_hand_liquid_contact` run implies every bounds check passed and
the normalized scenario is in the valid set. -/
theorem two_hand_liquid_contact_ok_conditions (yd : ℚ) (s : String)
    (S Qu FT ED NWexp NS EY BW ATc AT : ℚ) (m : ModelInstance)
    (h : two_hand_liquid_contact yd s S Qu FT ED NWexp NS EY BW ATc AT = .ok m) :
    ¬(ED < 0 ∨ ED > 365) ∧ ¬(EY < 0) ∧ ¬(BW < 0) ∧ ¬(ATc < 0) ∧
      normalize_scenario s ∈ two_hand_liquid_contact_scenarios ∧
      ¬(FT < 0) ∧ ¬(yd < 0 ∨ yd > 1) := by
  simp only [two_hand_liquid_contact, dermal_model_init, bind_ok_iff,
    ite_eq_ok_iff, check_ul_eq_ok, check_l_eq_ok, ok_bind, error_bind,
    pure_eq_ok, throw_eq_error, reduceCtorEq, Except.ok.injEq, false_and,
    and_false, exists_false, false_or, or_false, not_not] at h
  obtain ⟨a, ⟨a1, ⟨hED, rfl⟩, a2, ⟨hEY, rfl⟩, a3, ⟨hBW, rfl⟩, a4, ⟨hATc, rfl⟩,
    rfl⟩, hsc, ft, ⟨hFT, rfl⟩, ydv, ⟨hyd, rfl⟩, rest⟩ := h
  exact ⟨hED, hEY, hBW, hATc, hsc, hFT, hyd⟩

/-- An invalid normalized scenario makes `two_hand_liquid_contact` fail with
the `NameError` from looking up the unbound `ScenarioException` class name;
no structured exception naming the value is ever built. -/
theorem two_hand_liquid_contact_scenario_fail (yd : ℚ) (s : String)
    (S Qu FT ED NWexp NS EY BW ATc AT : ℚ)
    (hED : ¬(ED < 0 ∨ ED > 365)) (hEY : ¬(EY < 0)) (hBW : ¬(BW < 0))
    (hATc : ¬(ATc < 0)) (hs : normalize_scenario s ∉ two_hand_liquid_contact_scenarios) :
    two_hand_liquid_contact yd s S Qu FT ED NWexp NS EY BW ATc AT =
      .error (.nameError "ScenarioException") := by
  simp only [two_hand_liquid_contact, dermal_model_init, check_ul, check_l,
    hED, hEY, hBW, hATc, hs, ite_false, ite_true, not_false_eq_true,
    ok_bind, error_bind, pure_eq_ok, throw_eq_error]


/-- Fully resolved instance produced by a successful `two_hand_liquid_immersion` run. -/
def two_hand_liquid_immersion_instance (Yderm : ℚ) (s : String) (S Qu FT ED NWexp NS EY BW ATc : ℚ) :
    ModelInstance :=
  (fun quv =>
    { model_name := "EPA-OPPT 2-Hand Dermal Immersion with Liquid"
      route := "dermal"
      scenario := normalize_scenario s
      inputs := [("ED", ED), ("NWexp", NWexp), ("NS", NS), ("EY", EY), ("BW", BW),
                 ("ATc", ATc), ("AT", EY), ("S", S), ("Qu", quv), ("FT", FT),
                 ("Yderm", Yderm)]
      outputs := [("NW", NWexp * NS),
                  ("LADD", S * quv * Yderm * FT * ED * EY / (BW * ATc * 365)),
                  ("ADD", S * quv * Yderm * FT * ED * EY / (BW * EY * 365)),
                  ("APDR", S * quv * Yderm * FT / BW),
                  ("Dexp", S * quv * Yderm * FT)] })
  (if normalize_scenario s = "low" then 13/10
   else if normalize_scenario s = "high" then 103/10
   else Qu)

/-- `two_hand_liquid_immersion` succeeds, with the fully resolved instance, whenever all its
bounds checks pass and the normalized scenario is valid. -/
theorem two_hand_liquid_immersion_success (yd : ℚ) (s : String) (S Qu FT ED NWexp NS EY BW ATc AT : ℚ)
    (hED : ¬(ED < 0 ∨ ED > 365)) (hEY : ¬(EY < 0)) (hBW : ¬(BW < 0))
    (hATc : ¬(ATc < 0)) (hs : normalize_scenario s ∈ two_hand_liquid_immersion_scenarios)
    (hFT : ¬(FT < 0)) (hyd : ¬(yd < 0 ∨ yd > 1)) :
    two_hand_liquid_immersion yd s S Qu FT ED NWexp NS EY BW ATc AT =
      .ok (two_hand_liquid_immersion_instance yd s S Qu FT ED NWexp NS EY BW ATc) := by
  have hs' : ¬(normalize_scenario s ∉ two_hand_liquid_immersion_scenarios) := not_not_intro hs
  have hsc3 : normalize_scenario s = "low" ∨ normalize_scenario s = "high" ∨
      normalize_scenario s = "user" := by
    simpa [two_hand_liquid_immersion_scenarios] using hs
  simp only [two_hand_liquid_immersion, dermal_model_init, check_ul, check_l,
    hED, hEY, hBW, hATc, hs', hFT, hyd, ite_false, ite_true,
    not_false_eq_true, ok_bind, error_bind, pure_eq_ok, throw_eq_error,
    dispatch_low_high_user _ _ _ _ _ _ hsc3]
  simp only [dict_set_nil, dict_set_cons, dict_get_nil, dict_get_cons, String.reduceEq, reduceIte, ite_true, ite_false,
    reduceCtorEq]
  rw [compute_outputs_dermal_liquid _ S
        (if normalize_scenario s = "low" then 13/10
         else if normalize_scenario s = "high" then 103/10 else Qu)
        yd FT NWexp NS ED EY BW ATc EY] <;>
    simp only [two_hand_liquid_immersion_instance, ok_bind, dict_get_nil, dict_get_cons, String.reduceEq, reduceIte,
      reduceCtorEq, ite_true, ite_false]

/-- Inversion: a successful `two_hand_liquid_immersion` run implies every bounds check passed and
the normalized scenario is in the valid set. -/
theorem two_hand_liquid_immersion_ok_conditions (yd : ℚ) (s : String)
    (S Qu FT ED NWexp NS EY BW ATc AT : ℚ) (m : ModelInstance)
    (h : two_hand_liquid_immersion yd s S Qu FT ED NWexp NS EY BW ATc AT = .ok m) :
    ¬(ED < 0 ∨ ED > 365) ∧ ¬(EY < 0) ∧ ¬(BW < 0) ∧ ¬(ATc < 0) ∧
      normalize_scenario s ∈ two_hand_liquid_immersion_scenarios ∧
      ¬(FT < 0) ∧ ¬(yd < 0 ∨ yd > 1) := by
  simp only [two_hand_liquid_immersion, dermal_model_init, bind_ok_iff,
    ite_eq_ok_iff, check_ul_eq_ok, check_l_eq_ok, ok_bind, error_bind,
    pure_eq_ok, throw_eq_error, reduceCtorEq, Except.ok.injEq, false_and,
    and_false, exists_false, false_or, or_false, not_not] at h
  obtain ⟨a, ⟨a1, ⟨hED, rfl⟩, a2, ⟨hEY, rfl⟩, a3, ⟨hBW, rfl⟩, a4, ⟨hATc, rfl⟩,
    rfl⟩, hsc, ft, ⟨hFT, rfl⟩, ydv, ⟨hyd, rfl⟩, rest⟩ := h
  exact ⟨hED, hEY, hBW, hATc, hsc, hFT, hyd⟩

/-- An invalid normalized scenario makes `two_hand_liquid_immersion` fail with
the `NameError` from looking up the unbound `ScenarioException` class name;
no structured exception naming the value is ever built. -/
theorem two_hand_liquid_immersion_scenario_fail (yd : ℚ) (s : String)
    (S Qu FT ED NWexp NS EY BW ATc AT : ℚ)
    (hED : ¬(ED < 0 ∨ ED > 365)) (hEY : ¬(EY < 0)) (hBW : ¬(BW < 0))
    (hATc : ¬(ATc < 0)) (hs : normalize_scenario s ∉ two_hand_liquid_immersion_scenarios) :
    two_hand_liquid_immersion yd s S Qu FT ED NWexp NS EY BW ATc AT =
      .error (.nameError "ScenarioException") := by
  simp only [two_hand_liquid_immersion, dermal_model_init, check_ul, check_l,
    hED, hEY, hBW, hATc, hs, ite_false, ite_true, not_false_eq_true,
    ok_bind, error_bind, pure_eq_ok, throw_eq_error]


/-- Fully resolved instance produced by a successful `two_hand_solids_contact` run. -/
def two_hand_solids_contact_instance (Yderm : ℚ) (s : String) (SQu FT ED NWexp NS EY BW ATc : ℚ) :
    ModelInstance :=
  (fun squv =>
    { model_name := "EPA-OPPT 2-Hand Dermal Contact with Solids"
      route := "dermal"
      scenario := normalize_scenario s
      inputs := [("ED", ED), ("NWexp", NWexp), ("NS", NS), ("EY", EY), ("BW", BW),
                 ("ATc", ATc), ("AT", EY), ("SQu", squv), ("FT", FT),
                 ("Yderm", Yderm)]
      outputs := [("NW", NWexp * NS),
                  ("LADD", squv * Yderm * FT * ED * EY / (BW * ATc * 365)),
                  ("ADD", squv * Yderm * FT * ED * EY / (BW * EY * 365)),
                  ("APDR", squv * Yderm * FT / BW),
                  ("Dexp", squv * Yderm * FT)] })
  (if normalize_scenario s = "high" then 3100 else SQu)

/-- `two_hand_solids_contact` succeeds, with the fully resolved instance, whenever all its
bounds checks pass and the normalized scenario is valid. -/
theorem two_hand_solids_contact_success (yd : ℚ) (s : String) (SQu FT ED NWexp NS EY BW ATc AT : ℚ)
    (hED : ¬(ED < 0 ∨ ED > 365)) (hEY : ¬(EY < 0)) (hBW : ¬(BW < 0))
    (hATc : ¬(ATc < 0)) (hs : normalize_scenario s ∈ two_hand_solids_contact_scenarios)
    (hFT : ¬(FT < 0)) (hyd : ¬(yd < 0 ∨ yd > 1)) :
    two_hand_solids_contact yd s SQu FT ED NWexp NS EY BW ATc AT =
      .ok (two_hand_solids_contact_instance yd s SQu FT ED NWexp NS EY BW ATc) := by
  have hs' : ¬(normalize_scenario s ∉ two_hand_solids_contact_scenarios) := not_not_intro hs
  have hsc2 : normalize_scenario s = "high" ∨ normalize_scenario s = "user" := by
    simpa [two_hand_solids_contact_scenarios] using hs
  simp only [two_hand_solids_contact, dermal_model_init, check_ul, check_l,
    hED, hEY, hBW, hATc, hs', hFT, hyd, ite_false, ite_true,
    not_false_eq_true, ok_bind, error_bind, pure_eq_ok, throw_eq_error,
    dispatch_high_user _ _ _ _ _ hsc2]
  simp only [dict_set_nil, dict_set_cons, dict_get_nil, dict_get_cons, String.reduceEq, reduceIte, ite_true, ite_false,
    reduceCtorEq]
  rw [compute_outputs_dermal_solids _
        (if normalize_scenario s = "high" then 3100 else SQu)
        yd FT NWexp NS ED EY BW ATc EY] <;>
    simp only [two_hand_solids_contact_instance, ok_bind, dict_get_nil, dict_get_cons, String.reduceEq, reduceIte,
      reduceCtorEq, ite_true, ite_false]

/-- Inversion: a successful `two_hand_solids_contact` run implies every bounds check passed and
the normalized scenario is in the valid set. -/
theorem two_hand_solids_contact_ok_conditions (yd : ℚ) (s : String)
    (SQu FT ED NWexp NS EY BW ATc AT : ℚ) (m : ModelInstance)
    (h : two_hand_solids_contact yd s SQu FT ED NWexp NS EY BW ATc AT = .ok m) :
    ¬(ED < 0 ∨ ED > 365) ∧ ¬(EY < 0) ∧ ¬(BW < 0) ∧ ¬(ATc < 0) ∧
      normalize_scenario s ∈ two_hand_solids_contact_scenarios ∧
      ¬(FT < 0) ∧ ¬(yd < 0 ∨ yd > 1) := by
  simp only [two_hand_solids_contact, dermal_model_init, bind_ok_iff,
    ite_eq_ok_iff, check_ul_eq_ok, check_l_eq_ok, ok_bind, error_bind,
    pure_eq_ok, throw_eq_error, reduceCtorEq, Except.ok.injEq, false_and,
    and_false, exists_false, false_or, or_false, not_not] at h
  obtain ⟨a, ⟨a1, ⟨hED, rfl⟩, a2, ⟨hEY, rfl⟩, a3, ⟨hBW, rfl⟩, a4, ⟨hATc, rfl⟩,
    rfl⟩, hsc, ft, ⟨hFT, rfl⟩, ydv, ⟨hyd, rfl⟩, rest⟩ := h
  exact ⟨hED, hEY, hBW, hATc, hsc, hFT, hyd⟩

/-- An invalid normalized scenario makes `two_hand_solids_contact` fail with
the `NameError` from looking up the unbound `ScenarioException` class name;
no structured exception naming the value is ever built. -/
theorem two_hand_solids_contact_scenario_fail (yd : ℚ) (s : String)
    (SQu FT ED NWexp NS EY BW ATc AT : ℚ)
    (hED : ¬(ED < 0 ∨ ED > 365)) (hEY : ¬(EY < 0)) (hBW : ¬(BW < 0))
    (hATc : ¬(ATc < 0)) (hs : normalize_scenario s ∉ two_hand_solids_contact_scenarios) :
    two_hand_solids_contact yd s SQu FT ED NWexp NS EY BW ATc AT =
      .error (.nameError "ScenarioException") := by
  simp only [two_hand_solids_contact, dermal_model_init, check_ul, check_l,
    hED, hEY, hBW, hATc, hs, ite_false, ite_true, not_false_eq_true,
    ok_bind, error_bind, pure_eq_ok, throw_eq_error]


/-- Fully resolved instance produced by a successful `two_hand_container_surface_contact` run. -/
def two_hand_container_surface_contact_instance (Yderm : ℚ) (s : String) (SQu FT ED NWexp NS EY BW ATc : ℚ) :
    ModelInstance :=
  (fun squv =>
    { model_name := "EPA-OPPT 2-Hand Dermal Contact with Container Surfaces"
      route := "dermal"
      scenario := normalize_scenario s
      inputs := [("ED", ED), ("NWexp", NWexp), ("NS", NS), ("EY", EY), ("BW", BW),
                 ("ATc", ATc), ("AT", EY), ("SQu", squv), ("FT", FT),
                 ("Yderm", Yderm)]
      outputs := [("NW", NWexp * NS),
                  ("LADD", squv * Yderm * FT * ED * EY / (BW * ATc * 365)),
                  ("ADD", squv * Yderm * FT * ED * EY / (BW * EY * 365)),
                  ("APDR", squv * Yderm * FT / BW),
                  ("Dexp", squv * Yderm * FT)] })
  (if normalize_scenario s = "high" then 1100 else SQu)

/-- `two_hand_container_surface_contact` succeeds, with the fully resolved instance, whenever all its
bounds checks pass and the normalized scenario is valid. -/
theorem two_hand_container_surface_contact_success (yd : ℚ) (s : String) (SQu FT ED NWexp NS EY BW ATc AT : ℚ)
    (hED : ¬(ED < 0 ∨ ED > 365)) (hEY : ¬(EY < 0)) (hBW : ¬(BW < 0))
    (hATc : ¬(ATc < 0)) (hs : normalize_scenario s ∈ two_hand_container_surface_contact_scenarios)
    (hFT : ¬(FT < 0)) (hyd : ¬(yd < 0 ∨ yd > 1)) :
    two_hand_container_surface_contact yd s SQu FT ED NWexp NS EY BW ATc AT =
      .ok (two_hand_container_surface_contact_instance yd s SQu FT ED NWexp NS EY BW ATc) := by
  have hs' : ¬(normalize_scenario s ∉ two_hand_container_surface_contact_scenarios) := not_not_intro hs
  have hsc2 : normalize_scenario s = "high" ∨ normalize_scenario s = "user" := by
    simpa [two_hand_container_surface_contact_scenarios] using hs
  simp only [two_hand_container_surface_contact, dermal_model_init, check_ul, check_l,
    hED, hEY, hBW, hATc, hs', hFT, hyd, ite_false, ite_true,
    not_false_eq_true, ok_bind, error_bind, pure_eq_ok, throw_eq_error,
    dispatch_high_user _ _ _ _ _ hsc2]
  simp only [dict_set_nil, dict_set_cons, dict_get_nil, dict_get_cons, String.reduceEq, reduceIte, ite_true, ite_false,
    reduceCtorEq]
  rw [compute_outputs_dermal_solids _
        (if normalize_scenario s = "high" then 1100 else SQu)
        yd FT NWexp NS ED EY BW ATc EY] <;>
    simp only [two_hand_container_surface_contact_instance, ok_bind, dict_get_nil, dict_get_cons, String.reduceEq, reduceIte,
      reduceCtorEq, ite_true, ite_false]

/-- Inversion: a successful `two_hand_container_surface_contact` run implies every bounds check passed and
the normalized scenario is in the valid set. -/
theorem two_hand_container_surface_contact_ok_conditions (yd : ℚ) (s : String)
    (SQu FT ED NWexp NS EY BW ATc AT : ℚ) (m : ModelInstance)
    (h : two_hand_container_surface_contact yd s SQu FT ED NWexp NS EY BW ATc AT = .ok m) :
    ¬(ED < 0 ∨ ED > 365) ∧ ¬(EY < 0) ∧ ¬(BW < 0) ∧ ¬(ATc < 0) ∧
      normalize_scenario s ∈ two_hand_container_surface_contact_scenarios ∧
      ¬(FT < 0) ∧ ¬(yd < 0 ∨ yd > 1) := by
  simp only [two_hand_container_surface_contact, dermal_model_init, bind_ok_iff,
    ite_eq_ok_iff, check_ul_eq_ok, check_l_eq_ok, ok_bind, error_bind,
    pure_eq_ok, throw_eq_error, reduceCtorEq, Except.ok.injEq, false_and,
    and_false, exists_false, false_or, or_false, not_not] at h
  obtain ⟨a, ⟨a1, ⟨hED, rfl⟩, a2, ⟨hEY, rfl⟩, a3, ⟨hBW, rfl⟩, a4, ⟨hATc, rfl⟩,
    rfl⟩, hsc, ft, ⟨hFT, rfl⟩, ydv, ⟨hyd, rfl⟩, rest⟩ := h
  exact ⟨hED, hEY, hBW, hATc, hsc, hFT, hyd⟩

/-- An invalid normalized scenario makes `two_hand_container_surface_contact` fail with
the `NameError` from looking up the unbound `ScenarioException` class name;
no structured exception naming the value is ever built. -/
theorem two_hand_container_surface_contact_scenario_fail (yd : ℚ) (s : String)
    (SQu FT ED NWexp NS EY BW ATc AT : ℚ)
    (hED : ¬(ED < 0 ∨ ED > 365)) (hEY : ¬(EY < 0)) (hBW : ¬(BW < 0))
    (hATc : ¬(ATc < 0)) (hs : normalize_scenario s ∉ two_hand_container_surface_contact_scenarios) :
    two_hand_container_surface_contact yd s SQu FT ED NWexp NS EY BW ATc AT =
      .error (.nameError "ScenarioException") := by
  simp only [two_hand_container_surface_contact, dermal_model_init, check_ul, check_l,
    hED, hEY, hBW, hATc, hs, ite_false, ite_true, not_false_eq_true,
    ok_bind, error_bind, pure_eq_ok, throw_eq_error]


/-- Fully resolved instance produced by a successful `user_defined_dermal`
run (the scenario selects both `S` and `Qu`). -/
def user_defined_dermal_instance (Yderm : ℚ) (s : String) (S Qu FT ED NWexp NS EY BW ATc : ℚ) :
    ModelInstance :=
  (fun sv quv =>
    { model_name := "User-defined Dermal"
      route := "dermal"
      scenario := normalize_scenario s
      inputs := [("ED", ED), ("NWexp", NWexp), ("NS", NS), ("EY", EY), ("BW", BW),
                 ("ATc", ATc), ("AT", EY), ("S", sv), ("Qu", quv), ("FT", FT),
                 ("Yderm", Yderm)]
      outputs := [("NW", NWexp * NS),
                  ("LADD", sv * quv * Yderm * FT * ED * EY / (BW * ATc * 365)),
                  ("ADD", sv * quv * Yderm * FT * ED * EY / (BW * EY * 365)),
                  ("APDR", sv * quv * Yderm * FT / BW),
                  ("Dexp", sv * quv * Yderm * FT)] })
  (if normalize_scenario s = "low" then 535
   else if normalize_scenario s = "high" then 1070
   else S)
  (if normalize_scenario s = "low" then 7/10
   else if normalize_scenario s = "high" then 21/10
   else Qu)

/-- `user_defined_dermal` succeeds, with the fully resolved instance,
whenever all its bounds checks pass and the normalized scenario is valid. -/
theorem user_defined_dermal_success (yd : ℚ) (s : String) (S Qu FT ED NWexp NS EY BW ATc AT : ℚ)
    (hED : ¬(ED < 0 ∨ ED > 365)) (hEY : ¬(EY < 0)) (hBW : ¬(BW < 0))
    (hATc : ¬(ATc < 0)) (hs : normalize_scenario s ∈ user_defined_dermal_scenarios)
    (hFT : ¬(FT < 0)) (hyd : ¬(yd < 0 ∨ yd > 1)) :
    user_defined_dermal yd s S Qu FT ED NWexp NS EY BW ATc AT =
      .ok (user_defined_dermal_instance yd s S Qu FT ED NWexp NS EY BW ATc) := by
  have hs' : ¬(normalize_scenario s ∉ user_defined_dermal_scenarios) := not_not_intro hs
  have hsc3 : normalize_scenario s = "low" ∨ normalize_scenario s = "high" ∨
      normalize_scenario s = "user" := by
    simpa [user_defined_dermal_scenarios] using hs
  simp only [user_defined_dermal, dermal_model_init, check_ul, check_l,
    hED, hEY, hBW, hATc, hs', hFT, hyd, ite_false, ite_true,
    not_false_eq_true, ok_bind, error_bind, pure_eq_ok, throw_eq_error,
    dispatch_udd _ _ _ _ _ _ _ _ hsc3]
  simp only [dict_set_nil, dict_set_cons, dict_get_nil, dict_get_cons, String.reduceEq, reduceIte, ite_true, ite_false,
    reduceCtorEq]
  rw [compute_outputs_dermal_liquid _
        (if normalize_scenario s = "low" then 535
         else if normalize_scenario s = "high" then 1070 else S)
        (if normalize_scenario s = "low" then 7/10
         else if normalize_scenario s = "high" then 21/10 else Qu)
        yd FT NWexp NS ED EY BW ATc EY] <;>
    simp only [user_defined_dermal_instance, ok_bind, dict_get_nil, dict_get_cons, String.reduceEq,
      reduceIte, reduceCtorEq, ite_true, ite_false]

/-- Inversion: a successful `user_defined_dermal` run implies every bounds
check passed and the normalized scenario is in the valid set. -/
theorem user_defined_dermal_ok_conditions (yd : ℚ) (s : String)
    (S Qu FT ED NWexp NS EY BW ATc AT : ℚ) (m : ModelInstance)
    (h : user_defined_dermal yd s S Qu FT ED NWexp NS EY BW ATc AT = .ok m) :
    ¬(ED < 0 ∨ ED > 365) ∧ ¬(EY < 0) ∧ ¬(BW < 0) ∧ ¬(ATc < 0) ∧
      normalize_scenario s ∈ user_defined_dermal_scenarios ∧
      ¬(FT < 0) ∧ ¬(yd < 0 ∨ yd > 1) := by
  simp only [user_defined_dermal, dermal_model_init, bind_ok_iff,
    ite_eq_ok_iff, check_ul_eq_ok, check_l_eq_ok, ok_bind, error_bind,
    pure_eq_ok, throw_eq_error, reduceCtorEq, Except.ok.injEq, false_and,
    and_false, exists_false, false_or, or_false, not_not] at h
  obtain ⟨a, ⟨a1, ⟨hED, rfl⟩, a2, ⟨hEY, rfl⟩, a3, ⟨hBW, rfl⟩, a4, ⟨hATc, rfl⟩,
    rfl⟩, hsc, ft, ⟨hFT, rfl⟩, ydv, ⟨hyd, rfl⟩, rest⟩ := h
  exact ⟨hED, hEY, hBW, hATc, hsc, hFT, hyd⟩

/-- An invalid normalized scenario makes `user_defined_dermal` fail with
the `NameError` from looking up the unbound `ScenarioException` class name;
no structured exception naming the value is ever built. -/
theorem user_defined_dermal_scenario_fail (yd : ℚ) (s : String)
    (S Qu FT ED NWexp NS EY BW ATc AT : ℚ)
    (hED : ¬(ED < 0 ∨ ED > 365)) (hEY : ¬(EY < 0)) (hBW : ¬(BW < 0))
    (hATc : ¬(ATc < 0)) (hs : normalize_scenario s ∉ user_defined_dermal_scenarios) :
    user_defined_dermal yd s S Qu FT ED NWexp NS EY BW ATc AT =
      .error (.nameError "ScenarioException") := by
  simp only [user_defined_dermal, dermal_model_init, check_ul, check_l,
    hED, hEY, hBW, hATc, hs, ite_false, ite_true, not_false_eq_true,
    ok_bind, error_bind, pure_eq_ok, throw_eq_error]

/-- Fully resolved instance produced by a successful
`small_volume_solids_handling` run. -/
def small_volume_solids_handling_instance (Ys : ℚ) (s : String)
    (EF AH Sd ED NWexp NS EY BW ATc AT : ℚ) : ModelInstance :=
  (fun efv =>
    { model_name := "EPA-OPPT Small Volume Solids Handling"
      route := "inhalation"
      scenario := normalize_scenario s
      inputs := [("ED", ED), ("NWexp", NWexp), ("NS", NS), ("EY", EY), ("BW", BW),
                 ("ATc", ATc), ("AT", AT), ("AH", AH), ("Ys", Ys), ("Sd", Sd),
                 ("EF", efv)]
      outputs := [("NW", NWexp * NS),
                  ("LADD", efv * AH * Ys * Sd * ED * EY / (BW * ATc * 365)),
                  ("ADD", efv * AH * Ys * Sd * ED * EY / (BW * AT * 365)),
                  ("APDR", efv * AH * Ys * Sd / BW),
                  ("I", efv * AH * Ys * Sd)] })
  (if normalize_scenario s = "typical" then 477/10000
   else if normalize_scenario s = "worst-case" then 161/1000
   else EF)

/-- `small_volume_solids_handling` succeeds, with the fully resolved
instance, whenever all its bounds checks pass and the normalized scenario
is valid. -/
theorem small_volume_solids_handling_success (ys : ℚ) (s : String)
    (EF AH Sd ED NWexp NS EY BW ATc AT : ℚ)
    (hED : ¬(ED < 0 ∨ ED > 365)) (hEY : ¬(EY < 0)) (hBW : ¬(BW < 0))
    (hATc : ¬(ATc < 0))
    (hs : normalize_scenario s ∈ small_volume_solids_handling_scenarios)
    (hAH : ¬(AH < 0 ∨ AH > 54)) (hYs : ¬(ys < 0 ∨ ys > 1))
    (hSd : ¬(Sd < 0 ∨ Sd > 3)) :
    small_volume_solids_handling ys s EF AH Sd ED NWexp NS EY BW ATc AT =
      .ok (small_volume_solids_handling_instance ys s EF AH Sd ED NWexp NS EY BW ATc AT) := by
  have hs' : ¬(normalize_scenario s ∉ small_volume_solids_handling_scenarios) :=
    not_not_intro hs
  have hsc3 : normalize_scenario s = "typical" ∨ normalize_scenario s = "worst-case" ∨
      normalize_scenario s = "user" := by
    simpa [small_volume_solids_handling_scenarios] using hs
  simp only [small_volume_solids_handling, inhalation_model_init, check_ul, check_l,
    hED, hEY, hBW, hATc, hs', hAH, hYs, hSd, ite_false, ite_true,
    not_false_eq_true, ok_bind, error_bind, pure_eq_ok, throw_eq_error,
    dispatch_typ_worst_user _ _ _ _ _ _ hsc3]
  simp only [dict_set_nil, dict_set_cons, dict_get_nil, dict_get_cons, String.reduceEq, reduceIte, ite_true, ite_false,
    reduceCtorEq]
  rw [compute_outputs_inh_noCm _
        (if normalize_scenario s = "typical" then 477/10000
         else if normalize_scenario s = "worst-case" then 161/1000 else EF)
        AH ys Sd NWexp NS ED EY BW ATc AT] <;>
    simp only [small_volume_solids_handling_instance, ok_bind, dict_get_nil, dict_get_cons,
      String.reduceEq, reduceIte, reduceCtorEq, ite_true, ite_false]

/-- Inversion: a successful `small_volume_solids_handling` run implies
every bounds check passed and the normalized scenario is valid. -/
theorem small_volume_solids_handling_ok_conditions (ys : ℚ) (s : String)
    (EF AH Sd ED NWexp NS EY BW ATc AT : ℚ) (m : ModelInstance)
    (h : small_volume_solids_handling ys s EF AH Sd ED NWexp NS EY BW ATc AT = .ok m) :
    ¬(ED < 0 ∨ ED > 365) ∧ ¬(EY < 0) ∧ ¬(BW < 0) ∧ ¬(ATc < 0) ∧
      normalize_scenario s ∈ small_volume_solids_handling_scenarios ∧
      ¬(AH < 0 ∨ AH > 54) ∧ ¬(ys < 0 ∨ ys > 1) ∧ ¬(Sd < 0 ∨ Sd > 3) := by
  simp only [small_volume_solids_handling, inhalation_model_init, bind_ok_iff,
    ite_eq_ok_iff, check_ul_eq_ok, check_l_eq_ok, ok_bind, error_bind,
    pure_eq_ok, throw_eq_error, reduceCtorEq, Except.ok.injEq, false_and,
    and_false, exists_false, false_or, or_false, not_not] at h
  obtain ⟨a, ⟨a1, ⟨hED, rfl⟩, a2, ⟨hEY, rfl⟩, a3, ⟨hBW, rfl⟩, a4, ⟨hATc, rfl⟩,
    rfl⟩, hsc, ah, ⟨hAH, rfl⟩, ysv, ⟨hYs, rfl⟩, sd, ⟨hSd, rfl⟩, rest⟩ := h
  exact ⟨hED, hEY, hBW, hATc, hsc, hAH, hYs, hSd⟩

/-- An invalid normalized scenario makes `small_volume_solids_handling`
fail with the `NameError` from looking up the unbound `ScenarioException`
class name; no structured exception naming the value is ever built. -/
theorem small_volume_solids_handling_scenario_fail (ys : ℚ) (s : String)
    (EF AH Sd ED NWexp NS EY BW ATc AT : ℚ)
    (hED : ¬(ED < 0 ∨ ED > 365)) (hEY : ¬(EY < 0)) (hBW : ¬(BW < 0))
    (hATc : ¬(ATc < 0))
    (hs : normalize_scenario s ∉ small_volume_solids_handling_scenarios) :
    small_volume_solids_handling ys s EF AH Sd ED NWexp NS EY BW ATc AT =
      .error (.nameError "ScenarioException") := by
  simp only [small_volume_solids_handling, inhalation_model_init, check_ul, check_l,
    hED, hEY, hBW, hATc, hs, ite_false, ite_true, not_false_eq_true,
    ok_bind, error_bind, pure_eq_ok, throw_eq_error]


/-- Fully resolved instance produced by a successful
`pel_limiting_particulates` run. -/
def pel_limiting_particulates_instance (Ys : ℚ) (s : String)
    (KCk Ypel b h ED NWexp NS EY BW ATc AT : ℚ) : ModelInstance :=
  { model_name := "OSHA PEL-limiting Model for Substance-specific Particulates"
    route := "inhalation"
    scenario := normalize_scenario s
    inputs := [("ED", ED), ("NWexp", NWexp), ("NS", NS), ("EY", EY), ("BW", BW),
               ("ATc", ATc), ("AT", AT), ("KCk", KCk), ("Ys", Ys), ("Ypel", Ypel),
               ("b", b), ("h", h)]
    outputs := [("Cm", KCk * Ys / Ypel),
                ("NW", NWexp * NS),
                ("LADD", KCk * Ys / Ypel * b * h * ED * EY / (BW * ATc * 365)),
                ("ADD", KCk * Ys / Ypel * b * h * ED * EY / (BW * AT * 365)),
                ("APDR", KCk * Ys / Ypel * b * h / BW),
                ("I", KCk * Ys / Ypel * b * h)] }

/-- `pel_limiting_particulates` succeeds, with the fully resolved
instance, whenever its checks pass and the RAW scenario argument is in the
valid set. -/
theorem pel_limiting_particulates_success (ys : ℚ) (s : String)
    (KCk Ypel b h ED NWexp NS EY BW ATc AT : ℚ)
    (hED : ¬(ED < 0 ∨ ED > 365)) (hEY : ¬(EY < 0)) (hBW : ¬(BW < 0))
    (hATc : ¬(ATc < 0)) (hs : s ∈ pel_limiting_particulates_scenarios)
    (hYs : ¬(ys < 0 ∨ ys > 1)) (hYpel : ¬(Ypel < 0 ∨ Ypel > 1))
    (hb : ¬(b < 0 ∨ b > 79/10)) (hh : ¬(h < 0 ∨ h > 24)) :
    pel_limiting_particulates ys s KCk Ypel b h ED NWexp NS EY BW ATc AT =
      .ok (pel_limiting_particulates_instance ys s KCk Ypel b h ED NWexp NS EY BW ATc AT) := by
  have hs' : ¬(s ∉ pel_limiting_particulates_scenarios) := not_not_intro hs
  simp only [pel_limiting_particulates, inhalation_model_init, check_ul, check_l,
    hED, hEY, hBW, hATc, hs', hYs, hYpel, hb, hh, ite_false, ite_true,
    not_false_eq_true, ok_bind, error_bind, pure_eq_ok, throw_eq_error]
  simp only [dict_set_nil, dict_set_cons, dict_get_nil, dict_get_cons, String.reduceEq, reduceIte, ite_true, ite_false,
    reduceCtorEq]
  simp only [pel_limiting_particulates_Cm, getk, dict_get_nil, dict_get_cons, dict_set_nil, dict_set_cons, Option.elim,
    String.reduceEq, reduceIte, ite_true, ite_false, reduceCtorEq, ok_bind,
    pure_eq_ok]
  rw [compute_outputs_inh_Cm _ _ (KCk * ys / Ypel) b h NWexp NS ED EY BW ATc AT] <;>
    simp only [pel_limiting_particulates_instance, ok_bind, dict_get_nil, dict_get_cons,
      String.reduceEq, reduceIte, reduceCtorEq, ite_true, ite_false,
      List.cons_append, List.nil_append]

/-- Inversion: a successful `pel_limiting_particulates` run implies every
bounds check passed and the raw scenario argument is valid. -/
theorem pel_limiting_particulates_ok_conditions (ys : ℚ) (s : String)
    (KCk Ypel b h ED NWexp NS EY BW ATc AT : ℚ) (m : ModelInstance)
    (h2 : pel_limiting_particulates ys s KCk Ypel b h ED NWexp NS EY BW ATc AT = .ok m) :
    ¬(ED < 0 ∨ ED > 365) ∧ ¬(EY < 0) ∧ ¬(BW < 0) ∧ ¬(ATc < 0) ∧
      s ∈ pel_limiting_particulates_scenarios ∧
      ¬(ys < 0 ∨ ys > 1) ∧ ¬(Ypel < 0 ∨ Ypel > 1) ∧
      ¬(b < 0 ∨ b > 79/10) ∧ ¬(h < 0 ∨ h > 24) := by
  simp only [pel_limiting_particulates, inhalation_model_init, bind_ok_iff,
    ite_eq_ok_iff, check_ul_eq_ok, check_l_eq_ok, ok_bind, error_bind,
    pure_eq_ok, throw_eq_error, reduceCtorEq, Except.ok.injEq, false_and,
    and_false, exists_false, false_or, or_false, not_not] at h2
  obtain ⟨a, ⟨a1, ⟨hED, rfl⟩, a2, ⟨hEY, rfl⟩, a3, ⟨hBW, rfl⟩, a4, ⟨hATc, rfl⟩,
    rfl⟩, hsc, ysv, ⟨hYs, rfl⟩, ypv, ⟨hYp, rfl⟩, bv, ⟨hb, rfl⟩, hv, ⟨hh, rfl⟩,
    rest⟩ := h2
  exact ⟨hED, hEY, hBW, hATc, hsc, hYs, hYp, hb, hh⟩

/-- A raw scenario argument outside the valid set makes
`pel_limiting_particulates` fail with the `NameError` from looking up the
unbound `ScenarioException` class name. -/
theorem pel_limiting_particulates_scenario_fail (ys : ℚ) (s : String)
    (KCk Ypel b h ED NWexp NS EY BW ATc AT : ℚ)
    (hED : ¬(ED < 0 ∨ ED > 365)) (hEY : ¬(EY < 0)) (hBW : ¬(BW < 0))
    (hATc : ¬(ATc < 0)) (hs : s ∉ pel_limiting_particulates_scenarios) :
    pel_limiting_particulates ys s KCk Ypel b h ED NWexp NS EY BW ATc AT =
      .error (.nameError "ScenarioException") := by
  simp only [pel_limiting_particulates, inhalation_model_init, check_ul, check_l,
    hED, hEY, hBW, hATc, hs, ite_false, ite_true, not_false_eq_true,
    ok_bind, error_bind, pure_eq_ok, throw_eq_error]


/-- Fully resolved instance produced by a successful `total_pnor_pel_limiting` run. -/
def total_pnor_pel_limiting_instance (Ys : ℚ) (s : String)
    (KCk b h ED NWexp NS EY BW ATc AT : ℚ) : ModelInstance :=
  { model_name := "OSHA Total PNOR PEL-limiting"
    route := "inhalation"
    scenario := normalize_scenario s
    inputs := [("ED", ED), ("NWexp", NWexp), ("NS", NS), ("EY", EY), ("BW", BW),
               ("ATc", ATc), ("AT", AT), ("KCk", KCk), ("Ys", Ys),
               ("b", b), ("h", h)]
    outputs := [("Cm", KCk * Ys),
                ("NW", NWexp * NS),
                ("LADD", KCk * Ys * b * h * ED * EY / (BW * ATc * 365)),
                ("ADD", KCk * Ys * b * h * ED * EY / (BW * AT * 365)),
                ("APDR", KCk * Ys * b * h / BW),
                ("I", KCk * Ys * b * h)] }

/-- `total_pnor_pel_limiting` succeeds, with the fully resolved instance, whenever its checks
pass and the RAW scenario argument is in the valid set. -/
theorem total_pnor_pel_limiting_success (ys : ℚ) (s : String)
    (KCk b h ED NWexp NS EY BW ATc AT : ℚ)
    (hED : ¬(ED < 0 ∨ ED > 365)) (hEY : ¬(EY < 0)) (hBW : ¬(BW < 0))
    (hATc : ¬(ATc < 0)) (hs : s ∈ total_pnor_pel_limiting_scenarios)
    (hYs : ¬(ys < 0 ∨ ys > 1))
    (hb : ¬(b < 0 ∨ b > 79/10)) (hh : ¬(h < 0 ∨ h > 24)) :
    total_pnor_pel_limiting ys s KCk b h ED NWexp NS EY BW ATc AT =
      .ok (total_pnor_pel_limiting_instance ys s KCk b h ED NWexp NS EY BW ATc AT) := by
  have hs' : ¬(s ∉ total_pnor_pel_limiting_scenarios) := not_not_intro hs
  simp only [total_pnor_pel_limiting, inhalation_model_init, check_ul, check_l,
    hED, hEY, hBW, hATc, hs', hYs, hb, hh, ite_false, ite_true,
    not_false_eq_true, ok_bind, error_bind, pure_eq_ok, throw_eq_error]
  simp only [dict_set_nil, dict_set_cons, dict_get_nil, dict_get_cons, String.reduceEq, reduceIte, ite_true, ite_false,
    reduceCtorEq]
  simp only [total_pnor_pel_limiting_Cm, getk, dict_get_nil, dict_get_cons, dict_set_nil, dict_set_cons, Option.elim,
    String.reduceEq, reduceIte, ite_true, ite_false, reduceCtorEq, ok_bind,
    pure_eq_ok]
  rw [compute_outputs_inh_Cm _ _ (KCk * ys) b h NWexp NS ED EY BW ATc AT] <;>
    simp only [total_pnor_pel_limiting_instance, ok_bind, dict_get_nil, dict_get_cons,
      String.reduceEq, reduceIte, reduceCtorEq, ite_true, ite_false,
      List.cons_append, List.nil_append]

/-- Inversion: a successful `total_pnor_pel_limiting` run implies every bounds check passed
and the raw scenario argument is valid. -/
theorem total_pnor_pel_limiting_ok_conditions (ys : ℚ) (s : String)
    (KCk b h ED NWexp NS EY BW ATc AT : ℚ) (m : ModelInstance)
    (h2 : total_pnor_pel_limiting ys s KCk b h ED NWexp NS EY BW ATc AT = .ok m) :
    ¬(ED < 0 ∨ ED > 365) ∧ ¬(EY < 0) ∧ ¬(BW < 0) ∧ ¬(ATc < 0) ∧
      s ∈ total_pnor_pel_limiting_scenarios ∧
      ¬(ys < 0 ∨ ys > 1) ∧ ¬(b < 0 ∨ b > 79/10) ∧ ¬(h < 0 ∨ h > 24) := by
  simp only [total_pnor_pel_limiting, inhalation_model_init, bind_ok_iff,
    ite_eq_ok_iff, check_ul_eq_ok, check_l_eq_ok, ok_bind, error_bind,
    pure_eq_ok, throw_eq_error, reduceCtorEq, Except.ok.injEq, false_and,
    and_false, exists_false, false_or, or_false, not_not] at h2
  obtain ⟨a, ⟨a1, ⟨hED, rfl⟩, a2, ⟨hEY, rfl⟩, a3, ⟨hBW, rfl⟩, a4, ⟨hATc, rfl⟩,
    rfl⟩, hsc, ysv, ⟨hYs, rfl⟩, bv, ⟨hb, rfl⟩, hv, ⟨hh, rfl⟩, rest⟩ := h2
  exact ⟨hED, hEY, hBW, hATc, hsc, hYs, hb, hh⟩

/-- A raw scenario argument outside the valid set makes
`total_pnor_pel_limiting` fail with the `NameError` from looking up the
unbound `ScenarioException` class name. -/
theorem total_pnor_pel_limiting_scenario_fail (ys : ℚ) (s : String)
    (KCk b h ED NWexp NS EY BW ATc AT : ℚ)
    (hED : ¬(ED < 0 ∨ ED > 365)) (hEY : ¬(EY < 0)) (hBW : ¬(BW < 0))
    (hATc : ¬(ATc < 0)) (hs : s ∉ total_pnor_pel_limiting_scenarios) :
    total_pnor_pel_limiting ys s KCk b h ED NWexp NS EY BW ATc AT =
      .error (.nameError "ScenarioException") := by
  simp only [total_pnor_pel_limiting, inhalation_model_init, check_ul, check_l,
    hED, hEY, hBW, hATc, hs, ite_false, ite_true, not_false_eq_true,
    ok_bind, error_bind, pure_eq_ok, throw_eq_error]


/-- Fully resolved instance produced by a successful `respirable_pnor_pel_limiting` run. -/
def respirable_pnor_pel_limiting_instance (Ys : ℚ) (s : String)
    (KCk b h ED NWexp NS EY BW ATc AT : ℚ) : ModelInstance :=
  { model_name := "OSHA Respirable PNOR PEL-limiting"
    route := "inhalation"
    scenario := normalize_scenario s
    inputs := [("ED", ED), ("NWexp", NWexp), ("NS", NS), ("EY", EY), ("BW", BW),
               ("ATc", ATc), ("AT", AT), ("KCk", KCk), ("Ys", Ys),
               ("b", b), ("h", h)]
    outputs := [("Cm", KCk * Ys),
                ("NW", NWexp * NS),
                ("LADD", KCk * Ys * b * h * ED * EY / (BW * ATc * 365)),
                ("ADD", KCk * Ys * b * h * ED * EY / (BW * AT * 365)),
                ("APDR", KCk * Ys * b * h / BW),
                ("I", KCk * Ys * b * h)] }

/-- `respirable_pnor_pel_limiting` succeeds, with the fully resolved instance, whenever its checks
pass and the RAW scenario argument is in the valid set. -/
theorem respirable_pnor_pel_limiting_success (ys : ℚ) (s : String)
    (KCk b h ED NWexp NS EY BW ATc AT : ℚ)
    (hED : ¬(ED < 0 ∨ ED > 365)) (hEY : ¬(EY < 0)) (hBW : ¬(BW < 0))
    (hATc : ¬(ATc < 0)) (hs : s ∈ respirable_pnor_pel_limiting_scenarios)
    (hYs : ¬(ys < 0 ∨ ys > 1))
    (hb : ¬(b < 0 ∨ b > 79/10)) (hh : ¬(h < 0 ∨ h > 24)) :
    respirable_pnor_pel_limiting ys s KCk b h ED NWexp NS EY BW ATc AT =
      .ok (respirable_pnor_pel_limiting_instance ys s KCk b h ED NWexp NS EY BW ATc AT) := by
  have hs' : ¬(s ∉ respirable_pnor_pel_limiting_scenarios) := not_not_intro hs
  simp only [respirable_pnor_pel_limiting, inhalation_model_init, check_ul, check_l,
    hED, hEY, hBW, hATc, hs', hYs, hb, hh, ite_false, ite_true,
    not_false_eq_true, ok_bind, error_bind, pure_eq_ok, throw_eq_error]
  simp only [dict_set_nil, dict_set_cons, dict_get_nil, dict_get_cons, String.reduceEq, reduceIte, ite_true, ite_false,
    reduceCtorEq]
  simp only [respirable_pnor_pel_limiting_Cm, getk, dict_get_nil, dict_get_cons, dict_set_nil, dict_set_cons, Option.elim,
    String.reduceEq, reduceIte, ite_true, ite_false, reduceCtorEq, ok_bind,
    pure_eq_ok]
  rw [compute_outputs_inh_Cm _ _ (KCk * ys) b h NWexp NS ED EY BW ATc AT] <;>
    simp only [respirable_pnor_pel_limiting_instance, ok_bind, dict_get_nil, dict_get_cons,
      String.reduceEq, reduceIte, reduceCtorEq, ite_true, ite_false,
      List.cons_append, List.nil_append]

/-- Inversion: a successful `respirable_pnor_pel_limiting` run implies every bounds check passed
and the raw scenario argument is valid. -/
theorem respirable_pnor_pel_limiting_ok_conditions (ys : ℚ) (s : String)
    (KCk b h ED NWexp NS EY BW ATc AT : ℚ) (m : ModelInstance)
    (h2 : respirable_pnor_pel_limiting ys s KCk b h ED NWexp NS EY BW ATc AT = .ok m) :
    ¬(ED < 0 ∨ ED > 365) ∧ ¬(EY < 0) ∧ ¬(BW < 0) ∧ ¬(ATc < 0) ∧
      s ∈ respirable_pnor_pel_limiting_scenarios ∧
      ¬(ys < 0 ∨ ys > 1) ∧ ¬(b < 0 ∨ b > 79/10) ∧ ¬(h < 0 ∨ h > 24) := by
  simp only [respirable_pnor_pel_limiting, inhalation_model_init, bind_ok_iff,
    ite_eq_ok_iff, check_ul_eq_ok, check_l_eq_ok, ok_bind, error_bind,
    pure_eq_ok, throw_eq_error, reduceCtorEq, Except.ok.injEq, false_and,
    and_false, exists_false, false_or, or_false, not_not] at h2
  obtain ⟨a, ⟨a1, ⟨hED, rfl⟩, a2, ⟨hEY, rfl⟩, a3, ⟨hBW, rfl⟩, a4, ⟨hATc, rfl⟩,
    rfl⟩, hsc, ysv, ⟨hYs, rfl⟩, bv, ⟨hb, rfl⟩, hv, ⟨hh, rfl⟩, rest⟩ := h2
  exact ⟨hED, hEY, hBW, hATc, hsc, hYs, hb, hh⟩

/-- A raw scenario argument outside the valid set makes
`respirable_pnor_pel_limiting` fail with the `NameError` from looking up the
unbound `ScenarioException` class name. -/
theorem respirable_pnor_pel_limiting_scenario_fail (ys : ℚ) (s : String)
    (KCk b h ED NWexp NS EY BW ATc AT : ℚ)
    (hED : ¬(ED < 0 ∨ ED > 365)) (hEY : ¬(EY < 0)) (hBW : ¬(BW < 0))
    (hATc : ¬(ATc < 0)) (hs : s ∉ respirable_pnor_pel_limiting_scenarios) :
    respirable_pnor_pel_limiting ys s KCk b h ED NWexp NS EY BW ATc AT =
      .error (.nameError "ScenarioException") := by
  simp only [respirable_pnor_pel_limiting, inhalation_model_init, check_ul, check_l,
    hED, hEY, hBW, hATc, hs, ite_false, ite_true, not_false_eq_true,
    ok_bind, error_bind, pure_eq_ok, throw_eq_error]

/-- Fully resolved instance produced by a successful `mass_balance` run. -/
def mass_balance_instance (G MW VP X : ℚ) (s : String)
    (T Vm b h qv kv ED NWexp NS EY BW ATc AT : ℚ) : ModelInstance :=
  (fun cv =>
      { model_name := "EPA-OPPT Mass Balance"
        route := "inhalation"
        scenario := normalize_scenario s
        inputs := [("ED", ED), ("NWexp", NWexp), ("NS", NS), ("EY", EY), ("BW", BW),
                   ("ATc", ATc), ("AT", AT), ("T", T), ("G", G), ("MW", MW),
                   ("X", X), ("VP", VP), ("Vm", Vm), ("b", b), ("h", h),
                   ("Q", qv), ("k", kv)]
        outputs := [("Cv", cv), ("Cm", cv * MW / Vm),
                    ("NW", NWexp * NS),
                    ("LADD", cv * MW / Vm * b * h * ED * EY / (BW * ATc * 365)),
                    ("ADD", cv * MW / Vm * b * h * ED * EY / (BW * AT * 365)),
                    ("APDR", cv * MW / Vm * b * h / BW),
                    ("I", cv * MW / Vm * b * h)] })
  (min (170000 * T * G / (MW * qv * kv)) (1000000 * X * VP / 760))

set_option maxHeartbeats 1600000 in
/-- `mass_balance` succeeds, with the fully resolved instance, whenever the
common checks pass and the normalized scenario is valid.  Note: none of
`T`, `G`, `MW`, `X`, `VP`, `Vm`, `b`, `h`, `Q`, `k` is bounds-checked. -/
theorem mass_balance_success (G MW VP X : ℚ) (s : String)
    (T Q k Vm b h vz ED NWexp NS EY BW ATc AT : ℚ)
    (hED : ¬(ED < 0 ∨ ED > 365)) (hEY : ¬(EY < 0)) (hBW : ¬(BW < 0))
    (hATc : ¬(ATc < 0)) (hs : normalize_scenario s ∈ mass_balance_scenarios) :
    mass_balance G MW VP X s T Q k Vm b h vz ED NWexp NS EY BW ATc AT =
      .ok (mass_balance_instance G MW VP X s T Vm b h
            (if normalize_scenario s = "indoor,typical" then 3000
       else if normalize_scenario s = "indoor,worst-case" then 500
       else if normalize_scenario s = "outdoor,typical" then 237600
       else if normalize_scenario s = "outdoor,worst-case" then 26400 * (60 * vz / 5280)^(3:ℕ)
       else Q)
            (if normalize_scenario s = "indoor,typical" then 1/2
       else if normalize_scenario s = "indoor,worst-case" then 1/10
       else if normalize_scenario s = "outdoor,typical" then 1/2
       else if normalize_scenario s = "outdoor,worst-case" then 1/10
       else k)
            ED NWexp NS EY BW ATc AT) := by
  have hs' : ¬(normalize_scenario s ∉ mass_balance_scenarios) := not_not_intro hs
  have hsc5 : normalize_scenario s = "indoor,typical" ∨
      normalize_scenario s = "indoor,worst-case" ∨
      normalize_scenario s = "outdoor,typical" ∨
      normalize_scenario s = "outdoor,worst-case" ∨
      normalize_scenario s = "user" := by
    simpa [mass_balance_scenarios] using hs
  simp only [mass_balance, inhalation_model_init, check_ul, check_l,
    hED, hEY, hBW, hATc, hs', ite_false, ite_true,
    not_false_eq_true, ok_bind, error_bind, pure_eq_ok, throw_eq_error]
  rw [dispatch_mass_balance _ _ _ _ _ _ _ _ _ _ _ _ hsc5]
  generalize (if normalize_scenario s = "indoor,typical" then 3000
       else if normalize_scenario s = "indoor,worst-case" then 500
       else if normalize_scenario s = "outdoor,typical" then 237600
       else if normalize_scenario s = "outdoor,worst-case" then 26400 * (60 * vz / 5280)^(3:ℕ)
       else Q) = qv
  generalize (if normalize_scenario s = "indoor,typical" then 1/2
       else if normalize_scenario s = "indoor,worst-case" then 1/10
       else if normalize_scenario s = "outdoor,typical" then 1/2
       else if normalize_scenario s = "outdoor,worst-case" then 1/10
       else k) = kv
  simp only [dict_set_nil, dict_set_cons, dict_get_nil, dict_get_cons,
    String.reduceEq, reduceIte, ite_true, ite_false, reduceCtorEq]
  simp only [mass_balance_Cv, mass_balance_Cm, getk, dict_get_nil, dict_get_cons,
    dict_set_nil, dict_set_cons, Option.elim, String.reduceEq, reduceIte,
    ite_true, ite_false, reduceCtorEq, ok_bind, pure_eq_ok]
  generalize hcv : min (170000 * T * G / (MW * qv * kv)) (1000000 * X * VP / 760) = cv
  rw [compute_outputs_inh_Cm [("Cv", cv), ("Cm", cv * MW / Vm)] _ (cv * MW / Vm)
        b h NWexp NS ED EY BW ATc AT] <;>
    simp only [mass_balance_instance, hcv, ok_bind, dict_get_nil, dict_get_cons,
      String.reduceEq, reduceIte, reduceCtorEq, ite_true, ite_false,
      List.cons_append, List.nil_append]

/-- Inversion: a successful `mass_balance` run implies the common checks
passed and the normalized scenario is valid (no other input is checked). -/
theorem mass_balance_ok_conditions (G MW VP X : ℚ) (s : String)
    (T Q k Vm b h vz ED NWexp NS EY BW ATc AT : ℚ) (m : ModelInstance)
    (h2 : mass_balance G MW VP X s T Q k Vm b h vz ED NWexp NS EY BW ATc AT = .ok m) :
    ¬(ED < 0 ∨ ED > 365) ∧ ¬(EY < 0) ∧ ¬(BW < 0) ∧ ¬(ATc < 0) ∧
      normalize_scenario s ∈ mass_balance_scenarios := by
  simp only [mass_balance, inhalation_model_init, bind_ok_iff,
    ite_eq_ok_iff, check_ul_eq_ok, check_l_eq_ok, ok_bind, error_bind,
    pure_eq_ok, throw_eq_error, reduceCtorEq, Except.ok.injEq, false_and,
    and_false, exists_false, false_or, or_false, not_not] at h2
  obtain ⟨a, ⟨a1, ⟨hED, rfl⟩, a2, ⟨hEY, rfl⟩, a3, ⟨hBW, rfl⟩, a4, ⟨hATc, rfl⟩,
    rfl⟩, hsc, rest⟩ := h2
  exact ⟨hED, hEY, hBW, hATc, hsc⟩

/-- An invalid normalized scenario makes `mass_balance` fail with the
`NameError` from looking up the unbound `ScenarioException` class name. -/
theorem mass_balance_scenario_fail (G MW VP X : ℚ) (s : String)
    (T Q k Vm b h vz ED NWexp NS EY BW ATc AT : ℚ)
    (hED : ¬(ED < 0 ∨ ED > 365)) (hEY : ¬(EY < 0)) (hBW : ¬(BW < 0))
    (hATc : ¬(ATc < 0)) (hs : normalize_scenario s ∉ mass_balance_scenarios) :
    mass_balance G MW VP X s T Q k Vm b h vz ED NWexp NS EY BW ATc AT =
      .error (.nameError "ScenarioException") := by
  simp only [mass_balance, inhalation_model_init, check_ul, check_l,
    hED, hEY, hBW, hATc, hs, ite_false, ite_true, not_false_eq_true,
    ok_bind, error_bind, pure_eq_ok, throw_eq_error]


/-- Fully resolved instance produced by a successful `pel_limiting_vapors`
run: the stored `Ypel` is `1 - Ys`, never the caller's argument. -/
def pel_limiting_vapors_instance (Cvk VP Ys MW VPpel MWpel X : ℚ) (s : String)
    (Vm b h ED NWexp NS EY BW ATc AT : ℚ) : ModelInstance :=
  (fun cv =>
    { model_name := "OSHA PEL-limiting Model for Substance-specific Vapors"
      route := "inhalation"
      scenario := normalize_scenario s
      inputs := [("ED", ED), ("NWexp", NWexp), ("NS", NS), ("EY", EY), ("BW", BW),
                 ("ATc", ATc), ("AT", AT), ("Cvk", Cvk), ("VP", VP), ("Ys", Ys),
                 ("MW", MW), ("VPpel", VPpel), ("Ypel", 1 - Ys), ("MWpel", MWpel),
                 ("X", X), ("Vm", Vm), ("b", b), ("h", h)]
      outputs := [("Cv", cv), ("Cm", cv * MW / Vm),
                  ("NW", NWexp * NS),
                  ("LADD", cv * MW / Vm * b * h * ED * EY / (BW * ATc * 365)),
                  ("ADD", cv * MW / Vm * b * h * ED * EY / (BW * AT * 365)),
                  ("APDR", cv * MW / Vm * b * h / BW),
                  ("I", cv * MW / Vm * b * h)] })
  (min (Cvk * (VP * Ys / MW) / (VPpel * (1 - Ys) / MWpel))
       (1000000 * X * VP / 760))

set_option maxHeartbeats 1600000 in
/-- `pel_limiting_vapors` succeeds, with the fully resolved instance,
whenever its checks pass and the RAW scenario argument is valid. -/
theorem pel_limiting_vapors_success (Cvk VP ys MW VPpel Ypel MWpel X : ℚ) (s : String)
    (Vm b h ED NWexp NS EY BW ATc AT : ℚ)
    (hED : ¬(ED < 0 ∨ ED > 365)) (hEY : ¬(EY < 0)) (hBW : ¬(BW < 0))
    (hATc : ¬(ATc < 0)) (hs : s ∈ pel_limiting_vapors_scenarios)
    (hYs : ¬(ys < 0 ∨ ys > 1)) (hX : ¬(X < 0 ∨ X > 1)) (hVm : ¬(Vm < 0))
    (hb : ¬(b < 0 ∨ b > 79/10)) (hh : ¬(h < 0 ∨ h > 24)) :
    pel_limiting_vapors Cvk VP ys MW VPpel Ypel MWpel X s Vm b h ED NWexp NS EY BW ATc AT =
      .ok (pel_limiting_vapors_instance Cvk VP ys MW VPpel MWpel X s Vm b h ED NWexp NS EY BW ATc AT) := by
  have hs' : ¬(s ∉ pel_limiting_vapors_scenarios) := not_not_intro hs
  simp only [pel_limiting_vapors, inhalation_model_init, check_ul, check_l,
    hED, hEY, hBW, hATc, hs', ite_false, ite_true,
    not_false_eq_true, ok_bind, error_bind, pure_eq_ok, throw_eq_error]
  simp only [hYs, hX, hVm, hb, hh, ite_false, not_false_eq_true,
    ok_bind, error_bind, pure_eq_ok, throw_eq_error]
  simp only [dict_set_nil, dict_set_cons, dict_get_nil, dict_get_cons, String.reduceEq, reduceIte, ite_true, ite_false,
    reduceCtorEq]
  simp only [pel_limiting_vapors_Cv, pel_limiting_vapors_Cm, getk, dict_get_nil, dict_get_cons,
    dict_set_nil, dict_set_cons, Option.elim, String.reduceEq, reduceIte, ite_true, ite_false,
    reduceCtorEq, ok_bind, pure_eq_ok]
  generalize hcv : min (Cvk * (VP * ys / MW) / (VPpel * (1 - ys) / MWpel))
    (1000000 * X * VP / 760) = cv
  rw [compute_outputs_inh_Cm [("Cv", cv), ("Cm", cv * MW / Vm)] _ (cv * MW / Vm)
        b h NWexp NS ED EY BW ATc AT] <;>
    simp only [pel_limiting_vapors_instance, hcv, ok_bind, dict_get_nil, dict_get_cons,
      String.reduceEq, reduceIte, reduceCtorEq, ite_true, ite_false,
      List.cons_append, List.nil_append]

/-- Inversion: a successful `pel_limiting_vapors` run implies every bounds
check passed and the raw scenario argument is valid. -/
theorem pel_limiting_vapors_ok_conditions (Cvk VP ys MW VPpel Ypel MWpel X : ℚ) (s : String)
    (Vm b h ED NWexp NS EY BW ATc AT : ℚ) (m : ModelInstance)
    (h2 : pel_limiting_vapors Cvk VP ys MW VPpel Ypel MWpel X s Vm b h ED NWexp NS EY BW ATc AT = .ok m) :
    ¬(ED < 0 ∨ ED > 365) ∧ ¬(EY < 0) ∧ ¬(BW < 0) ∧ ¬(ATc < 0) ∧
      s ∈ pel_limiting_vapors_scenarios ∧
      ¬(ys < 0 ∨ ys > 1) ∧ ¬(X < 0 ∨ X > 1) ∧ ¬(Vm < 0) ∧
      ¬(b < 0 ∨ b > 79/10) ∧ ¬(h < 0 ∨ h > 24) := by
  simp only [pel_limiting_vapors, inhalation_model_init, bind_ok_iff,
    ite_eq_ok_iff, check_ul_eq_ok, check_l_eq_ok, ok_bind, error_bind,
    pure_eq_ok, throw_eq_error, reduceCtorEq, Except.ok.injEq, false_and,
    and_false, exists_false, false_or, or_false, not_not] at h2
  obtain ⟨a, ⟨a1, ⟨hED, rfl⟩, a2, ⟨hEY, rfl⟩, a3, ⟨hBW, rfl⟩, a4, ⟨hATc, rfl⟩,
    rfl⟩, hsc, ysv, ⟨hYs, rfl⟩, xv, ⟨hX, rfl⟩, vmv, ⟨hVm, rfl⟩,
    bv, ⟨hb, rfl⟩, hv, ⟨hh, rfl⟩, rest⟩ := h2
  exact ⟨hED, hEY, hBW, hATc, hsc, hYs, hX, hVm, hb, hh⟩

/-- A raw scenario argument outside the valid set makes
`pel_limiting_vapors` fail with the `NameError` from looking up the
unbound `ScenarioException` class name. -/
theorem pel_limiting_vapors_scenario_fail (Cvk VP ys MW VPpel Ypel MWpel X : ℚ) (s : String)
    (Vm b h ED NWexp NS EY BW ATc AT : ℚ)
    (hED : ¬(ED < 0 ∨ ED > 365)) (hEY : ¬(EY < 0)) (hBW : ¬(BW < 0))
    (hATc : ¬(ATc < 0)) (hs : s ∉ pel_limiting_vapors_scenarios) :
    pel_limiting_vapors Cvk VP ys MW VPpel Ypel MWpel X s Vm b h ED NWexp NS EY BW ATc AT =
      .error (.nameError "ScenarioException") := by
  simp only [pel_limiting_vapors, inhalation_model_init, check_ul, check_l,
    hED, hEY, hBW, hATc, hs, ite_false, ite_true, not_false_eq_true,
    ok_bind, error_bind, pure_eq_ok, throw_eq_error]

/-- Fully resolved instance produced by a successful
`automobile_oem_spray_coating` run, with the table-resolved `KCk` and the
resolved `Ys` passed in as `kck` and `ysv`. -/
def automobile_oem_spray_coating_instance (Ymist : ℚ) (s : String)
    (kck ysv Ysf b h ED NWexp NS EY BW ATc AT : ℚ) : ModelInstance :=
  { model_name := "EPA-OPPT automobile OEM Spray Coating"
    route := "inhalation"
    scenario := normalize_scenario s
    inputs := [("ED", ED), ("NWexp", NWexp), ("NS", NS), ("EY", EY), ("BW", BW),
               ("ATc", ATc), ("AT", AT), ("KCk", kck), ("Ymist", Ymist),
               ("Ysf", Ysf), ("Ys", ysv), ("b", b), ("h", h)]
    outputs := [("Cm", kck * ysv),
                ("NW", NWexp * NS),
                ("LADD", kck * ysv * b * h * ED * EY / (BW * ATc * 365)),
                ("ADD", kck * ysv * b * h * ED * EY / (BW * AT * 365)),
                ("APDR", kck * ysv * b * h / BW),
                ("I", kck * ysv * b * h)] }

set_option maxHeartbeats 1600000 in
/-- `automobile_oem_spray_coating` succeeds, with the fully resolved
instance, whenever its checks pass and the normalized scenario is valid;
the stored `Ys` is the caller's value, or `min(Ymist/Ysf, 1)` when the
caller passed `None`. -/
theorem automobile_oem_spray_coating_success (Ymist : ℚ) (s : String) (KCk : ℚ)
    (Ys : Option ℚ) (Ysf b h ED NWexp NS EY BW ATc AT : ℚ)
    (hED : ¬(ED < 0 ∨ ED > 365)) (hEY : ¬(EY < 0)) (hBW : ¬(BW < 0))
    (hATc : ¬(ATc < 0)) (hs : normalize_scenario s ∈ automobile_oem_spray_coating_scenarios)
    (hYm : ¬(Ymist < 0 ∨ Ymist > 1)) (hYsf : ¬(Ysf < 0 ∨ Ysf > 1))
    (hYs : ¬(Ys.getD (min (Ymist / Ysf) 1) < 0 ∨ Ys.getD (min (Ymist / Ysf) 1) > 1))
    (hb : ¬(b < 0 ∨ b > 79/10)) (hh : ¬(h < 0 ∨ h > 24)) :
    automobile_oem_spray_coating Ymist s KCk Ys Ysf b h ED NWexp NS EY BW ATc AT =
      .ok (automobile_oem_spray_coating_instance Ymist s
            (if normalize_scenario s = "conventional,downdraft" then 23/10
             else if normalize_scenario s = "conventional,crossdraft" then 15
             else if normalize_scenario s = "hvlp,downdraft" then 19/10
             else if normalize_scenario s = "hvlp,crossdraft" then 15
             else KCk)
            (Ys.getD (min (Ymist / Ysf) 1)) Ysf b h ED NWexp NS EY BW ATc AT) := by
  have hs' : ¬(normalize_scenario s ∉ automobile_oem_spray_coating_scenarios) :=
    not_not_intro hs
  have hsc5 : normalize_scenario s = "conventional,downdraft" ∨
      normalize_scenario s = "conventional,crossdraft" ∨
      normalize_scenario s = "hvlp,downdraft" ∨
      normalize_scenario s = "hvlp,crossdraft" ∨
      normalize_scenario s = "user" := by
    simpa [automobile_oem_spray_coating_scenarios] using hs
  cases Ys with
  | none =>
      simp only [Option.getD_none] at hYs
      simp only [automobile_oem_spray_coating, inhalation_model_init, check_ul,
        check_l, hED, hEY, hBW, hATc, hs', ite_false,
        ite_true, not_false_eq_true, ok_bind, error_bind, pure_eq_ok,
        throw_eq_error]
      rw [dispatch_spray5 _ _ _ _ _ _ _ _ hsc5]
      simp only [hYm, hYsf, hYs, hb, hh, ite_false, not_false_eq_true,
        ok_bind, error_bind, pure_eq_ok, throw_eq_error]
      generalize (if normalize_scenario s = "conventional,downdraft" then (23/10 : ℚ)
        else if normalize_scenario s = "conventional,crossdraft" then 15
        else if normalize_scenario s = "hvlp,downdraft" then 19/10
        else if normalize_scenario s = "hvlp,crossdraft" then 15
        else KCk) = kck
      simp only [dict_set_nil, dict_set_cons, dict_get_nil, dict_get_cons,
        String.reduceEq, reduceIte, ite_true, ite_false, reduceCtorEq]
      simp only [automobile_oem_spray_coating_Cm, getk, dict_get_nil, dict_get_cons,
        dict_set_nil, dict_set_cons, Option.elim, String.reduceEq, reduceIte,
        ite_true, ite_false, reduceCtorEq, ok_bind, pure_eq_ok]
      rw [compute_outputs_inh_Cm [("Cm", kck * min (Ymist / Ysf) 1)] _
            (kck * min (Ymist / Ysf) 1) b h NWexp NS ED EY BW ATc AT] <;>
        simp only [automobile_oem_spray_coating_instance, Option.getD_none, ok_bind,
          dict_get_nil, dict_get_cons, String.reduceEq, reduceIte, reduceCtorEq,
          ite_true, ite_false, List.cons_append, List.nil_append]
  | some ysv =>
      simp only [Option.getD_some] at hYs
      simp only [automobile_oem_spray_coating, inhalation_model_init, check_ul,
        check_l, hED, hEY, hBW, hATc, hs', ite_false,
        ite_true, not_false_eq_true, ok_bind, error_bind, pure_eq_ok,
        throw_eq_error]
      rw [dispatch_spray5 _ _ _ _ _ _ _ _ hsc5]
      simp only [hYm, hYsf, hYs, hb, hh, ite_false, not_false_eq_true,
        ok_bind, error_bind, pure_eq_ok, throw_eq_error]
      generalize (if normalize_scenario s = "conventional,downdraft" then (23/10 : ℚ)
        else if normalize_scenario s = "conventional,crossdraft" then 15
        else if normalize_scenario s = "hvlp,downdraft" then 19/10
        else if normalize_scenario s = "hvlp,crossdraft" then 15
        else KCk) = kck
      simp only [dict_set_nil, dict_set_cons, dict_get_nil, dict_get_cons,
        String.reduceEq, reduceIte, ite_true, ite_false, reduceCtorEq]
      simp only [automobile_oem_spray_coating_Cm, getk, dict_get_nil, dict_get_cons,
        dict_set_nil, dict_set_cons, Option.elim, String.reduceEq, reduceIte,
        ite_true, ite_false, reduceCtorEq, ok_bind, pure_eq_ok]
      rw [compute_outputs_inh_Cm [("Cm", kck * ysv)] _
            (kck * ysv) b h NWexp NS ED EY BW ATc AT] <;>
        simp only [automobile_oem_spray_coating_instance, Option.getD_some, ok_bind,
          dict_get_nil, dict_get_cons, String.reduceEq, reduceIte, reduceCtorEq,
          ite_true, ite_false, List.cons_append, List.nil_append]

/-- Inversion: a successful `automobile_oem_spray_coating` run implies
every bounds check passed (including the one on the resolved `Ys`) and the
normalized scenario is valid. -/
theorem automobile_oem_spray_coating_ok_conditions (Ymist : ℚ) (s : String) (KCk : ℚ)
    (Ys : Option ℚ) (Ysf b h ED NWexp NS EY BW ATc AT : ℚ) (m : ModelInstance)
    (h2 : automobile_oem_spray_coating Ymist s KCk Ys Ysf b h ED NWexp NS EY BW ATc AT = .ok m) :
    ¬(ED < 0 ∨ ED > 365) ∧ ¬(EY < 0) ∧ ¬(BW < 0) ∧ ¬(ATc < 0) ∧
      normalize_scenario s ∈ automobile_oem_spray_coating_scenarios ∧
      ¬(Ymist < 0 ∨ Ymist > 1) ∧ ¬(Ysf < 0 ∨ Ysf > 1) ∧
      ¬(Ys.getD (min (Ymist / Ysf) 1) < 0 ∨ Ys.getD (min (Ymist / Ysf) 1) > 1) ∧
      ¬(b < 0 ∨ b > 79/10) ∧ ¬(h < 0 ∨ h > 24) := by
  cases Ys with
  | none =>
      simp only [Option.getD_none]
      simp only [automobile_oem_spray_coating, inhalation_model_init, bind_ok_iff,
        ite_eq_ok_iff, check_ul_eq_ok, check_l_eq_ok, ok_bind, error_bind,
        pure_eq_ok, throw_eq_error, reduceCtorEq, Except.ok.injEq, false_and,
        and_false, exists_false, false_or, or_false, not_not] at h2
      obtain ⟨a, ⟨a1, ⟨hED, rfl⟩, a2, ⟨hEY, rfl⟩, a3, ⟨hBW, rfl⟩, a4, ⟨hATc, rfl⟩,
        rfl⟩, hsc, ymv, ⟨hYm, rfl⟩, ysfv, ⟨hYsf, rfl⟩, ysv, ⟨hYs, rfl⟩,
        bv, ⟨hb, rfl⟩, hv, ⟨hh, rfl⟩, rest⟩ := h2
      exact ⟨hED, hEY, hBW, hATc, hsc, hYm, hYsf, hYs, hb, hh⟩
  | some ysc =>
      simp only [Option.getD_some]
      simp only [automobile_oem_spray_coating, inhalation_model_init, bind_ok_iff,
        ite_eq_ok_iff, check_ul_eq_ok, check_l_eq_ok, ok_bind, error_bind,
        pure_eq_ok, throw_eq_error, reduceCtorEq, Except.ok.injEq, false_and,
        and_false, exists_false, false_or, or_false, not_not] at h2
      obtain ⟨a, ⟨a1, ⟨hED, rfl⟩, a2, ⟨hEY, rfl⟩, a3, ⟨hBW, rfl⟩, a4, ⟨hATc, rfl⟩,
        rfl⟩, hsc, ymv, ⟨hYm, rfl⟩, ysfv, ⟨hYsf, rfl⟩, ysv, ⟨hYs, rfl⟩,
        bv, ⟨hb, rfl⟩, hv, ⟨hh, rfl⟩, rest⟩ := h2
      exact ⟨hED, hEY, hBW, hATc, hsc, hYm, hYsf, hYs, hb, hh⟩

/-- An invalid normalized scenario makes `automobile_oem_spray_coating`
fail with the `NameError` from looking up the unbound `ScenarioException`
class name. -/
theorem automobile_oem_spray_coating_scenario_fail (Ymist : ℚ) (s : String) (KCk : ℚ)
    (Ys : Option ℚ) (Ysf b h ED NWexp NS EY BW ATc AT : ℚ)
    (hED : ¬(ED < 0 ∨ ED > 365)) (hEY : ¬(EY < 0)) (hBW : ¬(BW < 0))
    (hATc : ¬(ATc < 0)) (hs : normalize_scenario s ∉ automobile_oem_spray_coating_scenarios) :
    automobile_oem_spray_coating Ymist s KCk Ys Ysf b h ED NWexp NS EY BW ATc AT =
      .error (.nameError "ScenarioException") := by
  simp only [automobile_oem_spray_coating, inhalation_model_init, check_ul, check_l,
    hED, hEY, hBW, hATc, hs, ite_false, ite_true, not_false_eq_true,
    ok_bind, error_bind, pure_eq_ok, throw_eq_error]


/-- Fully resolved instance produced by a successful
`automobile_refinish_spray_coating` run. -/
def automobile_refinish_spray_coating_instance (Ymist : ℚ) (s : String)
    (kck ysv Ysf b h ED NWexp NS EY BW ATc AT : ℚ) : ModelInstance :=
  { model_name := "EPA-OPPT Automobile Refinish Spray Coating"
    route := "inhalation"
    scenario := normalize_scenario s
    inputs := [("ED", ED), ("NWexp", NWexp), ("NS", NS), ("EY", EY), ("BW", BW),
               ("ATc", ATc), ("AT", AT), ("KCk", kck), ("Ymist", Ymist),
               ("Ysf", Ysf), ("Ys", ysv), ("b", b), ("h", h)]
    outputs := [("Cm", kck * ysv),
                ("NW", NWexp * NS),
                ("LADD", kck * ysv * b * h * ED * EY / (BW * ATc * 365)),
                ("ADD", kck * ysv * b * h * ED * EY / (BW * AT * 365)),
                ("APDR", kck * ysv * b * h / BW),
                ("I", kck * ysv * b * h)] }

set_option maxHeartbeats 1600000 in
/-- `automobile_refinish_spray_coating` succeeds, with the fully resolved
instance, whenever its checks pass and the normalized scenario is valid. -/
theorem automobile_refinish_spray_coating_success (Ymist : ℚ) (s : String)
    (Ys : Option ℚ) (KCk Ysf b h ED NWexp NS EY BW ATc AT : ℚ)
    (hED : ¬(ED < 0 ∨ ED > 365)) (hEY : ¬(EY < 0)) (hBW : ¬(BW < 0))
    (hATc : ¬(ATc < 0)) (hs : normalize_scenario s ∈ automobile_refinish_spray_coating_scenarios)
    (hYm : ¬(Ymist < 0 ∨ Ymist > 1)) (hYsf : ¬(Ysf < 0 ∨ Ysf > 1))
    (hYs : ¬(Ys.getD (min (Ymist / Ysf) 1) < 0 ∨ Ys.getD (min (Ymist / Ysf) 1) > 1))
    (hb : ¬(b < 0 ∨ b > 79/10)) (hh : ¬(h < 0 ∨ h > 24)) :
    automobile_refinish_spray_coating Ymist s Ys KCk Ysf b h ED NWexp NS EY BW ATc AT =
      .ok (automobile_refinish_spray_coating_instance Ymist s
            (if normalize_scenario s = "conventional,downdraft" then 23/10
             else if normalize_scenario s = "conventional,crossdraft" then 15
             else if normalize_scenario s = "hvlp,downdraft" then 19/10
             else if normalize_scenario s = "hvlp,crossdraft" then 15
             else KCk)
            (Ys.getD (min (Ymist / Ysf) 1)) Ysf b h ED NWexp NS EY BW ATc AT) := by
  have hs' : ¬(normalize_scenario s ∉ automobile_refinish_spray_coating_scenarios) :=
    not_not_intro hs
  have hsc5 : normalize_scenario s = "conventional,downdraft" ∨
      normalize_scenario s = "conventional,crossdraft" ∨
      normalize_scenario s = "hvlp,downdraft" ∨
      normalize_scenario s = "hvlp,crossdraft" ∨
      normalize_scenario s = "user" := by
    simpa [automobile_refinish_spray_coating_scenarios] using hs
  cases Ys with
  | none =>
      simp only [Option.getD_none] at hYs
      simp only [automobile_refinish_spray_coating, inhalation_model_init, check_ul,
        check_l, hED, hEY, hBW, hATc, hs', ite_false,
        ite_true, not_false_eq_true, ok_bind, error_bind, pure_eq_ok,
        throw_eq_error]
      rw [dispatch_spray5 _ _ _ _ _ _ _ _ hsc5]
      simp only [hYm, hYsf, hYs, hb, hh, ite_false, not_false_eq_true,
        ok_bind, error_bind, pure_eq_ok, throw_eq_error]
      generalize (if normalize_scenario s = "conventional,downdraft" then (23/10 : ℚ)
        else if normalize_scenario s = "conventional,crossdraft" then 15
        else if normalize_scenario s = "hvlp,downdraft" then 19/10
        else if normalize_scenario s = "hvlp,crossdraft" then 15
        else KCk) = kck
      simp only [dict_set_nil, dict_set_cons, dict_get_nil, dict_get_cons,
        String.reduceEq, reduceIte, ite_true, ite_false, reduceCtorEq]
      simp only [automobile_refinish_spray_coating_Cm, getk, dict_get_nil, dict_get_cons,
        dict_set_nil, dict_set_cons, Option.elim, String.reduceEq, reduceIte,
        ite_true, ite_false, reduceCtorEq, ok_bind, pure_eq_ok]
      rw [compute_outputs_inh_Cm [("Cm", kck * min (Ymist / Ysf) 1)] _
            (kck * min (Ymist / Ysf) 1) b h NWexp NS ED EY BW ATc AT] <;>
        simp only [automobile_refinish_spray_coating_instance, Option.getD_none, ok_bind,
          dict_get_nil, dict_get_cons, String.reduceEq, reduceIte, reduceCtorEq,
          ite_true, ite_false, List.cons_append, List.nil_append]
  | some ysv =>
      simp only [Option.getD_some] at hYs
      simp only [automobile_refinish_spray_coating, inhalation_model_init, check_ul,
        check_l, hED, hEY, hBW, hATc, hs', ite_false,
        ite_true, not_false_eq_true, ok_bind, error_bind, pure_eq_ok,
        throw_eq_error]
      rw [dispatch_spray5 _ _ _ _ _ _ _ _ hsc5]
      simp only [hYm, hYsf, hYs, hb, hh, ite_false, not_false_eq_true,
        ok_bind, error_bind, pure_eq_ok, throw_eq_error]
      generalize (if normalize_scenario s = "conventional,downdraft" then (23/10 : ℚ)
        else if normalize_scenario s = "conventional,crossdraft" then 15
        else if normalize_scenario s = "hvlp,downdraft" then 19/10
        else if normalize_scenario s = "hvlp,crossdraft" then 15
        else KCk) = kck
      simp only [dict_set_nil, dict_set_cons, dict_get_nil, dict_get_cons,
        String.reduceEq, reduceIte, ite_true, ite_false, reduceCtorEq]
      simp only [automobile_refinish_spray_coating_Cm, getk, dict_get_nil, dict_get_cons,
        dict_set_nil, dict_set_cons, Option.elim, String.reduceEq, reduceIte,
        ite_true, ite_false, reduceCtorEq, ok_bind, pure_eq_ok]
      rw [compute_outputs_inh_Cm [("Cm", kck * ysv)] _
            (kck * ysv) b h NWexp NS ED EY BW ATc AT] <;>
        simp only [automobile_refinish_spray_coating_instance, Option.getD_some, ok_bind,
          dict_get_nil, dict_get_cons, String.reduceEq, reduceIte, reduceCtorEq,
          ite_true, ite_false, List.cons_append, List.nil_append]

/-- Inversion: a successful `automobile_refinish_spray_coating` run
implies every bounds check passed and the normalized scenario is valid. -/
theorem automobile_refinish_spray_coating_ok_conditions (Ymist : ℚ) (s : String)
    (Ys : Option ℚ) (KCk Ysf b h ED NWexp NS EY BW ATc AT : ℚ) (m : ModelInstance)
    (h2 : automobile_refinish_spray_coating Ymist s Ys KCk Ysf b h ED NWexp NS EY BW ATc AT = .ok m) :
    ¬(ED < 0 ∨ ED > 365) ∧ ¬(EY < 0) ∧ ¬(BW < 0) ∧ ¬(ATc < 0) ∧
      normalize_scenario s ∈ automobile_refinish_spray_coating_scenarios ∧
      ¬(Ymist < 0 ∨ Ymist > 1) ∧ ¬(Ysf < 0 ∨ Ysf > 1) ∧
      ¬(Ys.getD (min (Ymist / Ysf) 1) < 0 ∨ Ys.getD (min (Ymist / Ysf) 1) > 1) ∧
      ¬(b < 0 ∨ b > 79/10) ∧ ¬(h < 0 ∨ h > 24) := by
  cases Ys with
  | none =>
      simp only [Option.getD_none]
      simp only [automobile_refinish_spray_coating, inhalation_model_init, bind_ok_iff,
        ite_eq_ok_iff, check_ul_eq_ok, check_l_eq_ok, ok_bind, error_bind,
        pure_eq_ok, throw_eq_error, reduceCtorEq, Except.ok.injEq, false_and,
        and_false, exists_false, false_or, or_false, not_not] at h2
      obtain ⟨a, ⟨a1, ⟨hED, rfl⟩, a2, ⟨hEY, rfl⟩, a3, ⟨hBW, rfl⟩, a4, ⟨hATc, rfl⟩,
        rfl⟩, hsc, ymv, ⟨hYm, rfl⟩, ysfv, ⟨hYsf, rfl⟩, ysv, ⟨hYs, rfl⟩,
        bv, ⟨hb, rfl⟩, hv, ⟨hh, rfl⟩, rest⟩ := h2
      exact ⟨hED, hEY, hBW, hATc, hsc, hYm, hYsf, hYs, hb, hh⟩
  | some ysc =>
      simp only [Option.getD_some]
      simp only [automobile_refinish_spray_coating, inhalation_model_init, bind_ok_iff,
        ite_eq_ok_iff, check_ul_eq_ok, check_l_eq_ok, ok_bind, error_bind,
        pure_eq_ok, throw_eq_error, reduceCtorEq, Except.ok.injEq, false_and,
        and_false, exists_false, false_or, or_false, not_not] at h2
      obtain ⟨a, ⟨a1, ⟨hED, rfl⟩, a2, ⟨hEY, rfl⟩, a3, ⟨hBW, rfl⟩, a4, ⟨hATc, rfl⟩,
        rfl⟩, hsc, ymv, ⟨hYm, rfl⟩, ysfv, ⟨hYsf, rfl⟩, ysv, ⟨hYs, rfl⟩,
        bv, ⟨hb, rfl⟩, hv, ⟨hh, rfl⟩, rest⟩ := h2
      exact ⟨hED, hEY, hBW, hATc, hsc, hYm, hYsf, hYs, hb, hh⟩

/-- An invalid normalized scenario makes `automobile_refinish_spray_coating`
fail with the `NameError` from looking up the unbound `ScenarioException`
class name. -/
theorem automobile_refinish_spray_coating_scenario_fail (Ymist : ℚ) (s : String)
    (Ys : Option ℚ) (KCk Ysf b h ED NWexp NS EY BW ATc AT : ℚ)
    (hED : ¬(ED < 0 ∨ ED > 365)) (hEY : ¬(EY < 0)) (hBW : ¬(BW < 0))
    (hATc : ¬(ATc < 0)) (hs : normalize_scenario s ∉ automobile_refinish_spray_coating_scenarios) :
    automobile_refinish_spray_coating Ymist s Ys KCk Ysf b h ED NWexp NS EY BW ATc AT =
      .error (.nameError "ScenarioException") := by
  simp only [automobile_refinish_spray_coating, inhalation_model_init, check_ul, check_l,
    hED, hEY, hBW, hATc, hs, ite_false, ite_true, not_false_eq_true,
    ok_bind, error_bind, pure_eq_ok, throw_eq_error]


/-- Fully resolved instance produced by a successful
`automobile_spray_coating` run, with the table-resolved `KCk` passed in as
`kck`.  No bounds are checked on `b` or `h`. -/
def automobile_spray_coating_instance (s : String)
    (kck b h ED NWexp NS EY BW ATc AT : ℚ) : ModelInstance :=
  { model_name := "EPA-OPPT Automobile Spray Coating"
    route := "inhalation"
    scenario := normalize_scenario s
    inputs := [("ED", ED), ("NWexp", NWexp), ("NS", NS), ("EY", EY), ("BW", BW),
               ("ATc", ATc), ("AT", AT), ("KCk", kck), ("b", b), ("h", h)]
    outputs := [("Cm", kck),
                ("NW", NWexp * NS),
                ("LADD", kck * b * h * ED * EY / (BW * ATc * 365)),
                ("ADD", kck * b * h * ED * EY / (BW * AT * 365)),
                ("APDR", kck * b * h / BW),
                ("I", kck * b * h)] }

set_option maxHeartbeats 1600000 in
/-- `automobile_spray_coating` succeeds, with the fully resolved instance,
whenever the common checks pass and the normalized scenario is in the
8-entry valid set; the caller's `KCk` argument is never used because the
`'user'` branch is unreachable, and `b`, `h` are stored unchecked. -/
theorem automobile_spray_coating_success (s : String)
    (KCk b h ED NWexp NS EY BW ATc AT : ℚ)
    (hED : ¬(ED < 0 ∨ ED > 365)) (hEY : ¬(EY < 0)) (hBW : ¬(BW < 0))
    (hATc : ¬(ATc < 0)) (hs : normalize_scenario s ∈ automobile_spray_coating_scenarios) :
    automobile_spray_coating s KCk b h ED NWexp NS EY BW ATc AT =
      .ok (automobile_spray_coating_instance s
            (if normalize_scenario s = "low,conventional,crossdraft" then 5/100
             else if normalize_scenario s = "high,conventional,crossdraft" then 184/10
             else if normalize_scenario s = "low,conventional,downdraft" then 1/100
             else if normalize_scenario s = "high,conventional,downdraft" then 37/10
             else if normalize_scenario s = "low,hvlp,crossdraft" then 1
             else if normalize_scenario s = "high,hvlp,crossdraft" then 52/10
             else if normalize_scenario s = "low,hvlp,downdraft" then 6/10
             else 14/10)
            b h ED NWexp NS EY BW ATc AT) := by
  have hs' : ¬(normalize_scenario s ∉ automobile_spray_coating_scenarios) :=
    not_not_intro hs
  have hsc8 : normalize_scenario s = "low,conventional,crossdraft" ∨
      normalize_scenario s = "high,conventional,crossdraft" ∨
      normalize_scenario s = "low,conventional,downdraft" ∨
      normalize_scenario s = "high,conventional,downdraft" ∨
      normalize_scenario s = "low,hvlp,crossdraft" ∨
      normalize_scenario s = "high,hvlp,crossdraft" ∨
      normalize_scenario s = "low,hvlp,downdraft" ∨
      normalize_scenario s = "high,hvlp,downdraft" := by
    simpa [automobile_spray_coating_scenarios] using hs
  simp only [automobile_spray_coating, inhalation_model_init, check_ul, check_l,
    hED, hEY, hBW, hATc, hs', ite_false, ite_true, not_false_eq_true,
    ok_bind, error_bind, pure_eq_ok, throw_eq_error]
  rw [dispatch_spray8 _ _ _ _ _ _ _ _ _ _ _ _ hsc8]
  generalize (if normalize_scenario s = "low,conventional,crossdraft" then (5/100 : ℚ)
    else if normalize_scenario s = "high,conventional,crossdraft" then 184/10
    else if normalize_scenario s = "low,conventional,downdraft" then 1/100
    else if normalize_scenario s = "high,conventional,downdraft" then 37/10
    else if normalize_scenario s = "low,hvlp,crossdraft" then 1
    else if normalize_scenario s = "high,hvlp,crossdraft" then 52/10
    else if normalize_scenario s = "low,hvlp,downdraft" then 6/10
    else 14/10) = kck
  simp only [dict_set_nil, dict_set_cons, dict_get_nil, dict_get_cons,
    String.reduceEq, reduceIte, ite_true, ite_false, reduceCtorEq]
  simp only [automobile_spray_coating_Cm, getk, dict_get_nil, dict_get_cons,
    dict_set_nil, dict_set_cons, Option.elim, String.reduceEq, reduceIte,
    ite_true, ite_false, reduceCtorEq, ok_bind, pure_eq_ok]
  rw [compute_outputs_inh_Cm [("Cm", kck)] _ kck b h NWexp NS ED EY BW ATc AT] <;>
    simp only [automobile_spray_coating_instance, ok_bind, dict_get_nil, dict_get_cons,
      String.reduceEq, reduceIte, reduceCtorEq, ite_true, ite_false,
      List.cons_append, List.nil_append]

/-- Inversion: a successful `automobile_spray_coating` run implies only
the common checks passed and the normalized scenario is valid — `b` and
`h` are never bounds-checked. -/
theorem automobile_spray_coating_ok_conditions (s : String)
    (KCk b h ED NWexp NS EY BW ATc AT : ℚ) (m : ModelInstance)
    (h2 : automobile_spray_coating s KCk b h ED NWexp NS EY BW ATc AT = .ok m) :
    ¬(ED < 0 ∨ ED > 365) ∧ ¬(EY < 0) ∧ ¬(BW < 0) ∧ ¬(ATc < 0) ∧
      normalize_scenario s ∈ automobile_spray_coating_scenarios := by
  simp only [automobile_spray_coating, inhalation_model_init, bind_ok_iff,
    ite_eq_ok_iff, check_ul_eq_ok, check_l_eq_ok, ok_bind, error_bind,
    pure_eq_ok, throw_eq_error, reduceCtorEq, Except.ok.injEq, false_and,
    and_false, exists_false, false_or, or_false, not_not] at h2
  obtain ⟨a, ⟨a1, ⟨hED, rfl⟩, a2, ⟨hEY, rfl⟩, a3, ⟨hBW, rfl⟩, a4, ⟨hATc, rfl⟩,
    rfl⟩, hsc, rest⟩ := h2
  exact ⟨hED, hEY, hBW, hATc, hsc⟩

/-- An invalid normalized scenario makes `automobile_spray_coating` fail
with the `NameError` from looking up the unbound `ScenarioException` class
name; in particular this is the fate of `scenario='user'`. -/
theorem automobile_spray_coating_scenario_fail (s : String)
    (KCk b h ED NWexp NS EY BW ATc AT : ℚ)
    (hED : ¬(ED < 0 ∨ ED > 365)) (hEY : ¬(EY < 0)) (hBW : ¬(BW < 0))
    (hATc : ¬(ATc < 0)) (hs : normalize_scenario s ∉ automobile_spray_coating_scenarios) :
    automobile_spray_coating s KCk b h ED NWexp NS EY BW ATc AT =
      .error (.nameError "ScenarioException") := by
  simp only [automobile_spray_coating, inhalation_model_init, check_ul, check_l,
    hED, hEY, hBW, hATc, hs, ite_false, ite_true, not_false_eq_true,
    ok_bind, error_bind, pure_eq_ok, throw_eq_error]


/-- Fully resolved instance produced by a successful `uv_roll_coating`
run, with the table-resolved `KCk` and resolved `Ys`. -/
def uv_roll_coating_instance (Ymist : ℚ) (s : String)
    (kck ysv Ysf b h ED NWexp NS EY BW ATc AT : ℚ) : ModelInstance :=
  { model_name := "EPA-OPPT UV Roll Coating"
    route := "inhalation"
    scenario := normalize_scenario s
    inputs := [("ED", ED), ("NWexp", NWexp), ("NS", NS), ("EY", EY), ("BW", BW),
               ("ATc", ATc), ("AT", AT), ("KCk", kck), ("Ymist", Ymist),
               ("Ysf", Ysf), ("Ys", ysv), ("b", b), ("h", h)]
    outputs := [("Cm", kck * ysv),
                ("NW", NWexp * NS),
                ("LADD", kck * ysv * b * h * ED * EY / (BW * ATc * 365)),
                ("ADD", kck * ysv * b * h * ED * EY / (BW * AT * 365)),
                ("APDR", kck * ysv * b * h / BW),
                ("I", kck * ysv * b * h)] }

set_option maxHeartbeats 1600000 in
/-- `uv_roll_coating` succeeds, with the fully resolved instance, whenever
its checks pass and the normalized scenario is in the 2-entry valid set;
the caller's `KCk` argument is never used because the `'user'` branch is
unreachable. -/
theorem uv_roll_coating_success (Ymist : ℚ) (s : String)
    (KCk : ℚ) (Ys : Option ℚ) (Ysf b h ED NWexp NS EY BW ATc AT : ℚ)
    (hED : ¬(ED < 0 ∨ ED > 365)) (hEY : ¬(EY < 0)) (hBW : ¬(BW < 0))
    (hATc : ¬(ATc < 0)) (hs : normalize_scenario s ∈ uv_roll_coating_scenarios)
    (hYm : ¬(Ymist < 0 ∨ Ymist > 1)) (hYsf : ¬(Ysf < 0 ∨ Ysf > 1))
    (hYs : ¬(Ys.getD (min (Ymist / Ysf) 1) < 0 ∨ Ys.getD (min (Ymist / Ysf) 1) > 1))
    (hb : ¬(b < 0 ∨ b > 79/10)) (hh : ¬(h < 0 ∨ h > 24)) :
    uv_roll_coating Ymist s KCk Ys Ysf b h ED NWexp NS EY BW ATc AT =
      .ok (uv_roll_coating_instance Ymist s
            (if normalize_scenario s = "low end of range" then 4/100 else 26/100)
            (Ys.getD (min (Ymist / Ysf) 1)) Ysf b h ED NWexp NS EY BW ATc AT) := by
  have hs' : ¬(normalize_scenario s ∉ uv_roll_coating_scenarios) := not_not_intro hs
  have hsc2 : normalize_scenario s = "low end of range" ∨
      normalize_scenario s = "high end of range" := by
    simpa [uv_roll_coating_scenarios] using hs
  cases Ys with
  | none =>
      simp only [Option.getD_none] at hYs
      simp only [uv_roll_coating, inhalation_model_init, check_ul,
        check_l, hED, hEY, hBW, hATc, hs', ite_false,
        ite_true, not_false_eq_true, ok_bind, error_bind, pure_eq_ok,
        throw_eq_error]
      rw [dispatch_uv _ _ _ _ _ _ hsc2]
      simp only [hYm, hYsf, hYs, hb, hh, ite_false, not_false_eq_true,
        ok_bind, error_bind, pure_eq_ok, throw_eq_error]
      generalize (if normalize_scenario s = "low end of range" then (4/100 : ℚ)
        else 26/100) = kck
      simp only [dict_set_nil, dict_set_cons, dict_get_nil, dict_get_cons,
        String.reduceEq, reduceIte, ite_true, ite_false, reduceCtorEq]
      simp only [uv_roll_coating_Cm, getk, dict_get_nil, dict_get_cons,
        dict_set_nil, dict_set_cons, Option.elim, String.reduceEq, reduceIte,
        ite_true, ite_false, reduceCtorEq, ok_bind, pure_eq_ok]
      rw [compute_outputs_inh_Cm [("Cm", kck * min (Ymist / Ysf) 1)] _
            (kck * min (Ymist / Ysf) 1) b h NWexp NS ED EY BW ATc AT] <;>
        simp only [uv_roll_coating_instance, Option.getD_none, ok_bind,
          dict_get_nil, dict_get_cons, String.reduceEq, reduceIte, reduceCtorEq,
          ite_true, ite_false, List.cons_append, List.nil_append]
  | some ysv =>
      simp only [Option.getD_some] at hYs
      simp only [uv_roll_coating, inhalation_model_init, check_ul,
        check_l, hED, hEY, hBW, hATc, hs', ite_false,
        ite_true, not_false_eq_true, ok_bind, error_bind, pure_eq_ok,
        throw_eq_error]
      rw [dispatch_uv _ _ _ _ _ _ hsc2]
      simp only [hYm, hYsf, hYs, hb, hh, ite_false, not_false_eq_true,
        ok_bind, error_bind, pure_eq_ok, throw_eq_error]
      generalize (if normalize_scenario s = "low end of range" then (4/100 : ℚ)
        else 26/100) = kck
      simp only [dict_set_nil, dict_set_cons, dict_get_nil, dict_get_cons,
        String.reduceEq, reduceIte, ite_true, ite_false, reduceCtorEq]
      simp only [uv_roll_coating_Cm, getk, dict_get_nil, dict_get_cons,
        dict_set_nil, dict_set_cons, Option.elim, String.reduceEq, reduceIte,
        ite_true, ite_false, reduceCtorEq, ok_bind, pure_eq_ok]
      rw [compute_outputs_inh_Cm [("Cm", kck * ysv)] _
            (kck * ysv) b h NWexp NS ED EY BW ATc AT] <;>
        simp only [uv_roll_coating_instance, Option.getD_some, ok_bind,
          dict_get_nil, dict_get_cons, String.reduceEq, reduceIte, reduceCtorEq,
          ite_true, ite_false, List.cons_append, List.nil_append]

/-- Inversion: a successful `uv_roll_coating` run implies every bounds
check passed and the normalized scenario is valid. -/
theorem uv_roll_coating_ok_conditions (Ymist : ℚ) (s : String)
    (KCk : ℚ) (Ys : Option ℚ) (Ysf b h ED NWexp NS EY BW ATc AT : ℚ) (m : ModelInstance)
    (h2 : uv_roll_coating Ymist s KCk Ys Ysf b h ED NWexp NS EY BW ATc AT = .ok m) :
    ¬(ED < 0 ∨ ED > 365) ∧ ¬(EY < 0) ∧ ¬(BW < 0) ∧ ¬(ATc < 0) ∧
      normalize_scenario s ∈ uv_roll_coating_scenarios ∧
      ¬(Ymist < 0 ∨ Ymist > 1) ∧ ¬(Ysf < 0 ∨ Ysf > 1) ∧
      ¬(Ys.getD (min (Ymist / Ysf) 1) < 0 ∨ Ys.getD (min (Ymist / Ysf) 1) > 1) ∧
      ¬(b < 0 ∨ b > 79/10) ∧ ¬(h < 0 ∨ h > 24) := by
  cases Ys with
  | none =>
      simp only [Option.getD_none]
      simp only [uv_roll_coating, inhalation_model_init, bind_ok_iff,
        ite_eq_ok_iff, check_ul_eq_ok, check_l_eq_ok, ok_bind, error_bind,
        pure_eq_ok, throw_eq_error, reduceCtorEq, Except.ok.injEq, false_and,
        and_false, exists_false, false_or, or_false, not_not] at h2
      obtain ⟨a, ⟨a1, ⟨hED, rfl⟩, a2, ⟨hEY, rfl⟩, a3, ⟨hBW, rfl⟩, a4, ⟨hATc, rfl⟩,
        rfl⟩, hsc, ymv, ⟨hYm, rfl⟩, ysfv, ⟨hYsf, rfl⟩, ysv, ⟨hYs, rfl⟩,
        bv, ⟨hb, rfl⟩, hv, ⟨hh, rfl⟩, rest⟩ := h2
      exact ⟨hED, hEY, hBW, hATc, hsc, hYm, hYsf, hYs, hb, hh⟩
  | some ysc =>
      simp only [Option.getD_some]
      simp only [uv_roll_coating, inhalation_model_init, bind_ok_iff,
        ite_eq_ok_iff, check_ul_eq_ok, check_l_eq_ok, ok_bind, error_bind,
        pure_eq_ok, throw_eq_error, reduceCtorEq, Except.ok.injEq, false_and,
        and_false, exists_false, false_or, or_false, not_not] at h2
      obtain ⟨a, ⟨a1, ⟨hED, rfl⟩, a2, ⟨hEY, rfl⟩, a3, ⟨hBW, rfl⟩, a4, ⟨hATc, rfl⟩,
        rfl⟩, hsc, ymv, ⟨hYm, rfl⟩, ysfv, ⟨hYsf, rfl⟩, ysv, ⟨hYs, rfl⟩,
        bv, ⟨hb, rfl⟩, hv, ⟨hh, rfl⟩, rest⟩ := h2
      exact ⟨hED, hEY, hBW, hATc, hsc, hYm, hYsf, hYs, hb, hh⟩

/-- An invalid normalized scenario makes `uv_roll_coating` fail with the
`NameError` from looking up the unbound `ScenarioException` class name; in
particular this is the fate of `scenario='user'`. -/
theorem uv_roll_coating_scenario_fail (Ymist : ℚ) (s : String)
    (KCk : ℚ) (Ys : Option ℚ) (Ysf b h ED NWexp NS EY BW ATc AT : ℚ)
    (hED : ¬(ED < 0 ∨ ED > 365)) (hEY : ¬(EY < 0)) (hBW : ¬(BW < 0))
    (hATc : ¬(ATc < 0)) (hs : normalize_scenario s ∉ uv_roll_coating_scenarios) :
    uv_roll_coating Ymist s KCk Ys Ysf b h ED NWexp NS EY BW ATc AT =
      .error (.nameError "ScenarioException") := by
  simp only [uv_roll_coating, inhalation_model_init, check_ul, check_l,
    hED, hEY, hBW, hATc, hs, ite_false, ite_true, not_false_eq_true,
    ok_bind, error_bind, pure_eq_ok, throw_eq_error]


/-- Fully resolved instance produced by a successful
`user_defined_inhalation` run, with the resolved `Cm` passed in as `cm`;
`Cm` is stored before the `inputs` snapshot and so appears in `inputs`. -/
def user_defined_inhalation_instance (Cv MW h : ℚ) (s : String)
    (cm Vm Ys b ED NWexp NS EY BW ATc AT : ℚ) : ModelInstance :=
  { model_name := "User-defined Inhalation"
    route := "inhalation"
    scenario := normalize_scenario s
    inputs := [("ED", ED), ("NWexp", NWexp), ("NS", NS), ("EY", EY), ("BW", BW),
               ("ATc", ATc), ("AT", AT), ("Cv", Cv), ("MW", MW), ("Vm", Vm),
               ("Ys", Ys), ("Cm", cm), ("b", b), ("h", h)]
    outputs := [("NW", NWexp * NS),
                ("LADD", cm * b * h * ED * EY / (BW * ATc * 365)),
                ("ADD", cm * b * h * ED * EY / (BW * AT * 365)),
                ("APDR", cm * b * h / BW),
                ("I", cm * b * h)] }

set_option maxHeartbeats 1600000 in
/-- `user_defined_inhalation` succeeds, with the fully resolved instance,
whenever its checks pass and the RAW scenario argument is `'user'`; the
stored `Cm` is the caller's value or `Cv*MW/Vm*Ys`, checked nonnegative in
either case. -/
theorem user_defined_inhalation_success (Cv MW h : ℚ) (s : String)
    (Cm : Option ℚ) (Vm Ys b ED NWexp NS EY BW ATc AT : ℚ)
    (hED : ¬(ED < 0 ∨ ED > 365)) (hEY : ¬(EY < 0)) (hBW : ¬(BW < 0))
    (hATc : ¬(ATc < 0)) (hs : s ∈ user_defined_inhalation_scenarios)
    (hVm : ¬(Vm < 0)) (hYs : ¬(Ys < 0 ∨ Ys > 1))
    (hCm : ¬(Cm.getD (Cv * MW / Vm * Ys) < 0))
    (hb : ¬(b < 0 ∨ b > 79/10)) (hh : ¬(h < 0 ∨ h > 24)) :
    user_defined_inhalation Cv MW h s Cm Vm Ys b ED NWexp NS EY BW ATc AT =
      .ok (user_defined_inhalation_instance Cv MW h s
            (Cm.getD (Cv * MW / Vm * Ys)) Vm Ys b ED NWexp NS EY BW ATc AT) := by
  have hs' : ¬(s ∉ user_defined_inhalation_scenarios) := not_not_intro hs
  cases Cm with
  | none =>
      simp only [Option.getD_none] at hCm
      simp only [user_defined_inhalation, inhalation_model_init, check_ul,
        check_l, hED, hEY, hBW, hATc, hs', ite_false,
        ite_true, not_false_eq_true, ok_bind, error_bind, pure_eq_ok,
        throw_eq_error]
      simp only [hVm, hYs, hCm, hb, hh, ite_false, not_false_eq_true,
        ok_bind, error_bind, pure_eq_ok, throw_eq_error]
      simp only [dict_set_nil, dict_set_cons, dict_get_nil, dict_get_cons,
        String.reduceEq, reduceIte, ite_true, ite_false, reduceCtorEq]
      rw [compute_outputs_inh_Cm [] _ (Cv * MW / Vm * Ys) b h NWexp NS ED EY BW ATc AT] <;>
        simp only [user_defined_inhalation_instance, Option.getD_none, ok_bind,
          dict_get_nil, dict_get_cons, String.reduceEq, reduceIte, reduceCtorEq,
          ite_true, ite_false, List.cons_append, List.nil_append]
  | some cmv =>
      simp only [Option.getD_some] at hCm
      simp only [user_defined_inhalation, inhalation_model_init, check_ul,
        check_l, hED, hEY, hBW, hATc, hs', ite_false,
        ite_true, not_false_eq_true, ok_bind, error_bind, pure_eq_ok,
        throw_eq_error]
      simp only [hVm, hYs, hCm, hb, hh, ite_false, not_false_eq_true,
        ok_bind, error_bind, pure_eq_ok, throw_eq_error]
      simp only [dict_set_nil, dict_set_cons, dict_get_nil, dict_get_cons,
        String.reduceEq, reduceIte, ite_true, ite_false, reduceCtorEq]
      rw [compute_outputs_inh_Cm [] _ cmv b h NWexp NS ED EY BW ATc AT] <;>
        simp only [user_defined_inhalation_instance, Option.getD_some, ok_bind,
          dict_get_nil, dict_get_cons, String.reduceEq, reduceIte, reduceCtorEq,
          ite_true, ite_false, List.cons_append, List.nil_append]

/-- Inversion: a successful `user_defined_inhalation` run implies every
bounds check passed and the raw scenario argument is `'user'`. -/
theorem user_defined_inhalation_ok_conditions (Cv MW h : ℚ) (s : String)
    (Cm : Option ℚ) (Vm Ys b ED NWexp NS EY BW ATc AT : ℚ) (m : ModelInstance)
    (h2 : user_defined_inhalation Cv MW h s Cm Vm Ys b ED NWexp NS EY BW ATc AT = .ok m) :
    ¬(ED < 0 ∨ ED > 365) ∧ ¬(EY < 0) ∧ ¬(BW < 0) ∧ ¬(ATc < 0) ∧
      s ∈ user_defined_inhalation_scenarios ∧
      ¬(Vm < 0) ∧ ¬(Ys < 0 ∨ Ys > 1) ∧ ¬(Cm.getD (Cv * MW / Vm * Ys) < 0) ∧
      ¬(b < 0 ∨ b > 79/10) ∧ ¬(h < 0 ∨ h > 24) := by
  cases Cm with
  | none =>
      simp only [Option.getD_none]
      simp only [user_defined_inhalation, inhalation_model_init, bind_ok_iff,
        ite_eq_ok_iff, check_ul_eq_ok, check_l_eq_ok, ok_bind, error_bind,
        pure_eq_ok, throw_eq_error, reduceCtorEq, Except.ok.injEq, false_and,
        and_false, exists_false, false_or, or_false, not_not] at h2
      obtain ⟨a, ⟨a1, ⟨hED, rfl⟩, a2, ⟨hEY, rfl⟩, a3, ⟨hBW, rfl⟩, a4, ⟨hATc, rfl⟩,
        rfl⟩, hsc, vmv, ⟨hVm, rfl⟩, ysv, ⟨hYs, rfl⟩, cmv, ⟨hCm, rfl⟩,
        bv, ⟨hb, rfl⟩, hv, ⟨hh, rfl⟩, rest⟩ := h2
      exact ⟨hED, hEY, hBW, hATc, hsc, hVm, hYs, hCm, hb, hh⟩
  | some cmc =>
      simp only [Option.getD_some]
      simp only [user_defined_inhalation, inhalation_model_init, bind_ok_iff,
        ite_eq_ok_iff, check_ul_eq_ok, check_l_eq_ok, ok_bind, error_bind,
        pure_eq_ok, throw_eq_error, reduceCtorEq, Except.ok.injEq, false_and,
        and_false, exists_false, false_or, or_false, not_not] at h2
      obtain ⟨a, ⟨a1, ⟨hED, rfl⟩, a2, ⟨hEY, rfl⟩, a3, ⟨hBW, rfl⟩, a4, ⟨hATc, rfl⟩,
        rfl⟩, hsc, vmv, ⟨hVm, rfl⟩, ysv, ⟨hYs, rfl⟩, cmv, ⟨hCm, rfl⟩,
        bv, ⟨hb, rfl⟩, hv, ⟨hh, rfl⟩, rest⟩ := h2
      exact ⟨hED, hEY, hBW, hATc, hsc, hVm, hYs, hCm, hb, hh⟩

/-- A raw scenario argument other than `'user'` makes
`user_defined_inhalation` fail with the `NameError` from looking up the
unbound `ScenarioException` class name. -/
theorem user_defined_inhalation_scenario_fail (Cv MW h : ℚ) (s : String)
    (Cm : Option ℚ) (Vm Ys b ED NWexp NS EY BW ATc AT : ℚ)
    (hED : ¬(ED < 0 ∨ ED > 365)) (hEY : ¬(EY < 0)) (hBW : ¬(BW < 0))
    (hATc : ¬(ATc < 0)) (hs : s ∉ user_defined_inhalation_scenarios) :
    user_defined_inhalation Cv MW h s Cm Vm Ys b ED NWexp NS EY BW ATc AT =
      .error (.nameError "ScenarioException") := by
  simp only [user_defined_inhalation, inhalation_model_init, check_ul, check_l,
    hED, hEY, hBW, hATc, hs, ite_false, ite_true, not_false_eq_true,
    ok_bind, error_bind, pure_eq_ok, throw_eq_error]

/-- A `Yderm` outside `[0,1]` makes `one_hand_liquid_contact` fail with the
`BoundsException` from its `check_ul('Yderm', ., 0, 1)` call, provided the
checks that run earlier all pass. -/
theorem one_hand_liquid_contact_Yderm_fail (yd : ℚ) (s : String)
    (S Qu FT ED NWexp NS EY BW ATc AT : ℚ)
    (hED : ¬(ED < 0 ∨ ED > 365)) (hEY : ¬(EY < 0)) (hBW : ¬(BW < 0))
    (hATc : ¬(ATc < 0)) (hs : normalize_scenario s ∈ one_hand_liquid_contact_scenarios)
    (hFT : ¬(FT < 0)) (hyd : yd < 0 ∨ yd > 1) :
    one_hand_liquid_contact yd s S Qu FT ED NWexp NS EY BW ATc AT =
      .error (.bounds "Yderm" 0 1) := by
  have hs' : ¬(normalize_scenario s ∉ one_hand_liquid_contact_scenarios) := not_not_intro hs
  simp only [one_hand_liquid_contact, dermal_model_init, check_ul, check_l,
    hED, hEY, hBW, hATc, hs', hFT, hyd, ite_false, ite_true, not_false_eq_true,
    ok_bind, error_bind, pure_eq_ok, throw_eq_error]

/-- Claim C1: `one_hand_liquid_contact(Yderm=0.1, scenario="high")` with all
other parameters at their defaults resolves `Qu = 2.1` and yields
`Dexp = 535*2.1*0.1*1 = 112.35`, `NW = 1`, `APDR = 112.35/70 = 1.605`, and
`LADD = (112.35*1*40)/(70*70*365) = 2247/894250 ≈ 0.002513` — the spec's
`≈ 0.02514` is ten times too large; the exact value lies strictly between
`0.002512` and `0.002514`. -/
theorem C1_one_hand_golden_values :
    input_val (one_hand_liquid_contact (1/10)) "Qu" = some (21/10) ∧
    output_val (one_hand_liquid_contact (1/10)) "Dexp" = some (11235/100) ∧
    output_val (one_hand_liquid_contact (1/10)) "NW" = some 1 ∧
    output_val (one_hand_liquid_contact (1/10)) "APDR" = some (321/200) ∧
    output_val (one_hand_liquid_contact (1/10)) "LADD" = some (2247/894250) ∧
    (2512/1000000 : ℚ) < 2247/894250 ∧ (2247/894250 : ℚ) < 2514/1000000 := by
  have hn : normalize_scenario "high" = "high" := rfl
  have hrun := one_hand_liquid_contact_success (1/10) "high" 535 (21/10) 1 1 1 1 40 70 70 40
    (by norm_num) (by norm_num) (by norm_num) (by norm_num) (by decide)
    (by norm_num) (by norm_num)
  refine ⟨?_, ?_, ?_, ?_, ?_, by norm_num, by norm_num⟩ <;>
    rw [hrun] <;>
    simp only [one_hand_liquid_contact_instance, input_val_ok, output_val_ok,
      dict_get_nil, dict_get_cons, hn, String.reduceEq, reduceIte,
      ite_true, ite_false, Option.some.injEq] <;>
    norm_num

/-- Claim C1, counterexample to the spec's figure: the `LADD` actually
produced is `2247/894250 ≈ 0.002513`, which differs from the claimed
`0.02514` by more than `0.02`. -/
theorem C1_LADD_not_claimed_value :
    output_val (one_hand_liquid_contact (1/10)) "LADD" = some (2247/894250) ∧
    (2514/100000 : ℚ) - 2247/894250 > 1/50 := by
  have hn : normalize_scenario "high" = "high" := rfl
  have hrun := one_hand_liquid_contact_success (1/10) "high" 535 (21/10) 1 1 1 1 40 70 70 40
    (by norm_num) (by norm_num) (by norm_num) (by norm_num) (by decide)
    (by norm_num) (by norm_num)
  refine ⟨?_, by norm_num⟩
  rw [hrun]
  simp only [one_hand_liquid_contact_instance, output_val_ok,
    dict_get_nil, dict_get_cons, hn, String.reduceEq, reduceIte,
    ite_true, ite_false, Option.some.injEq]
  norm_num

/-- Claim C4 (code bug on the error path): `potential_dose_rate` computes
`SQu*Yderm*FT` for the dermal route with `SQu` present, `S*Qu*Yderm*FT` for
the dermal route without it, `Cm*b*h` for the inhalation route with `Cm`
present, and `EF*AH*Ys*Sd` for the inhalation route without it.  For every
other route string the `raise RouteException(...)` at the end of
`exposures.py` references a class name the module never imports (the module
has no imports at all), so the call fails with
`NameError: name 'RouteException' is not defined` instead of the documented
`RouteError`. -/
theorem C4_potential_dose_rate_cases :
    (∀ (kw : Kwargs) (squ yd ft : ℚ), dict_get kw "SQu" = some squ →
        dict_get kw "Yderm" = some yd → dict_get kw "FT" = some ft →
        potential_dose_rate "dermal" kw = .ok (squ * yd * ft)) ∧
    (∀ (kw : Kwargs) (sv qu yd ft : ℚ), dict_get kw "SQu" = none →
        dict_get kw "S" = some sv → dict_get kw "Qu" = some qu →
        dict_get kw "Yderm" = some yd → dict_get kw "FT" = some ft →
        potential_dose_rate "dermal" kw = .ok (sv * qu * yd * ft)) ∧
    (∀ (kw : Kwargs) (cm b h : ℚ), dict_get kw "Cm" = some cm →
        dict_get kw "b" = some b → dict_get kw "h" = some h →
        potential_dose_rate "inhalation" kw = .ok (cm * b * h)) ∧
    (∀ (kw : Kwargs) (ef ah ys sd : ℚ), dict_get kw "Cm" = none →
        dict_get kw "EF" = some ef → dict_get kw "AH" = some ah →
        dict_get kw "Ys" = some ys → dict_get kw "Sd" = some sd →
        potential_dose_rate "inhalation" kw = .ok (ef * ah * ys * sd)) ∧
    (∀ (route : String) (kw : Kwargs), route ≠ "dermal" → route ≠ "inhalation" →
        potential_dose_rate route kw = .error (.nameError "RouteException")) := by
  refine ⟨?_, ?_, ?_, ?_, ?_⟩
  · intro kw squ yd ft h1 h2 h3
    simp [potential_dose_rate, getk, h1, h2, h3, Option.elim, ok_bind, pure_eq_ok]
  · intro kw sv qu yd ft h1 h2 h3 h4 h5
    simp [potential_dose_rate, getk, h1, h2, h3, h4, h5, Option.elim, ok_bind, pure_eq_ok]
  · intro kw cm b h h1 h2 h3
    simp [potential_dose_rate, getk, h1, h2, h3, Option.elim, ok_bind, pure_eq_ok]
  · intro kw ef ah ys sd h1 h2 h3 h4 h5
    simp [potential_dose_rate, getk, h1, h2, h3, h4, h5, Option.elim, ok_bind, pure_eq_ok]
  · intro route kw h1 h2
    simp [potential_dose_rate, h1, h2]

/-- Claim C5: every successful `mass_balance` run reports
`Cv = min(170000*T*G/(MW*Q*k), 1000000*X*VP/760)` and `Cm = Cv*MW/Vm`, with
`Q` and `k` resolved from the five-scenario table; and concretely, in the
`outdoor,worst-case` scenario with the default `vz = 440` the stored
ventilation rate is `Q = 26400*(60*440/5280)^3 = 3300000`. -/
theorem C5_mass_balance_Cv_Cm :
    (∀ (G MW VP X : ℚ) (s : String) (T Q k Vm b h vz ED NWexp NS EY BW ATc AT : ℚ),
      ¬(ED < 0 ∨ ED > 365) → ¬(EY < 0) → ¬(BW < 0) → ¬(ATc < 0) →
      normalize_scenario s ∈ mass_balance_scenarios →
      ∃ qv kv : ℚ,
        qv = (if normalize_scenario s = "indoor,typical" then 3000
              else if normalize_scenario s = "indoor,worst-case" then 500
              else if normalize_scenario s = "outdoor,typical" then 237600
              else if normalize_scenario s = "outdoor,worst-case" then
                26400 * (60 * vz / 5280)^(3:ℕ)
              else Q) ∧
        kv = (if normalize_scenario s = "indoor,typical" then 1/2
              else if normalize_scenario s = "indoor,worst-case" then 1/10
              else if normalize_scenario s = "outdoor,typical" then 1/2
              else if normalize_scenario s = "outdoor,worst-case" then 1/10
              else k) ∧
        input_val (mass_balance G MW VP X s T Q k Vm b h vz ED NWexp NS EY BW ATc AT) "Q" =
          some qv ∧
        input_val (mass_balance G MW VP X s T Q k Vm b h vz ED NWexp NS EY BW ATc AT) "k" =
          some kv ∧
        output_val (mass_balance G MW VP X s T Q k Vm b h vz ED NWexp NS EY BW ATc AT) "Cv" =
          some (min (170000 * T * G / (MW * qv * kv)) (1000000 * X * VP / 760)) ∧
        output_val (mass_balance G MW VP X s T Q k Vm b h vz ED NWexp NS EY BW ATc AT) "Cm" =
          some (min (170000 * T * G / (MW * qv * kv)) (1000000 * X * VP / 760) * MW / Vm)) ∧
    input_val (mass_balance 1 1 1 1 "outdoor,worst-case" 298 3000 (1/2) (489/20) (5/4) 8 440
        1 1 1 40 70 70 40) "Q" = some 3300000 := by
  constructor
  · intro G MW VP X s T Q k Vm b h vz ED NWexp NS EY BW ATc AT hED hEY hBW hATc hs
    rw [mass_balance_success G MW VP X s T Q k Vm b h vz ED NWexp NS EY BW ATc AT
      hED hEY hBW hATc hs]
    refine ⟨_, _, rfl, rfl, ?_, ?_, ?_, ?_⟩ <;>
      simp only [mass_balance_instance, input_val_ok, output_val_ok,
        dict_get_nil, dict_get_cons, String.reduceEq, reduceIte, ite_true, ite_false]
  · have hn : normalize_scenario "outdoor,worst-case" = "outdoor,worst-case" := rfl
    rw [mass_balance_success 1 1 1 1 "outdoor,worst-case" 298 3000 (1/2) (489/20) (5/4) 8 440
      1 1 1 40 70 70 40 (by norm_num) (by norm_num) (by norm_num) (by norm_num) (by decide)]
    simp only [mass_balance_instance, input_val_ok, dict_get_nil, dict_get_cons, hn,
      String.reduceEq, reduceIte, ite_true, ite_false, Option.some.injEq]
    norm_num

/-- Claim C6: `check_l` returns the value unchanged when it is at or above
the minimum (default minimum 0), but on a violation the source formats its
error message with the identifier `max_val`, which is unbound in
`check_l`'s scope, so the failure is a `NameError` naming `max_val` — never
the documented `BoundsException`. -/
theorem C6_check_l_defect :
    (∀ (n : String) (v lo : ℚ), ¬(v < lo) → check_l n v lo = .ok v) ∧
    (∀ (n : String) (v : ℚ), ¬(v < 0) → check_l n v = .ok v) ∧
    (∀ (n : String) (v lo : ℚ), v < lo → check_l n v lo = .error (.nameError "max_val")) ∧
    check_l "EY" (-1) 0 = .error (.nameError "max_val") ∧
    (∀ (n : String) (v lo lo' hi : ℚ), v < lo → check_l n v lo ≠ .error (.bounds n lo' hi)) := by
  refine ⟨?_, ?_, ?_, ?_, ?_⟩
  · intro n v lo hvlo
    simp [check_l, hvlo]
  · intro n v hv
    simp [check_l, hv]
  · intro n v lo hvlo
    simp [check_l, hvlo]
  · norm_num [check_l]
  · intro n v lo lo' hi hvlo
    simp [check_l, hvlo]

/-- Claim C7: `check_ul` returns the value unchanged exactly when
`min ≤ value ≤ max` and otherwise fails with a `BoundsException` naming the
parameter and the range; the boundary values pass (`Yderm = 0` and
`Yderm = 1` both succeed, also through the `one_hand_liquid_contact`
constructor) and values just outside fail (`Yderm = -0.01` and
`Yderm = 1.01` are rejected, also through the constructor). -/
theorem C7_check_ul_bounds :
    (∀ (n : String) (v lo hi : ℚ), ¬(v < lo ∨ v > hi) → check_ul n v lo hi = .ok v) ∧
    (∀ (n : String) (v lo hi : ℚ), (v < lo ∨ v > hi) →
        check_ul n v lo hi = .error (.bounds n lo hi)) ∧
    check_ul "Yderm" 0 0 1 = .ok 0 ∧
    check_ul "Yderm" 1 0 1 = .ok 1 ∧
    check_ul "Yderm" (-1/100) 0 1 = .error (.bounds "Yderm" 0 1) ∧
    check_ul "Yderm" (101/100) 0 1 = .error (.bounds "Yderm" 0 1) ∧
    run_ok (one_hand_liquid_contact 0) = true ∧
    run_ok (one_hand_liquid_contact 1) = true ∧
    run_err (one_hand_liquid_contact (-1/100)) = some (.bounds "Yderm" 0 1) ∧
    run_err (one_hand_liquid_contact (101/100)) = some (.bounds "Yderm" 0 1) := by
  refine ⟨?_, ?_, by norm_num [check_ul], by norm_num [check_ul],
    by norm_num [check_ul], by norm_num [check_ul], ?_, ?_, ?_, ?_⟩
  · intro n v lo hi hv
    simp [check_ul, hv]
  · intro n v lo hi hv
    simp [check_ul, hv]
  · rw [one_hand_liquid_contact_success 0 "high" 535 (21/10) 1 1 1 1 40 70 70 40
      (by norm_num) (by norm_num) (by norm_num) (by norm_num) (by decide)
      (by norm_num) (by norm_num)]
    rfl
  · rw [one_hand_liquid_contact_success 1 "high" 535 (21/10) 1 1 1 1 40 70 70 40
      (by norm_num) (by norm_num) (by norm_num) (by norm_num) (by decide)
      (by norm_num) (by norm_num)]
    rfl
  · rw [one_hand_liquid_contact_Yderm_fail (-1/100) "high" 535 (21/10) 1 1 1 1 40 70 70 40
      (by norm_num) (by norm_num) (by norm_num) (by norm_num) (by decide) (by norm_num)
      (by norm_num)]
    rfl
  · rw [one_hand_liquid_contact_Yderm_fail (101/100) "high" 535 (21/10) 1 1 1 1 40 70 70 40
      (by norm_num) (by norm_num) (by norm_num) (by norm_num) (by decide) (by norm_num)
      (by norm_num)]
    rfl

/-- Claim C9: `pel_limiting_vapors` never reads its `Ypel` argument — two
constructions differing only in `Ypel` are identical — and every successful
run stores `Ypel = 1 - Ys` in `inputs` and uses `1 - Ys` in the `Cv`
formula. -/
theorem C9_pel_limiting_vapors_Ypel :
    (∀ (Cvk VP ys MW VPpel Ypel Ypel' MWpel X : ℚ) (s : String)
       (Vm b h ED NWexp NS EY BW ATc AT : ℚ),
       pel_limiting_vapors Cvk VP ys MW VPpel Ypel MWpel X s Vm b h ED NWexp NS EY BW ATc AT =
       pel_limiting_vapors Cvk VP ys MW VPpel Ypel' MWpel X s Vm b h ED NWexp NS EY BW ATc AT) ∧
    (∀ (Cvk VP ys MW VPpel Ypel MWpel X : ℚ) (s : String)
       (Vm b h ED NWexp NS EY BW ATc AT : ℚ) (m : ModelInstance),
       pel_limiting_vapors Cvk VP ys MW VPpel Ypel MWpel X s Vm b h ED NWexp NS EY BW ATc AT = .ok m →
       input_val (pel_limiting_vapors Cvk VP ys MW VPpel Ypel MWpel X s Vm b h ED NWexp NS EY BW ATc AT)
         "Ypel" = some (1 - ys) ∧
       output_val (pel_limiting_vapors Cvk VP ys MW VPpel Ypel MWpel X s Vm b h ED NWexp NS EY BW ATc AT)
         "Cv" = some (min (Cvk * (VP * ys / MW) / (VPpel * (1 - ys) / MWpel))
           (1000000 * X * VP / 760))) := by
  constructor
  · intro Cvk VP ys MW VPpel Ypel Ypel' MWpel X s Vm b h ED NWexp NS EY BW ATc AT
    rfl
  · intro Cvk VP ys MW VPpel Ypel MWpel X s Vm b h ED NWexp NS EY BW ATc AT m hm
    obtain ⟨hED, hEY, hBW, hATc, hs, hYs, hX, hVm, hb, hh⟩ :=
      pel_limiting_vapors_ok_conditions Cvk VP ys MW VPpel Ypel MWpel X s Vm b h
        ED NWexp NS EY BW ATc AT m hm
    rw [pel_limiting_vapors_success Cvk VP ys MW VPpel Ypel MWpel X s Vm b h
      ED NWexp NS EY BW ATc AT hED hEY hBW hATc hs hYs hX hVm hb hh]
    constructor <;>
      simp only [pel_limiting_vapors_instance, input_val_ok, output_val_ok,
        dict_get_nil, dict_get_cons, String.reduceEq, reduceIte, ite_true, ite_false]

/-- Claim C10: `'user'` is not a valid scenario of `automobile_spray_coating`
or `uv_roll_coating`, every construction with `scenario='user'` fails, and
consequently the `KCk` constructor argument (only read in the dead `'user'`
dispatch branch) never influences either model's result. -/
theorem C10_dead_user_branches :
    "user" ∉ automobile_spray_coating_scenarios ∧
    "user" ∉ uv_roll_coating_scenarios ∧
    (∀ KCk b h ED NWexp NS EY BW ATc AT : ℚ,
      run_ok (automobile_spray_coating "user" KCk b h ED NWexp NS EY BW ATc AT) = false) ∧
    (∀ (Ymist KCk : ℚ) (Ys : Option ℚ) (Ysf b h ED NWexp NS EY BW ATc AT : ℚ),
      run_ok (uv_roll_coating Ymist "user" KCk Ys Ysf b h ED NWexp NS EY BW ATc AT) = false) ∧
    (∀ (s : String) (KCk KCk' b h ED NWexp NS EY BW ATc AT : ℚ),
      automobile_spray_coating s KCk b h ED NWexp NS EY BW ATc AT =
      automobile_spray_coating s KCk' b h ED NWexp NS EY BW ATc AT) ∧
    (∀ (Ymist : ℚ) (s : String) (KCk KCk' : ℚ) (Ys : Option ℚ)
       (Ysf b h ED NWexp NS EY BW ATc AT : ℚ),
      uv_roll_coating Ymist s KCk Ys Ysf b h ED NWexp NS EY BW ATc AT =
      uv_roll_coating Ymist s KCk' Ys Ysf b h ED NWexp NS EY BW ATc AT) := by
  refine ⟨by decide, by decide, ?_, ?_, ?_, ?_⟩
  · intro KCk b h ED NWexp NS EY BW ATc AT
    simp only [automobile_spray_coating]
    cases hinit : inhalation_model_init ED NWexp NS EY BW ATc AT with
    | error e => rfl
    | ok kw =>
        rw [ok_bind]
        have hg : normalize_scenario "user" ∉ automobile_spray_coating_scenarios := by decide
        simp only [hg, ite_true, throw_eq_error, error_bind]
        rfl
  · intro Ymist KCk Ys Ysf b h ED NWexp NS EY BW ATc AT
    simp only [uv_roll_coating]
    cases hinit : inhalation_model_init ED NWexp NS EY BW ATc AT with
    | error e => rfl
    | ok kw =>
        rw [ok_bind]
        have hg : normalize_scenario "user" ∉ uv_roll_coating_scenarios := by decide
        simp only [hg, ite_true, throw_eq_error, error_bind]
        rfl
  · intro s KCk KCk' b h ED NWexp NS EY BW ATc AT
    simp only [automobile_spray_coating]
    cases hinit : inhalation_model_init ED NWexp NS EY BW ATc AT with
    | error e => simp only [error_bind]
    | ok kw =>
        rw [ok_bind, ok_bind]
        by_cases hm : normalize_scenario s ∈ automobile_spray_coating_scenarios
        · have hm' : ¬(normalize_scenario s ∉ automobile_spray_coating_scenarios) :=
            not_not_intro hm
          have h8 : normalize_scenario s = "low,conventional,crossdraft" ∨
              normalize_scenario s = "high,conventional,crossdraft" ∨
              normalize_scenario s = "low,conventional,downdraft" ∨
              normalize_scenario s = "high,conventional,downdraft" ∨
              normalize_scenario s = "low,hvlp,crossdraft" ∨
              normalize_scenario s = "high,hvlp,crossdraft" ∨
              normalize_scenario s = "low,hvlp,downdraft" ∨
              normalize_scenario s = "high,hvlp,downdraft" := by
            simpa [automobile_spray_coating_scenarios] using hm
          rcases h8 with hsc | hsc | hsc | hsc | hsc | hsc | hsc | hsc <;>
            simp only [hm', hsc, ite_false, not_false_eq_true, String.reduceEq,
              reduceIte, ite_true]
        · simp only [hm, ite_true, not_false_eq_true, throw_eq_error, error_bind]
  · intro Ymist s KCk KCk' Ys Ysf b h ED NWexp NS EY BW ATc AT
    simp only [uv_roll_coating]
    cases hinit : inhalation_model_init ED NWexp NS EY BW ATc AT with
    | error e => simp only [error_bind]
    | ok kw =>
        rw [ok_bind, ok_bind]
        by_cases hm : normalize_scenario s ∈ uv_roll_coating_scenarios
        · have hm' : ¬(normalize_scenario s ∉ uv_roll_coating_scenarios) :=
            not_not_intro hm
          have h2 : normalize_scenario s = "low end of range" ∨
              normalize_scenario s = "high end of range" := by
            simpa [uv_roll_coating_scenarios] using hm
          rcases h2 with hsc | hsc <;>
            simp only [hm', hsc, ite_false, not_false_eq_true, String.reduceEq,
              reduceIte, ite_true]
        · simp only [hm, ite_true, not_false_eq_true, throw_eq_error, error_bind]

/-- Claim C2, counterexample: `automobile_spray_coating` documents
`0 ≤ b ≤ 7.9` and `0 ≤ h ≤ 24` but stores both without any check, so a
construction with `b = 100` and `h = -5` succeeds and the out-of-range
values appear in the frozen `inputs`. -/
theorem C2_unchecked_inputs_counterexample :
    ((100 : ℚ) > 79/10) ∧ ((-5 : ℚ) < 0) ∧
    run_ok (automobile_spray_coating "high,conventional,crossdraft" (184/10) 100 (-5)
      1 3 1 40 70 70 40) = true ∧
    input_val (automobile_spray_coating "high,conventional,crossdraft" (184/10) 100 (-5)
      1 3 1 40 70 70 40) "b" = some 100 ∧
    input_val (automobile_spray_coating "high,conventional,crossdraft" (184/10) 100 (-5)
      1 3 1 40 70 70 40) "h" = some (-5) := by
  have hn : normalize_scenario "high,conventional,crossdraft" =
      "high,conventional,crossdraft" := rfl
  have hrun := automobile_spray_coating_success "high,conventional,crossdraft" (184/10)
    100 (-5) 1 3 1 40 70 70 40 (by norm_num) (by norm_num) (by norm_num) (by norm_num)
    (by decide)
  refine ⟨by norm_num, by norm_num, ?_, ?_, ?_⟩ <;> rw [hrun] <;>
    simp only [automobile_spray_coating_instance, run_ok_ok, input_val_ok,
      dict_get_nil, dict_get_cons, String.reduceEq, reduceIte, ite_true, ite_false, hn]

/-- Claim C3, counterexample: for `pel_limiting_particulates` the membership
test runs on the RAW scenario argument, so `scenario="USER"` — whose
normalized form `"user"` is in `get_scenarios()` — is rejected; and the
failure is the `NameError` from looking up the unbound `ScenarioException`
class name, not a `ScenarioError` naming the value and the valid set. -/
theorem C3_normalized_scenario_rejected :
    normalize_scenario "USER" = "user" ∧
    "user" ∈ pel_limiting_particulates_scenarios ∧
    run_err (pel_limiting_particulates (1/2) "USER" 15 1 (5/4) 8 1 1 1 40 70 70 40) =
      some (.nameError "ScenarioException") := by
  refine ⟨rfl, by decide, ?_⟩
  rw [pel_limiting_particulates_scenario_fail (1/2) "USER" 15 1 (5/4) 8 1 1 1 40 70 70 40
    (by norm_num) (by norm_num) (by norm_num) (by norm_num) (by decide)]
  rfl

/-- Claim C2 (amended): on every successful construction, every parameter
the model actually passes through a bounds check was within its range —
the family-common `ED ∈ [0,365]`, `EY ≥ 0`, `BW ≥ 0`, `ATc ≥ 0` for all
seventeen models, plus each model's own checked parameters.  The
`mass_balance` and `automobile_spray_coating` conjuncts witness the
correction: those two constructors store their remaining numeric inputs
(`T`, `G`, `MW`, `X`, `VP`, `Vm`, `Q`, `k`, `b`, `h`) without any check, so
only the common four are constrained there. -/
theorem C2_bounds_checked_on_success :
    (∀ (yd : ℚ) (s : String) (S Qu FT ED NWexp NS EY BW ATc AT : ℚ) (m : ModelInstance),
      one_hand_liquid_contact yd s S Qu FT ED NWexp NS EY BW ATc AT = .ok m →
      ¬(ED < 0 ∨ ED > 365) ∧ ¬(EY < 0) ∧ ¬(BW < 0) ∧ ¬(ATc < 0) ∧
        normalize_scenario s ∈ one_hand_liquid_contact_scenarios ∧
        ¬(FT < 0) ∧ ¬(yd < 0 ∨ yd > 1)) ∧
    (∀ (yd : ℚ) (s : String) (S Qu FT ED NWexp NS EY BW ATc AT : ℚ) (m : ModelInstance),
      two_hand_liquid_contact yd s S Qu FT ED NWexp NS EY BW ATc AT = .ok m →
      ¬(ED < 0 ∨ ED > 365) ∧ ¬(EY < 0) ∧ ¬(BW < 0) ∧ ¬(ATc < 0) ∧
        normalize_scenario s ∈ two_hand_liquid_contact_scenarios ∧
        ¬(FT < 0) ∧ ¬(yd < 0 ∨ yd > 1)) ∧
    (∀ (yd : ℚ) (s : String) (S Qu FT ED NWexp NS EY BW ATc AT : ℚ) (m : ModelInstance),
      two_hand_liquid_immersion yd s S Qu FT ED NWexp NS EY BW ATc AT = .ok m →
      ¬(ED < 0 ∨ ED > 365) ∧ ¬(EY < 0) ∧ ¬(BW < 0) ∧ ¬(ATc < 0) ∧
        normalize_scenario s ∈ two_hand_liquid_immersion_scenarios ∧
        ¬(FT < 0) ∧ ¬(yd < 0 ∨ yd > 1)) ∧
    (∀ (yd : ℚ) (s : String) (SQu FT ED NWexp NS EY BW ATc AT : ℚ) (m : ModelInstance),
      two_hand_solids_contact yd s SQu FT ED NWexp NS EY BW ATc AT = .ok m →
      ¬(ED < 0 ∨ ED > 365) ∧ ¬(EY < 0) ∧ ¬(BW < 0) ∧ ¬(ATc < 0) ∧
        normalize_scenario s ∈ two_hand_solids_contact_scenarios ∧
        ¬(FT < 0) ∧ ¬(yd < 0 ∨ yd > 1)) ∧
    (∀ (yd : ℚ) (s : String) (SQu FT ED NWexp NS EY BW ATc AT : ℚ) (m : ModelInstance),
      two_hand_container_surface_contact yd s SQu FT ED NWexp NS EY BW ATc AT = .ok m →
      ¬(ED < 0 ∨ ED > 365) ∧ ¬(EY < 0) ∧ ¬(BW < 0) ∧ ¬(ATc < 0) ∧
        normalize_scenario s ∈ two_hand_container_surface_contact_scenarios ∧
        ¬(FT < 0) ∧ ¬(yd < 0 ∨ yd > 1)) ∧
    (∀ (yd : ℚ) (s : String) (S Qu FT ED NWexp NS EY BW ATc AT : ℚ) (m : ModelInstance),
      user_defined_dermal yd s S Qu FT ED NWexp NS EY BW ATc AT = .ok m →
      ¬(ED < 0 ∨ ED > 365) ∧ ¬(EY < 0) ∧ ¬(BW < 0) ∧ ¬(ATc < 0) ∧
        normalize_scenario s ∈ user_defined_dermal_scenarios ∧
        ¬(FT < 0) ∧ ¬(yd < 0 ∨ yd > 1)) ∧
    (∀ (ys : ℚ) (s : String) (EF AH Sd ED NWexp NS EY BW ATc AT : ℚ) (m : ModelInstance),
      small_volume_solids_handling ys s EF AH Sd ED NWexp NS EY BW ATc AT = .ok m →
      ¬(ED < 0 ∨ ED > 365) ∧ ¬(EY < 0) ∧ ¬(BW < 0) ∧ ¬(ATc < 0) ∧
        normalize_scenario s ∈ small_volume_solids_handling_scenarios ∧
        ¬(AH < 0 ∨ AH > 54) ∧ ¬(ys < 0 ∨ ys > 1) ∧ ¬(Sd < 0 ∨ Sd > 3)) ∧
    (∀ (G MW VP X : ℚ) (s : String) (T Q k Vm b h vz ED NWexp NS EY BW ATc AT : ℚ)
       (m : ModelInstance),
      mass_balance G MW VP X s T Q k Vm b h vz ED NWexp NS EY BW ATc AT = .ok m →
      ¬(ED < 0 ∨ ED > 365) ∧ ¬(EY < 0) ∧ ¬(BW < 0) ∧ ¬(ATc < 0) ∧
        normalize_scenario s ∈ mass_balance_scenarios) ∧
    (∀ (ys : ℚ) (s : String) (KCk Ypel b h ED NWexp NS EY BW ATc AT : ℚ) (m : ModelInstance),
      pel_limiting_particulates ys s KCk Ypel b h ED NWexp NS EY BW ATc AT = .ok m →
      ¬(ED < 0 ∨ ED > 365) ∧ ¬(EY < 0) ∧ ¬(BW < 0) ∧ ¬(ATc < 0) ∧
        s ∈ pel_limiting_particulates_scenarios ∧
        ¬(ys < 0 ∨ ys > 1) ∧ ¬(Ypel < 0 ∨ Ypel > 1) ∧
        ¬(b < 0 ∨ b > 79/10) ∧ ¬(h < 0 ∨ h > 24)) ∧
    (∀ (Cvk VP ys MW VPpel Ypel MWpel X : ℚ) (s : String)
       (Vm b h ED NWexp NS EY BW ATc AT : ℚ) (m : ModelInstance),
      pel_limiting_vapors Cvk VP ys MW VPpel Ypel MWpel X s Vm b h ED NWexp NS EY BW ATc AT = .ok m →
      ¬(ED < 0 ∨ ED > 365) ∧ ¬(EY < 0) ∧ ¬(BW < 0) ∧ ¬(ATc < 0) ∧
        s ∈ pel_limiting_vapors_scenarios ∧
        ¬(ys < 0 ∨ ys > 1) ∧ ¬(X < 0 ∨ X > 1) ∧ ¬(Vm < 0) ∧
        ¬(b < 0 ∨ b > 79/10) ∧ ¬(h < 0 ∨ h > 24)) ∧
    (∀ (ys : ℚ) (s : String) (KCk b h ED NWexp NS EY BW ATc AT : ℚ) (m : ModelInstance),
      total_pnor_pel_limiting ys s KCk b h ED NWexp NS EY BW ATc AT = .ok m →
      ¬(ED < 0 ∨ ED > 365) ∧ ¬(EY < 0) ∧ ¬(BW < 0) ∧ ¬(ATc < 0) ∧
        s ∈ total_pnor_pel_limiting_scenarios ∧
        ¬(ys < 0 ∨ ys > 1) ∧ ¬(b < 0 ∨ b > 79/10) ∧ ¬(h < 0 ∨ h > 24)) ∧
    (∀ (ys : ℚ) (s : String) (KCk b h ED NWexp NS EY BW ATc AT : ℚ) (m : ModelInstance),
      respirable_pnor_pel_limiting ys s KCk b h ED NWexp NS EY BW ATc AT = .ok m →
      ¬(ED < 0 ∨ ED > 365) ∧ ¬(EY < 0) ∧ ¬(BW < 0) ∧ ¬(ATc < 0) ∧
        s ∈ respirable_pnor_pel_limiting_scenarios ∧
        ¬(ys < 0 ∨ ys > 1) ∧ ¬(b < 0 ∨ b > 79/10) ∧ ¬(h < 0 ∨ h > 24)) ∧
    (∀ (Ymist : ℚ) (s : String) (KCk : ℚ) (Ys : Option ℚ)
       (Ysf b h ED NWexp NS EY BW ATc AT : ℚ) (m : ModelInstance),
      automobile_oem_spray_coating Ymist s KCk Ys Ysf b h ED NWexp NS EY BW ATc AT = .ok m →
      ¬(ED < 0 ∨ ED > 365) ∧ ¬(EY < 0) ∧ ¬(BW < 0) ∧ ¬(ATc < 0) ∧
        normalize_scenario s ∈ automobile_oem_spray_coating_scenarios ∧
        ¬(Ymist < 0 ∨ Ymist > 1) ∧ ¬(Ysf < 0 ∨ Ysf > 1) ∧
        ¬(Ys.getD (min (Ymist / Ysf) 1) < 0 ∨ Ys.getD (min (Ymist / Ysf) 1) > 1) ∧
        ¬(b < 0 ∨ b > 79/10) ∧ ¬(h < 0 ∨ h > 24)) ∧
    (∀ (Ymist : ℚ) (s : String) (Ys : Option ℚ)
       (KCk Ysf b h ED NWexp NS EY BW ATc AT : ℚ) (m : ModelInstance),
      automobile_refinish_spray_coating Ymist s Ys KCk Ysf b h ED NWexp NS EY BW ATc AT = .ok m →
      ¬(ED < 0 ∨ ED > 365) ∧ ¬(EY < 0) ∧ ¬(BW < 0) ∧ ¬(ATc < 0) ∧
        normalize_scenario s ∈ automobile_refinish_spray_coating_scenarios ∧
        ¬(Ymist < 0 ∨ Ymist > 1) ∧ ¬(Ysf < 0 ∨ Ysf > 1) ∧
        ¬(Ys.getD (min (Ymist / Ysf) 1) < 0 ∨ Ys.getD (min (Ymist / Ysf) 1) > 1) ∧
        ¬(b < 0 ∨ b > 79/10) ∧ ¬(h < 0 ∨ h > 24)) ∧
    (∀ (s : String) (KCk b h ED NWexp NS EY BW ATc AT : ℚ) (m : ModelInstance),
      automobile_spray_coating s KCk b h ED NWexp NS EY BW ATc AT = .ok m →
      ¬(ED < 0 ∨ ED > 365) ∧ ¬(EY < 0) ∧ ¬(BW < 0) ∧ ¬(ATc < 0) ∧
        normalize_scenario s ∈ automobile_spray_coating_scenarios) ∧
    (∀ (Ymist : ℚ) (s : String) (KCk : ℚ) (Ys : Option ℚ)
       (Ysf b h ED NWexp NS EY BW ATc AT : ℚ) (m : ModelInstance),
      uv_roll_coating Ymist s KCk Ys Ysf b h ED NWexp NS EY BW ATc AT = .ok m →
      ¬(ED < 0 ∨ ED > 365) ∧ ¬(EY < 0) ∧ ¬(BW < 0) ∧ ¬(ATc < 0) ∧
        normalize_scenario s ∈ uv_roll_coating_scenarios ∧
        ¬(Ymist < 0 ∨ Ymist > 1) ∧ ¬(Ysf < 0 ∨ Ysf > 1) ∧
        ¬(Ys.getD (min (Ymist / Ysf) 1) < 0 ∨ Ys.getD (min (Ymist / Ysf) 1) > 1) ∧
        ¬(b < 0 ∨ b > 79/10) ∧ ¬(h < 0 ∨ h > 24)) ∧
    (∀ (Cv MW h : ℚ) (s : String) (Cm : Option ℚ)
       (Vm Ys b ED NWexp NS EY BW ATc AT : ℚ) (m : ModelInstance),
      user_defined_inhalation Cv MW h s Cm Vm Ys b ED NWexp NS EY BW ATc AT = .ok m →
      ¬(ED < 0 ∨ ED > 365) ∧ ¬(EY < 0) ∧ ¬(BW < 0) ∧ ¬(ATc < 0) ∧
        s ∈ user_defined_inhalation_scenarios ∧
        ¬(Vm < 0) ∧ ¬(Ys < 0 ∨ Ys > 1) ∧ ¬(Cm.getD (Cv * MW / Vm * Ys) < 0) ∧
        ¬(b < 0 ∨ b > 79/10) ∧ ¬(h < 0 ∨ h > 24)) :=
  ⟨one_hand_liquid_contact_ok_conditions, two_hand_liquid_contact_ok_conditions,
   two_hand_liquid_immersion_ok_conditions, two_hand_solids_contact_ok_conditions,
   two_hand_container_surface_contact_ok_conditions, user_defined_dermal_ok_conditions,
   small_volume_solids_handling_ok_conditions, mass_balance_ok_conditions,
   pel_limiting_particulates_ok_conditions, pel_limiting_vapors_ok_conditions,
   total_pnor_pel_limiting_ok_conditions, respirable_pnor_pel_limiting_ok_conditions,
   automobile_oem_spray_coating_ok_conditions, automobile_refinish_spray_coating_ok_conditions,
   automobile_spray_coating_ok_conditions, uv_roll_coating_ok_conditions,
   user_defined_inhalation_ok_conditions⟩

/-- Claim C3 (actual behaviour, both defects): for the twelve models whose
gate tests the normalized scenario, any string whose normalized form is
valid is accepted (given the model's other checks pass) and the normalized
form is stored.  For the five models whose gate tests the RAW argument
(`pel_limiting_particulates`, `pel_limiting_vapors`,
`total_pnor_pel_limiting`, `respirable_pnor_pel_limiting`,
`user_defined_inhalation`), acceptance requires the raw string itself to be
listed, so a merely normalization-equivalent spelling is rejected.  And in
every model the rejection is the `NameError` from looking up the unbound
`ScenarioException` class name — the documented `ScenarioError` naming the
invalid value and the valid set is never raised. -/
theorem C3_scenario_gate :
    (∀ (yd : ℚ) (s : String) (S Qu FT ED NWexp NS EY BW ATc AT : ℚ),
      ¬(ED < 0 ∨ ED > 365) → ¬(EY < 0) → ¬(BW < 0) → ¬(ATc < 0) →
      normalize_scenario s ∈ one_hand_liquid_contact_scenarios →
      ¬(FT < 0) → ¬(yd < 0 ∨ yd > 1) →
      run_ok (one_hand_liquid_contact yd s S Qu FT ED NWexp NS EY BW ATc AT) = true ∧
      run_scenario (one_hand_liquid_contact yd s S Qu FT ED NWexp NS EY BW ATc AT) =
        some (normalize_scenario s)) ∧
    (∀ (yd : ℚ) (s : String) (S Qu FT ED NWexp NS EY BW ATc AT : ℚ),
      ¬(ED < 0 ∨ ED > 365) → ¬(EY < 0) → ¬(BW < 0) → ¬(ATc < 0) →
      normalize_scenario s ∉ one_hand_liquid_contact_scenarios →
      one_hand_liquid_contact yd s S Qu FT ED NWexp NS EY BW ATc AT =
        .error (.nameError "ScenarioException")) ∧
    (∀ (yd : ℚ) (s : String) (S Qu FT ED NWexp NS EY BW ATc AT : ℚ),
      ¬(ED < 0 ∨ ED > 365) → ¬(EY < 0) → ¬(BW < 0) → ¬(ATc < 0) →
      normalize_scenario s ∈ two_hand_liquid_contact_scenarios →
      ¬(FT < 0) → ¬(yd < 0 ∨ yd > 1) →
      run_ok (two_hand_liquid_contact yd s S Qu FT ED NWexp NS EY BW ATc AT) = true ∧
      run_scenario (two_hand_liquid_contact yd s S Qu FT ED NWexp NS EY BW ATc AT) =
        some (normalize_scenario s)) ∧
    (∀ (yd : ℚ) (s : String) (S Qu FT ED NWexp NS EY BW ATc AT : ℚ),
      ¬(ED < 0 ∨ ED > 365) → ¬(EY < 0) → ¬(BW < 0) → ¬(ATc < 0) →
      normalize_scenario s ∉ two_hand_liquid_contact_scenarios →
      two_hand_liquid_contact yd s S Qu FT ED NWexp NS EY BW ATc AT =
        .error (.nameError "ScenarioException")) ∧
    (∀ (yd : ℚ) (s : String) (S Qu FT ED NWexp NS EY BW ATc AT : ℚ),
      ¬(ED < 0 ∨ ED > 365) → ¬(EY < 0) → ¬(BW < 0) → ¬(ATc < 0) →
      normalize_scenario s ∈ two_hand_liquid_immersion_scenarios →
      ¬(FT < 0) → ¬(yd < 0 ∨ yd > 1) →
      run_ok (two_hand_liquid_immersion yd s S Qu FT ED NWexp NS EY BW ATc AT) = true ∧
      run_scenario (two_hand_liquid_immersion yd s S Qu FT ED NWexp NS EY BW ATc AT) =
        some (normalize_scenario s)) ∧
    (∀ (yd : ℚ) (s : String) (S Qu FT ED NWexp NS EY BW ATc AT : ℚ),
      ¬(ED < 0 ∨ ED > 365) → ¬(EY < 0) → ¬(BW < 0) → ¬(ATc < 0) →
      normalize_scenario s ∉ two_hand_liquid_immersion_scenarios →
      two_hand_liquid_immersion yd s S Qu FT ED NWexp NS EY BW ATc AT =
        .error (.nameError "ScenarioException")) ∧
    (∀ (yd : ℚ) (s : String) (SQu FT ED NWexp NS EY BW ATc AT : ℚ),
      ¬(ED < 0 ∨ ED > 365) → ¬(EY < 0) → ¬(BW < 0) → ¬(ATc < 0) →
      normalize_scenario s ∈ two_hand_solids_contact_scenarios →
      ¬(FT < 0) → ¬(yd < 0 ∨ yd > 1) →
      run_ok (two_hand_solids_contact yd s SQu FT ED NWexp NS EY BW ATc AT) = true ∧
      run_scenario (two_hand_solids_contact yd s SQu FT ED NWexp NS EY BW ATc AT) =
        some (normalize_scenario s)) ∧
    (∀ (yd : ℚ) (s : String) (SQu FT ED NWexp NS EY BW ATc AT : ℚ),
      ¬(ED < 0 ∨ ED > 365) → ¬(EY < 0) → ¬(BW < 0) → ¬(ATc < 0) →
      normalize_scenario s ∉ two_hand_solids_contact_scenarios →
      two_hand_solids_contact yd s SQu FT ED NWexp NS EY BW ATc AT =
        .error (.nameError "ScenarioException")) ∧
    (∀ (yd : ℚ) (s : String) (SQu FT ED NWexp NS EY BW ATc AT : ℚ),
      ¬(ED < 0 ∨ ED > 365) → ¬(EY < 0) → ¬(BW < 0) → ¬(ATc < 0) →
      normalize_scenario s ∈ two_hand_container_surface_contact_scenarios →
      ¬(FT < 0) → ¬(yd < 0 ∨ yd > 1) →
      run_ok (two_hand_container_surface_contact yd s SQu FT ED NWexp NS EY BW ATc AT) = true ∧
      run_scenario (two_hand_container_surface_contact yd s SQu FT ED NWexp NS EY BW ATc AT) =
        some (normalize_scenario s)) ∧
    (∀ (yd : ℚ) (s : String) (SQu FT ED NWexp NS EY BW ATc AT : ℚ),
      ¬(ED < 0 ∨ ED > 365) → ¬(EY < 0) → ¬(BW < 0) → ¬(ATc < 0) →
      normalize_scenario s ∉ two_hand_container_surface_contact_scenarios →
      two_hand_container_surface_contact yd s SQu FT ED NWexp NS EY BW ATc AT =
        .error (.nameError "ScenarioException")) ∧
    (∀ (yd : ℚ) (s : String) (S Qu FT ED NWexp NS EY BW ATc AT : ℚ),
      ¬(ED < 0 ∨ ED > 365) → ¬(EY < 0) → ¬(BW < 0) → ¬(ATc < 0) →
      normalize_scenario s ∈ user_defined_dermal_scenarios →
      ¬(FT < 0) → ¬(yd < 0 ∨ yd > 1) →
      run_ok (user_defined_dermal yd s S Qu FT ED NWexp NS EY BW ATc AT) = true ∧
      run_scenario (user_defined_dermal yd s S Qu FT ED NWexp NS EY BW ATc AT) =
        some (normalize_scenario s)) ∧
    (∀ (yd : ℚ) (s : String) (S Qu FT ED NWexp NS EY BW ATc AT : ℚ),
      ¬(ED < 0 ∨ ED > 365) → ¬(EY < 0) → ¬(BW < 0) → ¬(ATc < 0) →
      normalize_scenario s ∉ user_defined_dermal_scenarios →
      user_defined_dermal yd s S Qu FT ED NWexp NS EY BW ATc AT =
        .error (.nameError "ScenarioException")) ∧
    (∀ (ys : ℚ) (s : String) (EF AH Sd ED NWexp NS EY BW ATc AT : ℚ),
      ¬(ED < 0 ∨ ED > 365) → ¬(EY < 0) → ¬(BW < 0) → ¬(ATc < 0) →
      normalize_scenario s ∈ small_volume_solids_handling_scenarios →
      ¬(AH < 0 ∨ AH > 54) → ¬(ys < 0 ∨ ys > 1) → ¬(Sd < 0 ∨ Sd > 3) →
      run_ok (small_volume_solids_handling ys s EF AH Sd ED NWexp NS EY BW ATc AT) = true ∧
      run_scenario (small_volume_solids_handling ys s EF AH Sd ED NWexp NS EY BW ATc AT) =
        some (normalize_scenario s)) ∧
    (∀ (ys : ℚ) (s : String) (EF AH Sd ED NWexp NS EY BW ATc AT : ℚ),
      ¬(ED < 0 ∨ ED > 365) → ¬(EY < 0) → ¬(BW < 0) → ¬(ATc < 0) →
      normalize_scenario s ∉ small_volume_solids_handling_scenarios →
      small_volume_solids_handling ys s EF AH Sd ED NWexp NS EY BW ATc AT =
        .error (.nameError "ScenarioException")) ∧
    (∀ (G MW VP X : ℚ) (s : String) (T Q k Vm b h vz ED NWexp NS EY BW ATc AT : ℚ),
      ¬(ED < 0 ∨ ED > 365) → ¬(EY < 0) → ¬(BW < 0) → ¬(ATc < 0) →
      normalize_scenario s ∈ mass_balance_scenarios →
      run_ok (mass_balance G MW VP X s T Q k Vm b h vz ED NWexp NS EY BW ATc AT) = true ∧
      run_scenario (mass_balance G MW VP X s T Q k Vm b h vz ED NWexp NS EY BW ATc AT) =
        some (normalize_scenario s)) ∧
    (∀ (G MW VP X : ℚ) (s : String) (T Q k Vm b h vz ED NWexp NS EY BW ATc AT : ℚ),
      ¬(ED < 0 ∨ ED > 365) → ¬(EY < 0) → ¬(BW < 0) → ¬(ATc < 0) →
      normalize_scenario s ∉ mass_balance_scenarios →
      mass_balance G MW VP X s T Q k Vm b h vz ED NWexp NS EY BW ATc AT =
        .error (.nameError "ScenarioException")) ∧
    (∀ (ys : ℚ) (s : String) (KCk Ypel b h ED NWexp NS EY BW ATc AT : ℚ),
      ¬(ED < 0 ∨ ED > 365) → ¬(EY < 0) → ¬(BW < 0) → ¬(ATc < 0) →
      s ∈ pel_limiting_particulates_scenarios →
      ¬(ys < 0 ∨ ys > 1) → ¬(Ypel < 0 ∨ Ypel > 1) →
      ¬(b < 0 ∨ b > 79/10) → ¬(h < 0 ∨ h > 24) →
      run_ok (pel_limiting_particulates ys s KCk Ypel b h ED NWexp NS EY BW ATc AT) = true ∧
      run_scenario (pel_limiting_particulates ys s KCk Ypel b h ED NWexp NS EY BW ATc AT) =
        some (normalize_scenario s)) ∧
    (∀ (ys : ℚ) (s : String) (KCk Ypel b h ED NWexp NS EY BW ATc AT : ℚ),
      ¬(ED < 0 ∨ ED > 365) → ¬(EY < 0) → ¬(BW < 0) → ¬(ATc < 0) →
      s ∉ pel_limiting_particulates_scenarios →
      pel_limiting_particulates ys s KCk Ypel b h ED NWexp NS EY BW ATc AT =
        .error (.nameError "ScenarioException")) ∧
    (∀ (Cvk VP ys MW VPpel Ypel MWpel X : ℚ) (s : String)
       (Vm b h ED NWexp NS EY BW ATc AT : ℚ),
      ¬(ED < 0 ∨ ED > 365) → ¬(EY < 0) → ¬(BW < 0) → ¬(ATc < 0) →
      s ∈ pel_limiting_vapors_scenarios →
      ¬(ys < 0 ∨ ys > 1) → ¬(X < 0 ∨ X > 1) → ¬(Vm < 0) →
      ¬(b < 0 ∨ b > 79/10) → ¬(h < 0 ∨ h > 24) →
      run_ok (pel_limiting_vapors Cvk VP ys MW VPpel Ypel MWpel X s Vm b h
        ED NWexp NS EY BW ATc AT) = true ∧
      run_scenario (pel_limiting_vapors Cvk VP ys MW VPpel Ypel MWpel X s Vm b h
        ED NWexp NS EY BW ATc AT) = some (normalize_scenario s)) ∧
    (∀ (Cvk VP ys MW VPpel Ypel MWpel X : ℚ) (s : String)
       (Vm b h ED NWexp NS EY BW ATc AT : ℚ),
      ¬(ED < 0 ∨ ED > 365) → ¬(EY < 0) → ¬(BW < 0) → ¬(ATc < 0) →
      s ∉ pel_limiting_vapors_scenarios →
      pel_limiting_vapors Cvk VP ys MW VPpel Ypel MWpel X s Vm b h ED NWexp NS EY BW ATc AT =
        .error (.nameError "ScenarioException")) ∧
    (∀ (ys : ℚ) (s : String) (KCk b h ED NWexp NS EY BW ATc AT : ℚ),
      ¬(ED < 0 ∨ ED > 365) → ¬(EY < 0) → ¬(BW < 0) → ¬(ATc < 0) →
      s ∈ total_pnor_pel_limiting_scenarios →
      ¬(ys < 0 ∨ ys > 1) → ¬(b < 0 ∨ b > 79/10) → ¬(h < 0 ∨ h > 24) →
      run_ok (total_pnor_pel_limiting ys s KCk b h ED NWexp NS EY BW ATc AT) = true ∧
      run_scenario (total_pnor_pel_limiting ys s KCk b h ED NWexp NS EY BW ATc AT) =
        some (normalize_scenario s)) ∧
    (∀ (ys : ℚ) (s : String) (KCk b h ED NWexp NS EY BW ATc AT : ℚ),
      ¬(ED < 0 ∨ ED > 365) → ¬(EY < 0) → ¬(BW < 0) → ¬(ATc < 0) →
      s ∉ total_pnor_pel_limiting_scenarios →
      total_pnor_pel_limiting ys s KCk b h ED NWexp NS EY BW ATc AT =
        .error (.nameError "ScenarioException")) ∧
    (∀ (ys : ℚ) (s : String) (KCk b h ED NWexp NS EY BW ATc AT : ℚ),
      ¬(ED < 0 ∨ ED > 365) → ¬(EY < 0) → ¬(BW < 0) → ¬(ATc < 0) →
      s ∈ respirable_pnor_pel_limiting_scenarios →
      ¬(ys < 0 ∨ ys > 1) → ¬(b < 0 ∨ b > 79/10) → ¬(h < 0 ∨ h > 24) →
      run_ok (respirable_pnor_pel_limiting ys s KCk b h ED NWexp NS EY BW ATc AT) = true ∧
      run_scenario (respirable_pnor_pel_limiting ys s KCk b h ED NWexp NS EY BW ATc AT) =
        some (normalize_scenario s)) ∧
    (∀ (ys : ℚ) (s : String) (KCk b h ED NWexp NS EY BW ATc AT : ℚ),
      ¬(ED < 0 ∨ ED > 365) → ¬(EY < 0) → ¬(BW < 0) → ¬(ATc < 0) →
      s ∉ respirable_pnor_pel_limiting_scenarios →
      respirable_pnor_pel_limiting ys s KCk b h ED NWexp NS EY BW ATc AT =
        .error (.nameError "ScenarioException")) ∧
    (∀ (Ymist : ℚ) (s : String) (KCk : ℚ) (Ys : Option ℚ)
       (Ysf b h ED NWexp NS EY BW ATc AT : ℚ),
      ¬(ED < 0 ∨ ED > 365) → ¬(EY < 0) → ¬(BW < 0) → ¬(ATc < 0) →
      normalize_scenario s ∈ automobile_oem_spray_coating_scenarios →
      ¬(Ymist < 0 ∨ Ymist > 1) → ¬(Ysf < 0 ∨ Ysf > 1) →
      ¬(Ys.getD (min (Ymist / Ysf) 1) < 0 ∨ Ys.getD (min (Ymist / Ysf) 1) > 1) →
      ¬(b < 0 ∨ b > 79/10) → ¬(h < 0 ∨ h > 24) →
      run_ok (automobile_oem_spray_coating Ymist s KCk Ys Ysf b h ED NWexp NS EY BW ATc AT) =
        true ∧
      run_scenario (automobile_oem_spray_coating Ymist s KCk Ys Ysf b h ED NWexp NS EY BW ATc AT) =
        some (normalize_scenario s)) ∧
    (∀ (Ymist : ℚ) (s : String) (KCk : ℚ) (Ys : Option ℚ)
       (Ysf b h ED NWexp NS EY BW ATc AT : ℚ),
      ¬(ED < 0 ∨ ED > 365) → ¬(EY < 0) → ¬(BW < 0) → ¬(ATc < 0) →
      normalize_scenario s ∉ automobile_oem_spray_coating_scenarios →
      automobile_oem_spray_coating Ymist s KCk Ys Ysf b h ED NWexp NS EY BW ATc AT =
        .error (.nameError "ScenarioException")) ∧
    (∀ (Ymist : ℚ) (s : String) (Ys : Option ℚ)
       (KCk Ysf b h ED NWexp NS EY BW ATc AT : ℚ),
      ¬(ED < 0 ∨ ED > 365) → ¬(EY < 0) → ¬(BW < 0) → ¬(ATc < 0) →
      normalize_scenario s ∈ automobile_refinish_spray_coating_scenarios →
      ¬(Ymist < 0 ∨ Ymist > 1) → ¬(Ysf < 0 ∨ Ysf > 1) →
      ¬(Ys.getD (min (Ymist / Ysf) 1) < 0 ∨ Ys.getD (min (Ymist / Ysf) 1) > 1) →
      ¬(b < 0 ∨ b > 79/10) → ¬(h < 0 ∨ h > 24) →
      run_ok (automobile_refinish_spray_coating Ymist s Ys KCk Ysf b h ED NWexp NS EY BW ATc AT) =
        true ∧
      run_scenario (automobile_refinish_spray_coating Ymist s Ys KCk Ysf b h ED NWexp NS EY BW ATc AT) =
        some (normalize_scenario s)) ∧
    (∀ (Ymist : ℚ) (s : String) (Ys : Option ℚ)
       (KCk Ysf b h ED NWexp NS EY BW ATc AT : ℚ),
      ¬(ED < 0 ∨ ED > 365) → ¬(EY < 0) → ¬(BW < 0) → ¬(ATc < 0) →
      normalize_scenario s ∉ automobile_refinish_spray_coating_scenarios →
      automobile_refinish_spray_coating Ymist s Ys KCk Ysf b h ED NWexp NS EY BW ATc AT =
        .error (.nameError "ScenarioException")) ∧
    (∀ (s : String) (KCk b h ED NWexp NS EY BW ATc AT : ℚ),
      ¬(ED < 0 ∨ ED > 365) → ¬(EY < 0) → ¬(BW < 0) → ¬(ATc < 0) →
      normalize_scenario s ∈ automobile_spray_coating_scenarios →
      run_ok (automobile_spray_coating s KCk b h ED NWexp NS EY BW ATc AT) = true ∧
      run_scenario (automobile_spray_coating s KCk b h ED NWexp NS EY BW ATc AT) =
        some (normalize_scenario s)) ∧
    (∀ (s : String) (KCk b h ED NWexp NS EY BW ATc AT : ℚ),
      ¬(ED < 0 ∨ ED > 365) → ¬(EY < 0) → ¬(BW < 0) → ¬(ATc < 0) →
      normalize_scenario s ∉ automobile_spray_coating_scenarios →
      automobile_spray_coating s KCk b h ED NWexp NS EY BW ATc AT =
        .error (.nameError "ScenarioException")) ∧
    (∀ (Ymist : ℚ) (s : String) (KCk : ℚ) (Ys : Option ℚ)
       (Ysf b h ED NWexp NS EY BW ATc AT : ℚ),
      ¬(ED < 0 ∨ ED > 365) → ¬(EY < 0) → ¬(BW < 0) → ¬(ATc < 0) →
      normalize_scenario s ∈ uv_roll_coating_scenarios →
      ¬(Ymist < 0 ∨ Ymist > 1) → ¬(Ysf < 0 ∨ Ysf > 1) →
      ¬(Ys.getD (min (Ymist / Ysf) 1) < 0 ∨ Ys.getD (min (Ymist / Ysf) 1) > 1) →
      ¬(b < 0 ∨ b > 79/10) → ¬(h < 0 ∨ h > 24) →
      run_ok (uv_roll_coating Ymist s KCk Ys Ysf b h ED NWexp NS EY BW ATc AT) = true ∧
      run_scenario (uv_roll_coating Ymist s KCk Ys Ysf b h ED NWexp NS EY BW ATc AT) =
        some (normalize_scenario s)) ∧
    (∀ (Ymist : ℚ) (s : String) (KCk : ℚ) (Ys : Option ℚ)
       (Ysf b h ED NWexp NS EY BW ATc AT : ℚ),
      ¬(ED < 0 ∨ ED > 365) → ¬(EY < 0) → ¬(BW < 0) → ¬(ATc < 0) →
      normalize_scenario s ∉ uv_roll_coating_scenarios →
      uv_roll_coating Ymist s KCk Ys Ysf b h ED NWexp NS EY BW ATc AT =
        .error (.nameError "ScenarioException")) ∧
    (∀ (Cv MW h : ℚ) (s : String) (Cm : Option ℚ)
       (Vm Ys b ED NWexp NS EY BW ATc AT : ℚ),
      ¬(ED < 0 ∨ ED > 365) → ¬(EY < 0) → ¬(BW < 0) → ¬(ATc < 0) →
      s ∈ user_defined_inhalation_scenarios →
      ¬(Vm < 0) → ¬(Ys < 0 ∨ Ys > 1) → ¬(Cm.getD (Cv * MW / Vm * Ys) < 0) →
      ¬(b < 0 ∨ b > 79/10) → ¬(h < 0 ∨ h > 24) →
      run_ok (user_defined_inhalation Cv MW h s Cm Vm Ys b ED NWexp NS EY BW ATc AT) = true ∧
      run_scenario (user_defined_inhalation Cv MW h s Cm Vm Ys b ED NWexp NS EY BW ATc AT) =
        some (normalize_scenario s)) ∧
    (∀ (Cv MW h : ℚ) (s : String) (Cm : Option ℚ)
       (Vm Ys b ED NWexp NS EY BW ATc AT : ℚ),
      ¬(ED < 0 ∨ ED > 365) → ¬(EY < 0) → ¬(BW < 0) → ¬(ATc < 0) →
      s ∉ user_defined_inhalation_scenarios →
      user_defined_inhalation Cv MW h s Cm Vm Ys b ED NWexp NS EY BW ATc AT =
        .error (.nameError "ScenarioException")) := by
  refine ⟨?_, one_hand_liquid_contact_scenario_fail, ?_, two_hand_liquid_contact_scenario_fail,
    ?_, two_hand_liquid_immersion_scenario_fail, ?_, two_hand_solids_contact_scenario_fail,
    ?_, two_hand_container_surface_contact_scenario_fail, ?_, user_defined_dermal_scenario_fail,
    ?_, small_volume_solids_handling_scenario_fail, ?_, mass_balance_scenario_fail,
    ?_, pel_limiting_particulates_scenario_fail, ?_, pel_limiting_vapors_scenario_fail,
    ?_, total_pnor_pel_limiting_scenario_fail, ?_, respirable_pnor_pel_limiting_scenario_fail,
    ?_, automobile_oem_spray_coating_scenario_fail, ?_, automobile_refinish_spray_coating_scenario_fail,
    ?_, automobile_spray_coating_scenario_fail, ?_, uv_roll_coating_scenario_fail,
    ?_, user_defined_inhalation_scenario_fail⟩
  · intro yd s S Qu FT ED NWexp NS EY BW ATc AT hED hEY hBW hATc hs hFT hyd
    rw [one_hand_liquid_contact_success yd s S Qu FT ED NWexp NS EY BW ATc AT
      hED hEY hBW hATc hs hFT hyd]
    exact ⟨rfl, rfl⟩
  · intro yd s S Qu FT ED NWexp NS EY BW ATc AT hED hEY hBW hATc hs hFT hyd
    rw [two_hand_liquid_contact_success yd s S Qu FT ED NWexp NS EY BW ATc AT
      hED hEY hBW hATc hs hFT hyd]
    exact ⟨rfl, rfl⟩
  · intro yd s S Qu FT ED NWexp NS EY BW ATc AT hED hEY hBW hATc hs hFT hyd
    rw [two_hand_liquid_immersion_success yd s S Qu FT ED NWexp NS EY BW ATc AT
      hED hEY hBW hATc hs hFT hyd]
    exact ⟨rfl, rfl⟩
  · intro yd s SQu FT ED NWexp NS EY BW ATc AT hED hEY hBW hATc hs hFT hyd
    rw [two_hand_solids_contact_success yd s SQu FT ED NWexp NS EY BW ATc AT
      hED hEY hBW hATc hs hFT hyd]
    exact ⟨rfl, rfl⟩
  · intro yd s SQu FT ED NWexp NS EY BW ATc AT hED hEY hBW hATc hs hFT hyd
    rw [two_hand_container_surface_contact_success yd s SQu FT ED NWexp NS EY BW ATc AT
      hED hEY hBW hATc hs hFT hyd]
    exact ⟨rfl, rfl⟩
  · intro yd s S Qu FT ED NWexp NS EY BW ATc AT hED hEY hBW hATc hs hFT hyd
    rw [user_defined_dermal_success yd s S Qu FT ED NWexp NS EY BW ATc AT
      hED hEY hBW hATc hs hFT hyd]
    exact ⟨rfl, rfl⟩
  · intro ys s EF AH Sd ED NWexp NS EY BW ATc AT hED hEY hBW hATc hs hAH hYs hSd
    rw [small_volume_solids_handling_success ys s EF AH Sd ED NWexp NS EY BW ATc AT
      hED hEY hBW hATc hs hAH hYs hSd]
    exact ⟨rfl, rfl⟩
  · intro G MW VP X s T Q k Vm b h vz ED NWexp NS EY BW ATc AT hED hEY hBW hATc hs
    rw [mass_balance_success G MW VP X s T Q k Vm b h vz ED NWexp NS EY BW ATc AT
      hED hEY hBW hATc hs]
    exact ⟨rfl, rfl⟩
  · intro ys s KCk Ypel b h ED NWexp NS EY BW ATc AT hED hEY hBW hATc hs hYs hYp hb hh
    rw [pel_limiting_particulates_success ys s KCk Ypel b h ED NWexp NS EY BW ATc AT
      hED hEY hBW hATc hs hYs hYp hb hh]
    exact ⟨rfl, rfl⟩
  · intro Cvk VP ys MW VPpel Ypel MWpel X s Vm b h ED NWexp NS EY BW ATc AT
      hED hEY hBW hATc hs hYs hX hVm hb hh
    rw [pel_limiting_vapors_success Cvk VP ys MW VPpel Ypel MWpel X s Vm b h
      ED NWexp NS EY BW ATc AT hED hEY hBW hATc hs hYs hX hVm hb hh]
    exact ⟨rfl, rfl⟩
  · intro ys s KCk b h ED NWexp NS EY BW ATc AT hED hEY hBW hATc hs hYs hb hh
    rw [total_pnor_pel_limiting_success ys s KCk b h ED NWexp NS EY BW ATc AT
      hED hEY hBW hATc hs hYs hb hh]
    exact ⟨rfl, rfl⟩
  · intro ys s KCk b h ED NWexp NS EY BW ATc AT hED hEY hBW hATc hs hYs hb hh
    rw [respirable_pnor_pel_limiting_success ys s KCk b h ED NWexp NS EY BW ATc AT
      hED hEY hBW hATc hs hYs hb hh]
    exact ⟨rfl, rfl⟩
  · intro Ymist s KCk Ys Ysf b h ED NWexp NS EY BW ATc AT
      hED hEY hBW hATc hs hYm hYsf hYs hb hh
    rw [automobile_oem_spray_coating_success Ymist s KCk Ys Ysf b h ED NWexp NS EY BW ATc AT
      hED hEY hBW hATc hs hYm hYsf hYs hb hh]
    exact ⟨rfl, rfl⟩
  · intro Ymist s Ys KCk Ysf b h ED NWexp NS EY BW ATc AT
      hED hEY hBW hATc hs hYm hYsf hYs hb hh
    rw [automobile_refinish_spray_coating_success Ymist s Ys KCk Ysf b h ED NWexp NS EY BW ATc AT
      hED hEY hBW hATc hs hYm hYsf hYs hb hh]
    exact ⟨rfl, rfl⟩
  · intro s KCk b h ED NWexp NS EY BW ATc AT hED hEY hBW hATc hs
    rw [automobile_spray_coating_success s KCk b h ED NWexp NS EY BW ATc AT
      hED hEY hBW hATc hs]
    exact ⟨rfl, rfl⟩
  · intro Ymist s KCk Ys Ysf b h ED NWexp NS EY BW ATc AT
      hED hEY hBW hATc hs hYm hYsf hYs hb hh
    rw [uv_roll_coating_success Ymist s KCk Ys Ysf b h ED NWexp NS EY BW ATc AT
      hED hEY hBW hATc hs hYm hYsf hYs hb hh]
    exact ⟨rfl, rfl⟩
  · intro Cv MW h s Cm Vm Ys b ED NWexp NS EY BW ATc AT
      hED hEY hBW hATc hs hVm hYs hCm hb hh
    rw [user_defined_inhalation_success Cv MW h s Cm Vm Ys b ED NWexp NS EY BW ATc AT
      hED hEY hBW hATc hs hVm hYs hCm hb hh]
    exact ⟨rfl, rfl⟩

/-- Claim C8: every dermal-family constructor ignores its `AT` argument
(the base class stores `"AT": EY`), so dermal `ADD` divides by `EY`; every
inhalation-family constructor stores the caller's `AT` and its `ADD`
divides by that `AT`. -/
theorem C8_averaging_time :
    (∀ (yd : ℚ) (s : String) (S Qu FT ED NWexp NS EY BW ATc AT AT' : ℚ),
      one_hand_liquid_contact yd s S Qu FT ED NWexp NS EY BW ATc AT =
      one_hand_liquid_contact yd s S Qu FT ED NWexp NS EY BW ATc AT') ∧
    (∀ (yd : ℚ) (s : String) (S Qu FT ED NWexp NS EY BW ATc AT : ℚ) (m : ModelInstance),
      one_hand_liquid_contact yd s S Qu FT ED NWexp NS EY BW ATc AT = .ok m →
      input_val (one_hand_liquid_contact yd s S Qu FT ED NWexp NS EY BW ATc AT) "AT" =
        some EY ∧
      ∃ pdr, output_val (one_hand_liquid_contact yd s S Qu FT ED NWexp NS EY BW ATc AT)
          "Dexp" = some pdr ∧
        output_val (one_hand_liquid_contact yd s S Qu FT ED NWexp NS EY BW ATc AT) "ADD" =
          some (pdr * ED * EY / (BW * EY * 365))) ∧
    (∀ (yd : ℚ) (s : String) (S Qu FT ED NWexp NS EY BW ATc AT AT' : ℚ),
      two_hand_liquid_contact yd s S Qu FT ED NWexp NS EY BW ATc AT =
      two_hand_liquid_contact yd s S Qu FT ED NWexp NS EY BW ATc AT') ∧
    (∀ (yd : ℚ) (s : String) (S Qu FT ED NWexp NS EY BW ATc AT : ℚ) (m : ModelInstance),
      two_hand_liquid_contact yd s S Qu FT ED NWexp NS EY BW ATc AT = .ok m →
      input_val (two_hand_liquid_contact yd s S Qu FT ED NWexp NS EY BW ATc AT) "AT" =
        some EY ∧
      ∃ pdr, output_val (two_hand_liquid_contact yd s S Qu FT ED NWexp NS EY BW ATc AT)
          "Dexp" = some pdr ∧
        output_val (two_hand_liquid_contact yd s S Qu FT ED NWexp NS EY BW ATc AT) "ADD" =
          some (pdr * ED * EY / (BW * EY * 365))) ∧
    (∀ (yd : ℚ) (s : String) (S Qu FT ED NWexp NS EY BW ATc AT AT' : ℚ),
      two_hand_liquid_immersion yd s S Qu FT ED NWexp NS EY BW ATc AT =
      two_hand_liquid_immersion yd s S Qu FT ED NWexp NS EY BW ATc AT') ∧
    (∀ (yd : ℚ) (s : String) (S Qu FT ED NWexp NS EY BW ATc AT : ℚ) (m : ModelInstance),
      two_hand_liquid_immersion yd s S Qu FT ED NWexp NS EY BW ATc AT = .ok m →
      input_val (two_hand_liquid_immersion yd s S Qu FT ED NWexp NS EY BW ATc AT) "AT" =
        some EY ∧
      ∃ pdr, output_val (two_hand_liquid_immersion yd s S Qu FT ED NWexp NS EY BW ATc AT)
          "Dexp" = some pdr ∧
        output_val (two_hand_liquid_immersion yd s S Qu FT ED NWexp NS EY BW ATc AT) "ADD" =
          some (pdr * ED * EY / (BW * EY * 365))) ∧
    (∀ (yd : ℚ) (s : String) (SQu FT ED NWexp NS EY BW ATc AT AT' : ℚ),
      two_hand_solids_contact yd s SQu FT ED NWexp NS EY BW ATc AT =
      two_hand_solids_contact yd s SQu FT ED NWexp NS EY BW ATc AT') ∧
    (∀ (yd : ℚ) (s : String) (SQu FT ED NWexp NS EY BW ATc AT : ℚ) (m : ModelInstance),
      two_hand_solids_contact yd s SQu FT ED NWexp NS EY BW ATc AT = .ok m →
      input_val (two_hand_solids_contact yd s SQu FT ED NWexp NS EY BW ATc AT) "AT" =
        some EY ∧
      ∃ pdr, output_val (two_hand_solids_contact yd s SQu FT ED NWexp NS EY BW ATc AT)
          "Dexp" = some pdr ∧
        output_val (two_hand_solids_contact yd s SQu FT ED NWexp NS EY BW ATc AT) "ADD" =
          some (pdr * ED * EY / (BW * EY * 365))) ∧
    (∀ (yd : ℚ) (s : String) (SQu FT ED NWexp NS EY BW ATc AT AT' : ℚ),
      two_hand_container_surface_contact yd s SQu FT ED NWexp NS EY BW ATc AT =
      two_hand_container_surface_contact yd s SQu FT ED NWexp NS EY BW ATc AT') ∧
    (∀ (yd : ℚ) (s : String) (SQu FT ED NWexp NS EY BW ATc AT : ℚ) (m : ModelInstance),
      two_hand_container_surface_contact yd s SQu FT ED NWexp NS EY BW ATc AT = .ok m →
      input_val (two_hand_container_surface_contact yd s SQu FT ED NWexp NS EY BW ATc AT)
        "AT" = some EY ∧
      ∃ pdr, output_val (two_hand_container_surface_contact yd s SQu FT ED NWexp NS EY BW ATc AT)
          "Dexp" = some pdr ∧
        output_val (two_hand_container_surface_contact yd s SQu FT ED NWexp NS EY BW ATc AT)
          "ADD" = some (pdr * ED * EY / (BW * EY * 365))) ∧
    (∀ (yd : ℚ) (s : String) (S Qu FT ED NWexp NS EY BW ATc AT AT' : ℚ),
      user_defined_dermal yd s S Qu FT ED NWexp NS EY BW ATc AT =
      user_defined_dermal yd s S Qu FT ED NWexp NS EY BW ATc AT') ∧
    (∀ (yd : ℚ) (s : String) (S Qu FT ED NWexp NS EY BW ATc AT : ℚ) (m : ModelInstance),
      user_defined_dermal yd s S Qu FT ED NWexp NS EY BW ATc AT = .ok m →
      input_val (user_defined_dermal yd s S Qu FT ED NWexp NS EY BW ATc AT) "AT" =
        some EY ∧
      ∃ pdr, output_val (user_defined_dermal yd s S Qu FT ED NWexp NS EY BW ATc AT)
          "Dexp" = some pdr ∧
        output_val (user_defined_dermal yd s S Qu FT ED NWexp NS EY BW ATc AT) "ADD" =
          some (pdr * ED * EY / (BW * EY * 365))) ∧
    (∀ (ys : ℚ) (s : String) (EF AH Sd ED NWexp NS EY BW ATc AT : ℚ) (m : ModelInstance),
      small_volume_solids_handling ys s EF AH Sd ED NWexp NS EY BW ATc AT = .ok m →
      input_val (small_volume_solids_handling ys s EF AH Sd ED NWexp NS EY BW ATc AT) "AT" =
        some AT ∧
      ∃ pdr, output_val (small_volume_solids_handling ys s EF AH Sd ED NWexp NS EY BW ATc AT)
          "I" = some pdr ∧
        output_val (small_volume_solids_handling ys s EF AH Sd ED NWexp NS EY BW ATc AT)
          "ADD" = some (pdr * ED * EY / (BW * AT * 365))) ∧
    (∀ (G MW VP X : ℚ) (s : String) (T Q k Vm b h vz ED NWexp NS EY BW ATc AT : ℚ)
       (m : ModelInstance),
      mass_balance G MW VP X s T Q k Vm b h vz ED NWexp NS EY BW ATc AT = .ok m →
      input_val (mass_balance G MW VP X s T Q k Vm b h vz ED NWexp NS EY BW ATc AT) "AT" =
        some AT ∧
      ∃ pdr, output_val (mass_balance G MW VP X s T Q k Vm b h vz ED NWexp NS EY BW ATc AT)
          "I" = some pdr ∧
        output_val (mass_balance G MW VP X s T Q k Vm b h vz ED NWexp NS EY BW ATc AT)
          "ADD" = some (pdr * ED * EY / (BW * AT * 365))) ∧
    (∀ (ys : ℚ) (s : String) (KCk Ypel b h ED NWexp NS EY BW ATc AT : ℚ) (m : ModelInstance),
      pel_limiting_particulates ys s KCk Ypel b h ED NWexp NS EY BW ATc AT = .ok m →
      input_val (pel_limiting_particulates ys s KCk Ypel b h ED NWexp NS EY BW ATc AT) "AT" =
        some AT ∧
      ∃ pdr, output_val (pel_limiting_particulates ys s KCk Ypel b h ED NWexp NS EY BW ATc AT)
          "I" = some pdr ∧
        output_val (pel_limiting_particulates ys s KCk Ypel b h ED NWexp NS EY BW ATc AT)
          "ADD" = some (pdr * ED * EY / (BW * AT * 365))) ∧
    (∀ (Cvk VP ys MW VPpel Ypel MWpel X : ℚ) (s : String)
       (Vm b h ED NWexp NS EY BW ATc AT : ℚ) (m : ModelInstance),
      pel_limiting_vapors Cvk VP ys MW VPpel Ypel MWpel X s Vm b h ED NWexp NS EY BW ATc AT =
        .ok m →
      input_val (pel_limiting_vapors Cvk VP ys MW VPpel Ypel MWpel X s Vm b h
        ED NWexp NS EY BW ATc AT) "AT" = some AT ∧
      ∃ pdr, output_val (pel_limiting_vapors Cvk VP ys MW VPpel Ypel MWpel X s Vm b h
          ED NWexp NS EY BW ATc AT) "I" = some pdr ∧
        output_val (pel_limiting_vapors Cvk VP ys MW VPpel Ypel MWpel X s Vm b h
          ED NWexp NS EY BW ATc AT) "ADD" = some (pdr * ED * EY / (BW * AT * 365))) ∧
    (∀ (ys : ℚ) (s : String) (KCk b h ED NWexp NS EY BW ATc AT : ℚ) (m : ModelInstance),
      total_pnor_pel_limiting ys s KCk b h ED NWexp NS EY BW ATc AT = .ok m →
      input_val (total_pnor_pel_limiting ys s KCk b h ED NWexp NS EY BW ATc AT) "AT" =
        some AT ∧
      ∃ pdr, output_val (total_pnor_pel_limiting ys s KCk b h ED NWexp NS EY BW ATc AT)
          "I" = some pdr ∧
        output_val (total_pnor_pel_limiting ys s KCk b h ED NWexp NS EY BW ATc AT)
          "ADD" = some (pdr * ED * EY / (BW * AT * 365))) ∧
    (∀ (ys : ℚ) (s : String) (KCk b h ED NWexp NS EY BW ATc AT : ℚ) (m : ModelInstance),
      respirable_pnor_pel_limiting ys s KCk b h ED NWexp NS EY BW ATc AT = .ok m →
      input_val (respirable_pnor_pel_limiting ys s KCk b h ED NWexp NS EY BW ATc AT) "AT" =
        some AT ∧
      ∃ pdr, output_val (respirable_pnor_pel_limiting ys s KCk b h ED NWexp NS EY BW ATc AT)
          "I" = some pdr ∧
        output_val (respirable_pnor_pel_limiting ys s KCk b h ED NWexp NS EY BW ATc AT)
          "ADD" = some (pdr * ED * EY / (BW * AT * 365))) ∧
    (∀ (Ymist : ℚ) (s : String) (KCk : ℚ) (Ys : Option ℚ)
       (Ysf b h ED NWexp NS EY BW ATc AT : ℚ) (m : ModelInstance),
      automobile_oem_spray_coating Ymist s KCk Ys Ysf b h ED NWexp NS EY BW ATc AT = .ok m →
      input_val (automobile_oem_spray_coating Ymist s KCk Ys Ysf b h ED NWexp NS EY BW ATc AT)
        "AT" = some AT ∧
      ∃ pdr, output_val (automobile_oem_spray_coating Ymist s KCk Ys Ysf b h
          ED NWexp NS EY BW ATc AT) "I" = some pdr ∧
        output_val (automobile_oem_spray_coating Ymist s KCk Ys Ysf b h
          ED NWexp NS EY BW ATc AT) "ADD" = some (pdr * ED * EY / (BW * AT * 365))) ∧
    (∀ (Ymist : ℚ) (s : String) (Ys : Option ℚ)
       (KCk Ysf b h ED NWexp NS EY BW ATc AT : ℚ) (m : ModelInstance),
      automobile_refinish_spray_coating Ymist s Ys KCk Ysf b h ED NWexp NS EY BW ATc AT =
        .ok m →
      input_val (automobile_refinish_spray_coating Ymist s Ys KCk Ysf b h
        ED NWexp NS EY BW ATc AT) "AT" = some AT ∧
      ∃ pdr, output_val (automobile_refinish_spray_coating Ymist s Ys KCk Ysf b h
          ED NWexp NS EY BW ATc AT) "I" = some pdr ∧
        output_val (automobile_refinish_spray_coating Ymist s Ys KCk Ysf b h
          ED NWexp NS EY BW ATc AT) "ADD" = some (pdr * ED * EY / (BW * AT * 365))) ∧
    (∀ (s : String) (KCk b h ED NWexp NS EY BW ATc AT : ℚ) (m : ModelInstance),
      automobile_spray_coating s KCk b h ED NWexp NS EY BW ATc AT = .ok m →
      input_val (automobile_spray_coating s KCk b h ED NWexp NS EY BW ATc AT) "AT" =
        some AT ∧
      ∃ pdr, output_val (automobile_spray_coating s KCk b h ED NWexp NS EY BW ATc AT)
          "I" = some pdr ∧
        output_val (automobile_spray_coating s KCk b h ED NWexp NS EY BW ATc AT)
          "ADD" = some (pdr * ED * EY / (BW * AT * 365))) ∧
    (∀ (Ymist : ℚ) (s : String) (KCk : ℚ) (Ys : Option ℚ)
       (Ysf b h ED NWexp NS EY BW ATc AT : ℚ) (m : ModelInstance),
      uv_roll_coating Ymist s KCk Ys Ysf b h ED NWexp NS EY BW ATc AT = .ok m →
      input_val (uv_roll_coating Ymist s KCk Ys Ysf b h ED NWexp NS EY BW ATc AT) "AT" =
        some AT ∧
      ∃ pdr, output_val (uv_roll_coating Ymist s KCk Ys Ysf b h ED NWexp NS EY BW ATc AT)
          "I" = some pdr ∧
        output_val (uv_roll_coating Ymist s KCk Ys Ysf b h ED NWexp NS EY BW ATc AT)
          "ADD" = some (pdr * ED * EY / (BW * AT * 365))) ∧
    (∀ (Cv MW h : ℚ) (s : String) (Cm : Option ℚ)
       (Vm Ys b ED NWexp NS EY BW ATc AT : ℚ) (m : ModelInstance),
      user_defined_inhalation Cv MW h s Cm Vm Ys b ED NWexp NS EY BW ATc AT = .ok m →
      input_val (user_defined_inhalation Cv MW h s Cm Vm Ys b ED NWexp NS EY BW ATc AT)
        "AT" = some AT ∧
      ∃ pdr, output_val (user_defined_inhalation Cv MW h s Cm Vm Ys b ED NWexp NS EY BW ATc AT)
          "I" = some pdr ∧
        output_val (user_defined_inhalation Cv MW h s Cm Vm Ys b ED NWexp NS EY BW ATc AT)
          "ADD" = some (pdr * ED * EY / (BW * AT * 365))) := by
  refine ⟨fun _ _ _ _ _ _ _ _ _ _ _ _ _ => rfl, ?_,
    fun _ _ _ _ _ _ _ _ _ _ _ _ _ => rfl, ?_,
    fun _ _ _ _ _ _ _ _ _ _ _ _ _ => rfl, ?_,
    fun _ _ _ _ _ _ _ _ _ _ _ _ => rfl, ?_,
    fun _ _ _ _ _ _ _ _ _ _ _ _ => rfl, ?_,
    fun _ _ _ _ _ _ _ _ _ _ _ _ _ => rfl, ?_,
    ?_, ?_, ?_, ?_, ?_, ?_, ?_, ?_, ?_, ?_, ?_⟩
  · intro yd s S Qu FT ED NWexp NS EY BW ATc AT m hm
    obtain ⟨hED, hEY, hBW, hATc, hs, hFT, hyd⟩ :=
      one_hand_liquid_contact_ok_conditions yd s S Qu FT ED NWexp NS EY BW ATc AT m hm
    rw [one_hand_liquid_contact_success yd s S Qu FT ED NWexp NS EY BW ATc AT
      hED hEY hBW hATc hs hFT hyd]
    refine ⟨?_, ?_⟩
    · simp only [one_hand_liquid_contact_instance, input_val_ok, dict_get_nil,
        dict_get_cons, String.reduceEq, reduceIte, ite_true, ite_false]
    · simp only [one_hand_liquid_contact_instance, output_val_ok, dict_get_nil,
        dict_get_cons, String.reduceEq, reduceIte, ite_true, ite_false]
      exact ⟨_, rfl, rfl⟩
  · intro yd s S Qu FT ED NWexp NS EY BW ATc AT m hm
    obtain ⟨hED, hEY, hBW, hATc, hs, hFT, hyd⟩ :=
      two_hand_liquid_contact_ok_conditions yd s S Qu FT ED NWexp NS EY BW ATc AT m hm
    rw [two_hand_liquid_contact_success yd s S Qu FT ED NWexp NS EY BW ATc AT
      hED hEY hBW hATc hs hFT hyd]
    refine ⟨?_, ?_⟩
    · simp only [two_hand_liquid_contact_instance, input_val_ok, dict_get_nil,
        dict_get_cons, String.reduceEq, reduceIte, ite_true, ite_false]
    · simp only [two_hand_liquid_contact_instance, output_val_ok, dict_get_nil,
        dict_get_cons, String.reduceEq, reduceIte, ite_true, ite_false]
      exact ⟨_, rfl, rfl⟩
  · intro yd s S Qu FT ED NWexp NS EY BW ATc AT m hm
    obtain ⟨hED, hEY, hBW, hATc, hs, hFT, hyd⟩ :=
      two_hand_liquid_immersion_ok_conditions yd s S Qu FT ED NWexp NS EY BW ATc AT m hm
    rw [two_hand_liquid_immersion_success yd s S Qu FT ED NWexp NS EY BW ATc AT
      hED hEY hBW hATc hs hFT hyd]
    refine ⟨?_, ?_⟩
    · simp only [two_hand_liquid_immersion_instance, input_val_ok, dict_get_nil,
        dict_get_cons, String.reduceEq, reduceIte, ite_true, ite_false]
    · simp only [two_hand_liquid_immersion_instance, output_val_ok, dict_get_nil,
        dict_get_cons, String.reduceEq, reduceIte, ite_true, ite_false]
      exact ⟨_, rfl, rfl⟩
  · intro yd s SQu FT ED NWexp NS EY BW ATc AT m hm
    obtain ⟨hED, hEY, hBW, hATc, hs, hFT, hyd⟩ :=
      two_hand_solids_contact_ok_conditions yd s SQu FT ED NWexp NS EY BW ATc AT m hm
    rw [two_hand_solids_contact_success yd s SQu FT ED NWexp NS EY BW ATc AT
      hED hEY hBW hATc hs hFT hyd]
    refine ⟨?_, ?_⟩
    · simp only [two_hand_solids_contact_instance, input_val_ok, dict_get_nil,
        dict_get_cons, String.reduceEq, reduceIte, ite_true, ite_false]
    · simp only [two_hand_solids_contact_instance, output_val_ok, dict_get_nil,
        dict_get_cons, String.reduceEq, reduceIte, ite_true, ite_false]
      exact ⟨_, rfl, rfl⟩
  · intro yd s SQu FT ED NWexp NS EY BW ATc AT m hm
    obtain ⟨hED, hEY, hBW, hATc, hs, hFT, hyd⟩ :=
      two_hand_container_surface_contact_ok_conditions yd s SQu FT ED NWexp NS EY BW ATc AT m hm
    rw [two_hand_container_surface_contact_success yd s SQu FT ED NWexp NS EY BW ATc AT
      hED hEY hBW hATc hs hFT hyd]
    refine ⟨?_, ?_⟩
    · simp only [two_hand_container_surface_contact_instance, input_val_ok, dict_get_nil,
        dict_get_cons, String.reduceEq, reduceIte, ite_true, ite_false]
    · simp only [two_hand_container_surface_contact_instance, output_val_ok, dict_get_nil,
        dict_get_cons, String.reduceEq, reduceIte, ite_true, ite_false]
      exact ⟨_, rfl, rfl⟩
  · intro yd s S Qu FT ED NWexp NS EY BW ATc AT m hm
    obtain ⟨hED, hEY, hBW, hATc, hs, hFT, hyd⟩ :=
      user_defined_dermal_ok_conditions yd s S Qu FT ED NWexp NS EY BW ATc AT m hm
    rw [user_defined_dermal_success yd s S Qu FT ED NWexp NS EY BW ATc AT
      hED hEY hBW hATc hs hFT hyd]
    refine ⟨?_, ?_⟩
    · simp only [user_defined_dermal_instance, input_val_ok, dict_get_nil,
        dict_get_cons, String.reduceEq, reduceIte, ite_true, ite_false]
    · simp only [user_defined_dermal_instance, output_val_ok, dict_get_nil,
        dict_get_cons, String.reduceEq, reduceIte, ite_true, ite_false]
      exact ⟨_, rfl, rfl⟩
  · intro ys s EF AH Sd ED NWexp NS EY BW ATc AT m hm
    obtain ⟨hED, hEY, hBW, hATc, hs, hAH, hYs, hSd⟩ :=
      small_volume_solids_handling_ok_conditions ys s EF AH Sd ED NWexp NS EY BW ATc AT m hm
    rw [small_volume_solids_handling_success ys s EF AH Sd ED NWexp NS EY BW ATc AT
      hED hEY hBW hATc hs hAH hYs hSd]
    refine ⟨?_, ?_⟩
    · simp only [small_volume_solids_handling_instance, input_val_ok, dict_get_nil,
        dict_get_cons, String.reduceEq, reduceIte, ite_true, ite_false]
    · simp only [small_volume_solids_handling_instance, output_val_ok, dict_get_nil,
        dict_get_cons, String.reduceEq, reduceIte, ite_true, ite_false]
      exact ⟨_, rfl, rfl⟩
  · intro G MW VP X s T Q k Vm b h vz ED NWexp NS EY BW ATc AT m hm
    obtain ⟨hED, hEY, hBW, hATc, hs⟩ :=
      mass_balance_ok_conditions G MW VP X s T Q k Vm b h vz ED NWexp NS EY BW ATc AT m hm
    rw [mass_balance_success G MW VP X s T Q k Vm b h vz ED NWexp NS EY BW ATc AT
      hED hEY hBW hATc hs]
    refine ⟨?_, ?_⟩
    · simp only [mass_balance_instance, input_val_ok, dict_get_nil,
        dict_get_cons, String.reduceEq, reduceIte, ite_true, ite_false]
    · simp only [mass_balance_instance, output_val_ok, dict_get_nil,
        dict_get_cons, String.reduceEq, reduceIte, ite_true, ite_false]
      exact ⟨_, rfl, rfl⟩
  · intro ys s KCk Ypel b h ED NWexp NS EY BW ATc AT m hm
    obtain ⟨hED, hEY, hBW, hATc, hs, hYs, hYp, hb, hh⟩ :=
      pel_limiting_particulates_ok_conditions ys s KCk Ypel b h ED NWexp NS EY BW ATc AT m hm
    rw [pel_limiting_particulates_success ys s KCk Ypel b h ED NWexp NS EY BW ATc AT
      hED hEY hBW hATc hs hYs hYp hb hh]
    refine ⟨?_, ?_⟩
    · simp only [pel_limiting_particulates_instance, input_val_ok, dict_get_nil,
        dict_get_cons, String.reduceEq, reduceIte, ite_true, ite_false]
    · simp only [pel_limiting_particulates_instance, output_val_ok, dict_get_nil,
        dict_get_cons, String.reduceEq, reduceIte, ite_true, ite_false]
      exact ⟨_, rfl, rfl⟩
  · intro Cvk VP ys MW VPpel Ypel MWpel X s Vm b h ED NWexp NS EY BW ATc AT m hm
    obtain ⟨hED, hEY, hBW, hATc, hs, hYs, hX, hVm, hb, hh⟩ :=
      pel_limiting_vapors_ok_conditions Cvk VP ys MW VPpel Ypel MWpel X s Vm b h
        ED NWexp NS EY BW ATc AT m hm
    rw [pel_limiting_vapors_success Cvk VP ys MW VPpel Ypel MWpel X s Vm b h
      ED NWexp NS EY BW ATc AT hED hEY hBW hATc hs hYs hX hVm hb hh]
    refine ⟨?_, ?_⟩
    · simp only [pel_limiting_vapors_instance, input_val_ok, dict_get_nil,
        dict_get_cons, String.reduceEq, reduceIte, ite_true, ite_false]
    · simp only [pel_limiting_vapors_instance, output_val_ok, dict_get_nil,
        dict_get_cons, String.reduceEq, reduceIte, ite_true, ite_false]
      exact ⟨_, rfl, rfl⟩
  · intro ys s KCk b h ED NWexp NS EY BW ATc AT m hm
    obtain ⟨hED, hEY, hBW, hATc, hs, hYs, hb, hh⟩ :=
      total_pnor_pel_limiting_ok_conditions ys s KCk b h ED NWexp NS EY BW ATc AT m hm
    rw [total_pnor_pel_limiting_success ys s KCk b h ED NWexp NS EY BW ATc AT
      hED hEY hBW hATc hs hYs hb hh]
    refine ⟨?_, ?_⟩
    · simp only [total_pnor_pel_limiting_instance, input_val_ok, dict_get_nil,
        dict_get_cons, String.reduceEq, reduceIte, ite_true, ite_false]
    · simp only [total_pnor_pel_limiting_instance, output_val_ok, dict_get_nil,
        dict_get_cons, String.reduceEq, reduceIte, ite_true, ite_false]
      exact ⟨_, rfl, rfl⟩
  · intro ys s KCk b h ED NWexp NS EY BW ATc AT m hm
    obtain ⟨hED, hEY, hBW, hATc, hs, hYs, hb, hh⟩ :=
      respirable_pnor_pel_limiting_ok_conditions ys s KCk b h ED NWexp NS EY BW ATc AT m hm
    rw [respirable_pnor_pel_limiting_success ys s KCk b h ED NWexp NS EY BW ATc AT
      hED hEY hBW hATc hs hYs hb hh]
    refine ⟨?_, ?_⟩
    · simp only [respirable_pnor_pel_limiting_instance, input_val_ok, dict_get_nil,
        dict_get_cons, String.reduceEq, reduceIte, ite_true, ite_false]
    · simp only [respirable_pnor_pel_limiting_instance, output_val_ok, dict_get_nil,
        dict_get_cons, String.reduceEq, reduceIte, ite_true, ite_false]
      exact ⟨_, rfl, rfl⟩
  · intro Ymist s KCk Ys Ysf b h ED NWexp NS EY BW ATc AT m hm
    obtain ⟨hED, hEY, hBW, hATc, hs, hYm, hYsf, hYs, hb, hh⟩ :=
      automobile_oem_spray_coating_ok_conditions Ymist s KCk Ys Ysf b h
        ED NWexp NS EY BW ATc AT m hm
    rw [automobile_oem_spray_coating_success Ymist s KCk Ys Ysf b h ED NWexp NS EY BW ATc AT
      hED hEY hBW hATc hs hYm hYsf hYs hb hh]
    refine ⟨?_, ?_⟩
    · simp only [automobile_oem_spray_coating_instance, input_val_ok, dict_get_nil,
        dict_get_cons, String.reduceEq, reduceIte, ite_true, ite_false]
    · simp only [automobile_oem_spray_coating_instance, output_val_ok, dict_get_nil,
        dict_get_cons, String.reduceEq, reduceIte, ite_true, ite_false]
      exact ⟨_, rfl, rfl⟩
  · intro Ymist s Ys KCk Ysf b h ED NWexp NS EY BW ATc AT m hm
    obtain ⟨hED, hEY, hBW, hATc, hs, hYm, hYsf, hYs, hb, hh⟩ :=
      automobile_refinish_spray_coating_ok_conditions Ymist s Ys KCk Ysf b h
        ED NWexp NS EY BW ATc AT m hm
    rw [automobile_refinish_spray_coating_success Ymist s Ys KCk Ysf b h
      ED NWexp NS EY BW ATc AT hED hEY hBW hATc hs hYm hYsf hYs hb hh]
    refine ⟨?_, ?_⟩
    · simp only [automobile_refinish_spray_coating_instance, input_val_ok, dict_get_nil,
        dict_get_cons, String.reduceEq, reduceIte, ite_true, ite_false]
    · simp only [automobile_refinish_spray_coating_instance, output_val_ok, dict_get_nil,
        dict_get_cons, String.reduceEq, reduceIte, ite_true, ite_false]
      exact ⟨_, rfl, rfl⟩
  · intro s KCk b h ED NWexp NS EY BW ATc AT m hm
    obtain ⟨hED, hEY, hBW, hATc, hs⟩ :=
      automobile_spray_coating_ok_conditions s KCk b h ED NWexp NS EY BW ATc AT m hm
    rw [automobile_spray_coating_success s KCk b h ED NWexp NS EY BW ATc AT
      hED hEY hBW hATc hs]
    refine ⟨?_, ?_⟩
    · simp only [automobile_spray_coating_instance, input_val_ok, dict_get_nil,
        dict_get_cons, String.reduceEq, reduceIte, ite_true, ite_false]
    · simp only [automobile_spray_coating_instance, output_val_ok, dict_get_nil,
        dict_get_cons, String.reduceEq, reduceIte, ite_true, ite_false]
      exact ⟨_, rfl, rfl⟩
  · intro Ymist s KCk Ys Ysf b h ED NWexp NS EY BW ATc AT m hm
    obtain ⟨hED, hEY, hBW, hATc, hs, hYm, hYsf, hYs, hb, hh⟩ :=
      uv_roll_coating_ok_conditions Ymist s KCk Ys Ysf b h ED NWexp NS EY BW ATc AT m hm
    rw [uv_roll_coating_success Ymist s KCk Ys Ysf b h ED NWexp NS EY BW ATc AT
      hED hEY hBW hATc hs hYm hYsf hYs hb hh]
    refine ⟨?_, ?_⟩
    · simp only [uv_roll_coating_instance, input_val_ok, dict_get_nil,
        dict_get_cons, String.reduceEq, reduceIte, ite_true, ite_false]
    · simp only [uv_roll_coating_instance, output_val_ok, dict_get_nil,
        dict_get_cons, String.reduceEq, reduceIte, ite_true, ite_false]
      exact ⟨_, rfl, rfl⟩
  · intro Cv MW h s Cm Vm Ys b ED NWexp NS EY BW ATc AT m hm
    obtain ⟨hED, hEY, hBW, hATc, hs, hVm, hYs, hCm, hb, hh⟩ :=
      user_defined_inhalation_ok_conditions Cv MW h s Cm Vm Ys b ED NWexp NS EY BW ATc AT m hm
    rw [user_defined_inhalation_success Cv MW h s Cm Vm Ys b ED NWexp NS EY BW ATc AT
      hED hEY hBW hATc hs hVm hYs hCm hb hh]
    refine ⟨?_, ?_⟩
    · simp only [user_defined_inhalation_instance, input_val_ok, dict_get_nil,
        dict_get_cons, String.reduceEq, reduceIte, ite_true, ite_false]
    · simp only [user_defined_inhalation_instance, output_val_ok, dict_get_nil,
        dict_get_cons, String.reduceEq, reduceIte, ite_true, ite_false]
      exact ⟨_, rfl, rfl⟩
